import Mathlib

/-!
# INA219 current/voltage monitor driver

A shallow embedding of `ina219.cpp` / `ina219.hpp`.

* The I2C character device behind `fd_i2cbus` is a `Transport`: for every call the driver
  makes (`ioctl`, `write`, `read`) it gives the return value (and, for `read`, the bytes put
  into the buffer) as a function of the calls made so far.  The calls themselves are
  recorded, in order, in a log of `Txn`.
* A `float` value is the rational number it stands for.  In `Calibrate` every binary32
  operation (the product for the shunt voltage, the quotient for `current_lsb`, the product
  and the quotient for `cal_reg`) and every `float` literal is rounded to binary32 by `f32`,
  since these roundings decide which branch is taken and which word is written; infinity is
  stood for by `2^128`, and NaN and the sign of zero are not modelled.  The two telemetry
  values stored by `Refresh` are kept exact.
* `uint8_t` / `uint16_t` values are natural numbers; a thrown `const char*` is the
  `Except.error` of the thrown text.
* `usleep` and the `DEBUG` output have no effect on the state and are left out.
-/

namespace ina219

/-! ## Register map -/

def REG_CONFIG : Nat := 0x00

def REG_SHUNTVOLTAGE : Nat := 0x01

def REG_BUSVOLTAGE : Nat := 0x02

def REG_POWER : Nat := 0x03

def REG_CURRENT : Nat := 0x04

def REG_CALIBRATION : Nat := 0x05

/-! ## The bus -/

/-- One system call made on the bus file descriptor. -/
inductive Txn where
  | select (address : Nat)
  | write (bytes : List Nat)
  | read (count : Nat)
  deriving DecidableEq, Repr

/-- Behaviour of the device file: what each call returns, given the calls made before it.
`ioctl log address` is the result of `ioctl(fd, I2C_SLAVE, address)`, `write log bytes` the
result of `write(fd, bytes, bytes.length)`, and `read log count` the result of
`read(fd, buf, count)` together with the bytes stored into `buf`. -/
structure Transport where
  ioctl : List Txn → Nat → Int
  write : List Txn → List Nat → Int
  read : List Txn → Nat → Int × List Nat

/-- Bytes, in memory order, of `htobe16 value`. -/
def htobe16 (value : Nat) : List Nat :=
  [value / 256 % 256, value % 256]

/-- Value of `be16toh` on the 16-bit object whose bytes, in memory order, are `b0`, `b1`. -/
def be16toh (b0 b1 : Nat) : Nat :=
  b0 * 256 + b1

/-- Contents of a two-byte buffer that was zero before `read` stored `data` into it. -/
def buf16 (data : List Nat) : List Nat :=
  [data.getD 0 0 % 256, data.getD 1 0 % 256]

/-- The 16-bit value, as `be16toh` gives it, of the two-byte buffer filled by the `read`
which the bus answers at history `log`. -/
def Transport.read16 (t : Transport) (log : List Txn) : Nat :=
  be16toh ((buf16 (t.read log 2).2).getD 0 0) ((buf16 (t.read log 2).2).getD 1 0)

/-- A bus on which every `write` and every `read` transfers as many bytes as were asked
for. -/
def Transport.FullLength (t : Transport) : Prop :=
  (∀ log bytes, t.write log bytes = bytes.length) ∧ (∀ log count, (t.read log count).1 = count)

/-! ## Device object -/

/-- Data members of `class TINA219`. -/
structure TINA219 where
  fd_i2cbus : Int
  address : Nat
  current_lsb : ℚ
  voltage : ℚ
  current : ℚ

def TINA219.Voltage (self : TINA219) : ℚ :=
  self.voltage

def TINA219.Current (self : TINA219) : ℚ :=
  self.current

def TINA219.Power (self : TINA219) : ℚ :=
  self.Voltage * self.Current

/-! ## Register access -/

/-- Embedding of `TINA219::WriteRegister`. -/
def WriteRegister (t : Transport) (log : List Txn) (register_address value : Nat)
    (verify : Bool) : Except String Unit × List Txn :=
  let buffer := register_address :: htobe16 value
  let log1 := log ++ [Txn.write buffer]
  if t.write log buffer ≠ 3 then
    (.error "failed to write to register", log1)
  else if verify then
    let r := t.read log1 2
    let log2 := log1 ++ [Txn.read 2]
    if r.1 ≠ 2 then
      (.error "failed to read register after write", log2)
    else if buf16 r.2 ≠ htobe16 value then
      (.error "register write verify failed", log2)
    else
      (.ok (), log2)
  else
    (.ok (), log1)

/-- Embedding of `TINA219::ReadRegister`. -/
def ReadRegister (t : Transport) (log : List Txn) (register_address : Nat) :
    Except String Nat × List Txn :=
  let log1 := log ++ [Txn.write [register_address]]
  if t.write log [register_address] ≠ 1 then
    (.error "failed to set the register pointer for a register read operation", log1)
  else
    let r := t.read log1 2
    let log2 := log1 ++ [Txn.read 2]
    if r.1 ≠ 2 then
      (.error "failed to read register value", log2)
    else
      (.ok (be16toh ((buf16 r.2).getD 0 0) ((buf16 r.2).getD 1 0)), log2)

/-- Embedding of `TINA219::Reset`. -/
def Reset (t : Transport) (self : TINA219) (log : List Txn) : Except String Unit × List Txn :=
  let log0 := log ++ [Txn.select self.address]
  if t.ioctl log self.address = -1 then
    (.error "ioctl(this->fd_i2cbus, I2C_SLAVE, this->address)", log0)
  else
    match WriteRegister t log0 REG_CONFIG 0xffff false with
    | (.error e, log1) => (.error e, log1)
    | (.ok _, log1) =>
      match ReadRegister t log1 REG_CONFIG with
      | (.error e, log2) => (.error e, log2)
      | (.ok config_reg, log2) =>
        match ReadRegister t log2 REG_CALIBRATION with
        | (.error e, log3) => (.error e, log3)
        | (.ok cal_reg, log3) =>
          if config_reg ≠ 0x399f ∨ cal_reg ≠ 0 then
            (.error "chip reset failed", log3)
          else
            (.ok (), log3)

/-! ## binary32 arithmetic -/

/-- The integer nearest to `x`; a value half-way between two integers goes to the even
one. -/
def roundEven (x : ℚ) : ℤ :=
  if x - ⌊x⌋ < 1 / 2 then ⌊x⌋
  else if 1 / 2 < x - ⌊x⌋ then ⌊x⌋ + 1
  else if ⌊x⌋ % 2 = 0 then ⌊x⌋
  else ⌊x⌋ + 1

/-- The multiple of `2^e` nearest to `x`, ties to the even multiple. -/
def round_to_grid (e : ℤ) (x : ℚ) : ℚ :=
  (roundEven (x / 2 ^ e) : ℚ) * 2 ^ e

/-- The exponent of the last mantissa bit which binary32 has at the magnitude of `x`:
24 significant bits for a normal number, `2^-149` below `2^-126`. -/
def f32_exponent (x : ℚ) : ℤ :=
  max (Int.log 2 |x|) (-126) - 23

/-- The result of a binary32 operation that has rounded to `r` with unbounded exponent:
`r` itself, or, from `2^128` on, infinity, for which `2^128` (with the sign) stands. -/
def f32_overflow (r : ℚ) : ℚ :=
  if 2 ^ 128 ≤ r then 2 ^ 128 else if r ≤ -2 ^ 128 then -2 ^ 128 else r

/-- The binary32 (`float`) value of the real number `x`, rounded to nearest, ties to
even. -/
def f32 (x : ℚ) : ℚ :=
  f32_overflow (round_to_grid (f32_exponent x) x)

/-- The binary32 quotient `a / b`; a division by zero gives infinity with the sign of `a`
(the sign of a zero is not kept; `0 / 0` is taken as 0). -/
def f32_div (a b : ℚ) : ℚ :=
  if b = 0 then (if 0 < a then 2 ^ 128 else if a < 0 then -2 ^ 128 else 0) else f32 (a / b)

/-! ## Calibration -/

/-- Embedding of the static function `SampleToResAvg`. -/
def SampleToResAvg (ns : Nat) : Except String Nat :=
  if ns = 0 then .error "n_sample must at least be 1"
  else if ns = 1 then .ok 0b0011
  else if ns = 2 then .ok 0b1001
  else if ns ≤ 4 then .ok 0b1010
  else if ns ≤ 8 then .ok 0b1011
  else if ns ≤ 16 then .ok 0b1100
  else if ns ≤ 32 then .ok 0b1101
  else if ns ≤ 64 then .ok 0b1110
  else if ns ≤ 128 then .ok 0b1111
  else .error "n_sample must be <= 128"

/-- The local `struct config_t` of `Calibrate`: seven bit-fields of one `uint16_t`. -/
structure config_t where
  mode : Nat
  sadc : Nat
  badc : Nat
  pg : Nat
  brng : Nat
  __unused0 : Nat
  rst : Nat

/-- The value of `*(uint16_t*)&config`: every field holds its value modulo its width
(3, 4, 4, 2, 1, 1, 1 bits) and the fields are allocated from the least-significant bit up,
in declaration order. -/
def config_t.toUInt16 (config : config_t) : Nat :=
  config.mode % 8 + config.sadc % 16 * 8 + config.badc % 16 * 128 + config.pg % 4 * 2048
    + config.brng % 2 * 8192 + config.__unused0 % 2 * 16384 + config.rst % 2 * 32768

/-- Modelled from the spec: the decoding of a 16-bit configuration word into its bit-fields
"by shift and mask" (`mode` at bits 0..2, `sadc` at 3..6, `badc` at 7..10, `pg` at 11..12,
`brng` at 13, reserved at 14, `rst` at 15). The source builds a `config_t` and writes it out
as one word; it has no function that takes a word apart again. -/
def config_t.ofUInt16 (w : Nat) : config_t where
  mode := w &&& 0x7
  sadc := (w >>> 3) &&& 0xf
  badc := (w >>> 7) &&& 0xf
  pg := (w >>> 11) &&& 0x3
  brng := (w >>> 13) &&& 0x1
  __unused0 := (w >>> 14) &&& 0x1
  rst := (w >>> 15) &&& 0x1

/-- The conversion `(uint16_t)x` of a floating-point value: the fractional part is
discarded. Where the integer left does not fit into 16 bits C++ gives no rule; here it is
taken modulo `2^16`. -/
def float_to_uint16 (x : ℚ) : Nat :=
  ((if 0 ≤ x then ⌊x⌋ else ⌈x⌉) % 65536).toNat

/-- The value which `Calibrate` assigns to `config.pg`. The operand is the binary32 shunt
voltage and the literals `0.04`, `0.08`, `0.16` are `double`: the comparison is made in
binary64, where the operand is exact and each literal is off by less than `2^-55` from the
decimal, which no binary32 value lies within; so the comparisons are those with the
decimals. -/
def Calibrate.pg (max_shunt_voltage : ℚ) : Nat :=
  if max_shunt_voltage ≤ 0.04 then 0b00
  else if max_shunt_voltage ≤ 0.08 then 0b01
  else if max_shunt_voltage ≤ 0.16 then 0b10
  else 0b11

/-- The value which `Calibrate` assigns to `config.brng`. -/
def Calibrate.brng (max_voltage : ℚ) : Nat :=
  if max_voltage > 16 then 1 else 0

/-- The local `config` of `Calibrate` once all its fields are assigned. -/
def Calibrate.config (max_voltage max_shunt_voltage : ℚ) (sadc badc : Nat) : config_t where
  mode := 0b111
  sadc := sadc
  badc := badc
  pg := Calibrate.pg max_shunt_voltage
  brng := Calibrate.brng max_voltage
  __unused0 := 0
  rst := 0

/-- The binary32 value `0.04096f / (this->current_lsb * r_shunt_ohm)` which `Calibrate`
converts to `uint16_t`: the literal, the product and the quotient are each rounded. -/
def Calibrate.quotient (current_lsb r_shunt_ohm : ℚ) : ℚ :=
  f32_div (f32 0.04096) (f32 (current_lsb * r_shunt_ohm))

/-- The local `cal_reg` of `Calibrate`:
`(uint16_t)(0.04096f / (this->current_lsb * r_shunt_ohm)) & ~1`. On a 16-bit operand the
mask `~1` keeps bits 1..15, which is `0xfffe`. -/
def Calibrate.cal_reg (current_lsb r_shunt_ohm : ℚ) : Nat :=
  float_to_uint16 (Calibrate.quotient current_lsb r_shunt_ohm) &&& 0xfffe

/-- Embedding of `TINA219::Calibrate`. -/
def Calibrate (t : Transport) (self : TINA219) (log : List Txn)
    (max_voltage max_current_amps r_shunt_ohm : ℚ) (n_sample_voltage n_sample_current : Nat) :
    Except String Unit × TINA219 × List Txn :=
  if max_voltage > 32 then
    (.error "max_voltage > 32", self, log)
  else
    let max_shunt_voltage := f32 (max_current_amps * r_shunt_ohm)
    if max_shunt_voltage > f32 0.32 then
      (.error "shunt resistor has a too high ohm value for the desired target current (shunt voltage will exeed 320mV)", self, log)
    else
      match Reset t self log with
      | (.error e, log1) => (.error e, self, log1)
      | (.ok _, log1) =>
        match SampleToResAvg n_sample_current with
        | .error e => (.error e, self, log1)
        | .ok sadc =>
          match SampleToResAvg n_sample_voltage with
          | .error e => (.error e, self, log1)
          | .ok badc =>
            let config := Calibrate.config max_voltage max_shunt_voltage sadc badc
            match WriteRegister t log1 REG_CONFIG config.toUInt16 true with
            | (.error e, log2) => (.error e, self, log2)
            | (.ok _, log2) =>
              let self1 := { self with current_lsb := f32 (max_current_amps / 32768) }
              let cal_reg := Calibrate.cal_reg self1.current_lsb r_shunt_ohm
              match WriteRegister t log2 REG_CALIBRATION cal_reg true with
              | (.error e, log3) => (.error e, self1, log3)
              | (.ok _, log3) => (.ok (), self1, log3)

/-! ## Telemetry -/

/-- The value of a `uint16_t` converted to `int16_t`. -/
def to_int16 (value : Nat) : Int :=
  if value % 65536 < 32768 then (value % 65536 : Nat) else (value % 65536 : Nat) - 65536

/-- Embedding of `TINA219::Refresh`. -/
def Refresh (t : Transport) (self : TINA219) (log : List Txn) :
    Except String Unit × TINA219 × List Txn :=
  let log0 := log ++ [Txn.select self.address]
  if t.ioctl log self.address = -1 then
    (.error "ioctl(this->fd_i2cbus, I2C_SLAVE, this->address)", self, log0)
  else
    match ReadRegister t log0 REG_BUSVOLTAGE with
    | (.error e, log1) => (.error e, self, log1)
    | (.ok voltage_reg, log1) =>
      let voltage_reg := voltage_reg / 8
      match ReadRegister t log1 REG_CURRENT with
      | (.error e, log2) => (.error e, self, log2)
      | (.ok r, log2) =>
        let current_reg := to_int16 r
        (.ok (), { self with voltage := voltage_reg * 0.004,
                             current := self.current_lsb * current_reg }, log2)

/-! ## Construction -/

/-- Embedding of the constructor `TINA219(fd_i2cbus, address)`. -/
def TINA219.create (t : Transport) (log : List Txn) (fd_i2cbus : Int) (address : Nat) :
    Except String TINA219 × List Txn :=
  let self : TINA219 := ⟨fd_i2cbus, address, 0, 0, 0⟩
  if fd_i2cbus < 0 then
    (.error "fd_i2cbus < 0", log)
  else if address > 127 then
    (.error "address > 127", log)
  else
    match Reset t self log with
    | (.error e, log1) => (.error e, log1)
    | (.ok _, log1) => (.ok self, log1)

/-- Embedding of the constructor `TINA219(fd_i2cbus, address, max_voltage,
max_current_amps, r_shunt_ohm, n_sample_voltage, n_sample_current)`. -/
def TINA219.createCalibrated (t : Transport) (log : List Txn) (fd_i2cbus : Int) (address : Nat)
    (max_voltage max_current_amps r_shunt_ohm : ℚ) (n_sample_voltage n_sample_current : Nat) :
    Except String TINA219 × List Txn :=
  let self : TINA219 := ⟨fd_i2cbus, address, 0, 0, 0⟩
  if fd_i2cbus < 0 then
    (.error "fd_i2cbus < 0", log)
  else if address > 127 then
    (.error "address > 127", log)
  else
    match Calibrate t self log max_voltage max_current_amps r_shunt_ohm
        n_sample_voltage n_sample_current with
    | (.error e, _, log1) => (.error e, log1)
    | (.ok _, self1, log1) => (.ok self1, log1)

/-! ## A simulated chip -/

/-- A bus with a chip in its power-on state: every call completes at full length, a read
after a register-pointer write gives the default of that register, and a read after a
three-byte register write gives back the value just written. -/
def simChip : Transport where
  ioctl := fun _ _ => 0
  write := fun _ bytes => bytes.length
  read := fun log count =>
    match log.getLast? with
    | some (Txn.write [0]) => (count, [0x39, 0x9f])
    | some (Txn.write [_, hi, lo]) => (count, [hi, lo])
    | _ => (count, [0, 0])

/-- A bus on which nothing is transferred: every `write` and every `read` returns 0. -/
def deadBus : Transport where
  ioctl := fun _ _ => 0
  write := fun _ _ => 0
  read := fun _ _ => (0, [])

/-- A bus on which every call completes at full length and every `read` delivers zero
bytes only. -/
def zeroBus : Transport where
  ioctl := fun _ _ => 0
  write := fun _ bytes => bytes.length
  read := fun _ count => (count, [0, 0])

/-- The device object used in the examples: `fd_i2cbus = 3`, `address = 0x40`. -/
def dev0 : TINA219 :=
  ⟨3, 0x40, 0, 0, 0⟩

/-- A bus with a chip that is measuring: every call completes at full length, the
bus-voltage register (0x02) reads `0x1a9f`, the current register (0x04) reads `0xff88`, and
every other read delivers zero bytes. -/
def measuringChip : Transport where
  ioctl := fun _ _ => 0
  write := fun _ bytes => bytes.length
  read := fun log count =>
    match log.getLast? with
    | some (Txn.write [2]) => (count, [0x1a, 0x9f])
    | some (Txn.write [4]) => (count, [0xff, 0x88])
    | _ => (count, [0, 0])

/-- The bus of `measuringChip`, but with the read of the current register (0x04)
transferring nothing. -/
def currentReadShortBus : Transport where
  ioctl := fun _ _ => 0
  write := fun _ bytes => bytes.length
  read := fun log count =>
    match log.getLast? with
    | some (Txn.write [2]) => (count, [0x1a, 0x9f])
    | some (Txn.write [4]) => (0, [])
    | _ => (count, [0, 0])

/-- The bus of `simChip`, but with every read after a write to the calibration register
(0x05) delivering zero bytes. -/
def calibrationStuckChip : Transport where
  ioctl := fun _ _ => 0
  write := fun _ bytes => bytes.length
  read := fun log count =>
    match log.getLast? with
    | some (Txn.write [0]) => (count, [0x39, 0x9f])
    | some (Txn.write [0, hi, lo]) => (count, [hi, lo])
    | _ => (count, [0, 0])

/-- A device object that was calibrated and refreshed before: `current_lsb = 0.0001`,
`voltage = 3.404`, `current = -0.012`. -/
def dev1 : TINA219 :=
  ⟨3, 0x40, 0.0001, 3.404, -0.012⟩

/-! # Properties

## binary32 rounding -/

theorem roundEven_mono {x y : ℚ} (h : x ≤ y) : roundEven x ≤ roundEven y := by
  have hab := Int.floor_le_floor h
  have hx := Int.floor_le x
  have hy := Int.lt_floor_add_one y
  rcases lt_or_eq_of_le hab with hlt | heq
  · unfold roundEven
    split_ifs <;> omega
  · unfold roundEven
    rw [← heq]
    split_ifs <;> first | omega | (exfalso; linarith)

theorem roundEven_intCast (n : ℤ) : roundEven (n : ℚ) = n := by
  unfold roundEven
  rw [Int.floor_intCast]
  simp

theorem roundEven_of_abs_lt {x : ℚ} {n : ℤ} (h : |x - n| < 1 / 2) : roundEven x = n := by
  rw [abs_lt] at h
  obtain ⟨h1, h2⟩ := h
  rcases le_or_lt (n : ℚ) x with hge | hlt
  · have hf : ⌊x⌋ = n := by
      rw [Int.floor_eq_iff]
      constructor <;> linarith
    unfold roundEven
    rw [hf, if_pos (by linarith)]
  · have hf : ⌊x⌋ = n - 1 := by
      rw [Int.floor_eq_iff]
      push_cast
      constructor <;> linarith
    unfold roundEven
    rw [hf]
    push_cast
    rw [if_neg (by linarith), if_pos (by linarith)]
    ring

theorem roundEven_half_even {x : ℚ} {n : ℤ} (h : x = n + 1 / 2) (hn : n % 2 = 0) :
    roundEven x = n := by
  have hf : ⌊x⌋ = n := by
    rw [Int.floor_eq_iff]
    constructor <;> linarith
  unfold roundEven
  rw [hf, if_neg (by linarith), if_neg (by linarith), if_pos hn]

theorem roundEven_of_half_lt {x : ℚ} {n : ℤ} (h : (n : ℚ) + 1 / 2 < x) :
    n + 1 ≤ roundEven x := by
  rcases le_or_lt ((n : ℚ) + 1) x with hge | hlt
  · have := roundEven_mono hge
    have h1 : roundEven ((n : ℚ) + 1) = n + 1 := by
      have := roundEven_intCast (n + 1)
      push_cast at this
      exact this
    omega
  · have hf : ⌊x⌋ = n := by
      rw [Int.floor_eq_iff]
      constructor <;> linarith
    unfold roundEven
    rw [hf, if_neg (by linarith), if_pos (by linarith)]

theorem two_zpow_pos (e : ℤ) : (0 : ℚ) < 2 ^ e :=
  zpow_pos (by norm_num) e

theorem round_to_grid_mono (e : ℤ) {x y : ℚ} (h : x ≤ y) :
    round_to_grid e x ≤ round_to_grid e y := by
  unfold round_to_grid
  have h1 : x / 2 ^ e ≤ y / 2 ^ e := div_le_div_of_nonneg_right h (two_zpow_pos e).le
  have h2 : (roundEven (x / 2 ^ e) : ℚ) ≤ roundEven (y / 2 ^ e) := by
    exact_mod_cast roundEven_mono h1
  exact mul_le_mul_of_nonneg_right h2 (two_zpow_pos e).le

theorem round_to_grid_multiple (e n : ℤ) : round_to_grid e ((n : ℚ) * 2 ^ e) = n * 2 ^ e := by
  unfold round_to_grid
  rw [mul_div_assoc, div_self (two_zpow_pos e).ne', mul_one, roundEven_intCast]

theorem round_to_grid_zpow (e k : ℤ) (h : e ≤ k) : round_to_grid e (2 ^ k) = 2 ^ k := by
  have h1 : (2 : ℚ) ^ k = ((2 ^ (k - e).toNat : ℤ) : ℚ) * 2 ^ e := by
    push_cast
    rw [← zpow_natCast, ← zpow_add₀ (by norm_num : (2 : ℚ) ≠ 0)]
    congr 1
    omega
  rw [h1, round_to_grid_multiple]

theorem f32_overflow_mono {r s : ℚ} (h : r ≤ s) : f32_overflow r ≤ f32_overflow s := by
  unfold f32_overflow
  have : (0 : ℚ) < 2 ^ 128 := by positivity
  split_ifs <;> linarith

theorem f32_overflow_of_abs_lt {r : ℚ} (h : |r| < 2 ^ 128) : f32_overflow r = r := by
  rw [abs_lt] at h
  unfold f32_overflow
  rw [if_neg (by linarith), if_neg (by linarith)]

theorem log_two_eq {x : ℚ} {k : ℤ} (h1 : 2 ^ k ≤ x) (h2 : x < 2 ^ (k + 1)) :
    Int.log 2 x = k := by
  have hx : 0 < x := lt_of_lt_of_le (two_zpow_pos k) h1
  apply le_antisymm
  · have := (Int.lt_zpow_iff_log_lt (b := 2) (by norm_num) hx).1 (by exact_mod_cast h2)
    omega
  · exact (Int.zpow_le_iff_le_log (b := 2) (by norm_num) hx).1 (by exact_mod_cast h1)

theorem f32_exponent_eq {x : ℚ} {k : ℤ} (h1 : 2 ^ k ≤ |x|) (h2 : |x| < 2 ^ (k + 1)) :
    f32_exponent x = max k (-126) - 23 := by
  unfold f32_exponent
  rw [log_two_eq h1 h2]

/-- Evaluation of `f32` at a positive normal magnitude: in the binade `[2^k, 2^(k+1))` the
result is the multiple `n * 2^(k-23)` which lies within half a unit of `x`. -/
theorem f32_eval {x : ℚ} (k n : ℤ) (hk : -126 ≤ k) (h1 : 2 ^ k ≤ x) (h2 : x < 2 ^ (k + 1))
    (hn1 : (n : ℚ) - 1 / 2 < x / 2 ^ (k - 23)) (hn2 : x / 2 ^ (k - 23) < n + 1 / 2)
    (hfin : (n : ℚ) * 2 ^ (k - 23) < 2 ^ 128) : f32 x = n * 2 ^ (k - 23) := by
  have hx : 0 < x := lt_of_lt_of_le (two_zpow_pos k) h1
  have hn : 0 ≤ (n : ℚ) * 2 ^ (k - 23) := by
    have h3 : (0 : ℚ) < x / 2 ^ (k - 23) := div_pos hx (two_zpow_pos _)
    have h4 : (-1 : ℚ) / 2 < n := by linarith
    have h5 : (0 : ℤ) ≤ n := by
      by_contra hneg
      have : (n : ℚ) ≤ -1 := by exact_mod_cast (by omega : n ≤ -1)
      linarith
    exact mul_nonneg (by exact_mod_cast h5) (two_zpow_pos _).le
  unfold f32
  rw [f32_exponent_eq (by rwa [abs_of_pos hx]) (by rwa [abs_of_pos hx]), max_eq_left hk]
  unfold round_to_grid
  have hr : roundEven (x / 2 ^ (k - 23)) = n :=
    roundEven_of_abs_lt (by rw [abs_lt]; constructor <;> linarith)
  rw [hr, f32_overflow_of_abs_lt (by rw [abs_of_nonneg hn]; exact hfin)]

/-- Evaluation of `f32` half-way between two neighbours in a binade: the even one. -/
theorem f32_eval_half {x : ℚ} (k n : ℤ) (hk : -126 ≤ k) (h1 : 2 ^ k ≤ x)
    (h2 : x < 2 ^ (k + 1)) (hn : x / 2 ^ (k - 23) = n + 1 / 2) (heven : n % 2 = 0)
    (hpos : 0 ≤ n) (hfin : (n : ℚ) * 2 ^ (k - 23) < 2 ^ 128) : f32 x = n * 2 ^ (k - 23) := by
  have hx : 0 < x := lt_of_lt_of_le (two_zpow_pos k) h1
  have hn0 : 0 ≤ (n : ℚ) * 2 ^ (k - 23) :=
    mul_nonneg (by exact_mod_cast hpos) (two_zpow_pos _).le
  unfold f32
  rw [f32_exponent_eq (by rwa [abs_of_pos hx]) (by rwa [abs_of_pos hx]), max_eq_left hk]
  unfold round_to_grid
  rw [roundEven_half_even hn heven,
    f32_overflow_of_abs_lt (by rw [abs_of_nonneg hn0]; exact hfin)]

theorem f32_zero : f32 0 = 0 := by
  unfold f32 round_to_grid
  rw [zero_div, show ((0 : ℚ)) = ((0 : ℤ) : ℚ) by norm_num, roundEven_intCast]
  norm_num [f32_overflow]

theorem f32_nonneg {x : ℚ} (h : 0 ≤ x) : 0 ≤ f32 x := by
  unfold f32
  have h0 : f32_overflow 0 = 0 := by norm_num [f32_overflow]
  rw [← h0]
  apply f32_overflow_mono
  have := round_to_grid_mono (f32_exponent x) h
  have h1 := round_to_grid_multiple (f32_exponent x) 0
  simp only [Int.cast_zero, zero_mul] at h1
  rwa [h1] at this

theorem f32_nonpos {x : ℚ} (h : x ≤ 0) : f32 x ≤ 0 := by
  unfold f32
  have h0 : f32_overflow 0 = 0 := by norm_num [f32_overflow]
  rw [← h0]
  apply f32_overflow_mono
  have := round_to_grid_mono (f32_exponent x) h
  have h1 := round_to_grid_multiple (f32_exponent x) 0
  simp only [Int.cast_zero, zero_mul] at h1
  rwa [h1] at this

theorem f32_mono_pos {x y : ℚ} (hx : 0 < x) (h : x ≤ y) : f32 x ≤ f32 y := by
  have hy : 0 < y := lt_of_lt_of_le hx h
  have hj := Int.log_mono_right (b := 2) hx h
  have hxl : (2 : ℚ) ^ Int.log 2 x ≤ x := by
    exact_mod_cast Int.zpow_log_le_self (b := 2) (by norm_num) hx
  have hxu : x < (2 : ℚ) ^ (Int.log 2 x + 1) := by
    exact_mod_cast Int.lt_zpow_succ_log_self (b := 2) (by norm_num) x
  have hyl : (2 : ℚ) ^ Int.log 2 y ≤ y := by
    exact_mod_cast Int.zpow_log_le_self (b := 2) (by norm_num) hy
  unfold f32
  apply f32_overflow_mono
  unfold f32_exponent
  rw [abs_of_pos hx, abs_of_pos hy]
  generalize Int.log 2 x = j at *
  generalize Int.log 2 y = k at *
  rcases eq_or_lt_of_le (show max j (-126) ≤ max k (-126) by omega) with heq | hlt
  · rw [heq]
    exact round_to_grid_mono _ h
  · have hk : max k (-126) = k := by omega
    rw [hk]
    have hup : round_to_grid (max j (-126) - 23) x ≤ 2 ^ (max j (-126) + 1) := by
      have hx2 : x ≤ 2 ^ (max j (-126) + 1) :=
        hxu.le.trans (zpow_le_zpow_right₀ (by norm_num) (by omega))
      have := round_to_grid_mono (max j (-126) - 23) hx2
      rwa [round_to_grid_zpow _ _ (by omega)] at this
    have hlo : (2 : ℚ) ^ k ≤ round_to_grid (k - 23) y := by
      have := round_to_grid_mono (k - 23) hyl
      rwa [round_to_grid_zpow _ _ (by omega)] at this
    have hmid : (2 : ℚ) ^ (max j (-126) + 1) ≤ 2 ^ k :=
      zpow_le_zpow_right₀ (by norm_num) (by omega)
    linarith

/-- Rounding to binary32 keeps the order, up to a non-negative bound. -/
theorem f32_mono {x y : ℚ} (hy : 0 ≤ y) (h : x ≤ y) : f32 x ≤ f32 y := by
  rcases le_or_lt x 0 with hx | hx
  · exact (f32_nonpos hx).trans (f32_nonneg hy)
  · exact f32_mono_pos hx h

/-- Above the point half-way between the neighbours `n * 2^(k-23)` and
`(n + 1) * 2^(k-23)` of a binade, `f32` gives at least the upper neighbour. -/
theorem f32_ge_of_half_lt {x : ℚ} (k n : ℤ) (hk : -126 ≤ k) (h1 : 2 ^ k ≤ x)
    (h2 : x < 2 ^ (k + 1)) (hpos : 0 ≤ n) (hn : (n : ℚ) + 1 / 2 < x / 2 ^ (k - 23))
    (hfin : ((n + 1 : ℤ) : ℚ) * 2 ^ (k - 23) < 2 ^ 128) :
    ((n + 1 : ℤ) : ℚ) * 2 ^ (k - 23) ≤ f32 x := by
  have hx : 0 < x := lt_of_lt_of_le (two_zpow_pos k) h1
  have hn0 : (0 : ℤ) ≤ n + 1 := by omega
  have habs : |((n + 1 : ℤ) : ℚ) * 2 ^ (k - 23)| < 2 ^ 128 := by
    rw [abs_of_nonneg (mul_nonneg (by exact_mod_cast hn0) (two_zpow_pos _).le)]
    exact hfin
  unfold f32
  rw [f32_exponent_eq (by rwa [abs_of_pos hx]) (by rwa [abs_of_pos hx]), max_eq_left hk,
    ← f32_overflow_of_abs_lt habs]
  apply f32_overflow_mono
  unfold round_to_grid
  have hr : ((n + 1 : ℤ) : ℚ) ≤ roundEven (x / 2 ^ (k - 23)) := by
    exact_mod_cast roundEven_of_half_lt hn
  exact mul_le_mul_of_nonneg_right hr (two_zpow_pos _).le

theorem f32_exponent_subnormal {x : ℚ} (h0 : 0 < x) (h : x < 2 ^ (-126 : ℤ)) :
    f32_exponent x = -149 := by
  unfold f32_exponent
  rw [abs_of_pos h0]
  have hlog : Int.log 2 x < -126 :=
    (Int.lt_zpow_iff_log_lt (b := 2) (by norm_num) h0).1 (by exact_mod_cast h)
  omega

/-- Evaluation of `f32` below `2^-126`, where the grid is `2^-149`. -/
theorem f32_eval_subnormal {x : ℚ} (n : ℤ) (h0 : 0 < x) (h : x < 2 ^ (-126 : ℤ))
    (hn1 : (n : ℚ) - 1 / 2 < x / 2 ^ (-149 : ℤ)) (hn2 : x / 2 ^ (-149 : ℤ) < n + 1 / 2)
    (hfin : |(n : ℚ) * 2 ^ (-149 : ℤ)| < 2 ^ 128) : f32 x = n * 2 ^ (-149 : ℤ) := by
  unfold f32
  rw [f32_exponent_subnormal h0 h]
  unfold round_to_grid
  have hr : roundEven (x / 2 ^ (-149 : ℤ)) = n :=
    roundEven_of_abs_lt (by rw [abs_lt]; constructor <;> linarith)
  rw [hr, f32_overflow_of_abs_lt hfin]

/-! ## binary32 values

The literals of `Calibrate`, the points at which its outcome changes and the intermediate
results of the calibrations evaluated below, each as the rational number which the
binary32 value stands for. -/

theorem f32_0_04096 : f32 (0.04096) = 2748779 / 67108864 := by
  rw [f32_eval (-5) 10995116 (by norm_num) (by norm_num) (by norm_num) (by norm_num)
    (by norm_num) (by norm_num)]
  norm_num

theorem f32_0_32 : f32 (0.32) = 5368709 / 16777216 := by
  rw [f32_eval (-2) 10737418 (by norm_num) (by norm_num) (by norm_num) (by norm_num)
    (by norm_num) (by norm_num)]
  norm_num

theorem f32_0_1 : f32 (0.1) = 13421773 / 134217728 := by
  rw [f32_eval (-4) 13421773 (by norm_num) (by norm_num) (by norm_num) (by norm_num)
    (by norm_num) (by norm_num)]
  norm_num

theorem f32_0_01 : f32 (0.01) = 5368709 / 536870912 := by
  rw [f32_eval (-7) 10737418 (by norm_num) (by norm_num) (by norm_num) (by norm_num)
    (by norm_num) (by norm_num)]
  norm_num

theorem f32_0_3 : f32 (0.3) = 5033165 / 16777216 := by
  rw [f32_eval (-2) 10066330 (by norm_num) (by norm_num) (by norm_num) (by norm_num)
    (by norm_num) (by norm_num)]
  norm_num

theorem f32_0_251 : f32 (0.251) = 4211081 / 16777216 := by
  rw [f32_eval (-2) 8422162 (by norm_num) (by norm_num) (by norm_num) (by norm_num)
    (by norm_num) (by norm_num)]
  norm_num

theorem f32_0_33 : f32 (0.33) = 11072963 / 33554432 := by
  rw [f32_eval (-2) 11072963 (by norm_num) (by norm_num) (by norm_num) (by norm_num)
    (by norm_num) (by norm_num)]
  norm_num

theorem f32_0_96 : f32 (0.96) = 16106127 / 16777216 := by
  rw [f32_eval (-1) 16106127 (by norm_num) (by norm_num) (by norm_num) (by norm_num)
    (by norm_num) (by norm_num)]
  norm_num

theorem f32_0_33333334 : f32 (0.33333334) = 11184811 / 33554432 := by
  rw [f32_eval (-2) 11184811 (by norm_num) (by norm_num) (by norm_num) (by norm_num)
    (by norm_num) (by norm_num)]
  norm_num

theorem f32_0_99 : f32 (0.99) = 4152361 / 4194304 := by
  rw [f32_eval (-1) 16609444 (by norm_num) (by norm_num) (by norm_num) (by norm_num)
    (by norm_num) (by norm_num)]
  norm_num

theorem f32_0_020686869 : f32 (0.020686869) = 5553089 / 268435456 := by
  rw [f32_eval (-6) 11106178 (by norm_num) (by norm_num) (by norm_num) (by norm_num)
    (by norm_num) (by norm_num)]
  norm_num

theorem f32_1e_20 : f32 (1e-20) = 1547425 / 154742504910672534362390528 := by
  rw [f32_eval (-67) 12379400 (by norm_num) (by norm_num) (by norm_num) (by norm_num)
    (by norm_num) (by norm_num)]
  norm_num

theorem f32_1e_21 : f32 (1e-21) = 309485 / 309485009821345068724781056 := by
  rw [f32_eval (-70) 9903520 (by norm_num) (by norm_num) (by norm_num) (by norm_num)
    (by norm_num) (by norm_num)]
  norm_num

theorem f32_16_0001 : f32 (16.0001) = 2097165 / 131072 := by
  rw [f32_eval 4 8388660 (by norm_num) (by norm_num) (by norm_num) (by norm_num)
    (by norm_num) (by norm_num)]
  norm_num

theorem f32_32_1 : f32 (32.1) = 4207411 / 131072 := by
  rw [f32_eval 5 8414822 (by norm_num) (by norm_num) (by norm_num) (by norm_num)
    (by norm_num) (by norm_num)]
  norm_num

theorem f32_one_half : f32 (1 / 2) = 1 / 2 := by
  rw [f32_eval (-1) 8388608 (by norm_num) (by norm_num) (by norm_num) (by norm_num)
    (by norm_num) (by norm_num)]
  norm_num

theorem f32_shunt_midpoint : f32 (21474837 / 67108864) = 5368709 / 16777216 := by
  rw [f32_eval_half (-2) 10737418 (by norm_num) (by norm_num) (by norm_num) (by norm_num)
    (by decide) (by decide) (by norm_num)]
  norm_num

theorem f32_divisor_bound : f32 (21474837 / 2199023255552) = 5368709 / 549755813888 := by
  rw [f32_eval_half (-17) 10737418 (by norm_num) (by norm_num) (by norm_num) (by norm_num)
    (by decide) (by decide) (by norm_num)]
  norm_num

theorem f32_two_pow_neg_20 : f32 (1 / 1048576) = 1 / 1048576 := by
  rw [f32_eval (-20) 8388608 (by norm_num) (by norm_num) (by norm_num) (by norm_num)
    (by norm_num) (by norm_num)]
  norm_num

theorem f32_65536 : f32 (65536) = 65536 := by
  rw [f32_eval 16 8388608 (by norm_num) (by norm_num) (by norm_num) (by norm_num)
    (by norm_num) (by norm_num)]
  norm_num

theorem f32_divisor_midpoint : f32 (21990233 / 35184372088832) = 2748779 / 4398046511104 := by
  rw [f32_eval_half (-21) 10995116 (by norm_num) (by norm_num) (by norm_num) (by norm_num)
    (by decide) (by decide) (by norm_num)]
  norm_num

theorem f32_quotient_limit : f32 ((2748779 / 67108864) / (5368709 / 549755813888)) = 8589935 / 2048 := by
  rw [f32_eval 12 8589935 (by norm_num) (by norm_num) (by norm_num) (by norm_num)
    (by norm_num) (by norm_num)]
  norm_num

theorem f32_quotient_full : f32 ((2748779 / 67108864) / (2748779 / 4398046511104)) = 65536 := by
  rw [f32_eval 16 8388608 (by norm_num) (by norm_num) (by norm_num) (by norm_num)
    (by norm_num) (by norm_num)]
  norm_num

theorem f32_quotient_next : f32 ((2748779 / 67108864) / (10995117 / 17592186044416)) = 8388607 / 128 := by
  rw [f32_eval 15 16777214 (by norm_num) (by norm_num) (by norm_num) (by norm_num)
    (by norm_num) (by norm_num)]
  norm_num

theorem f32_two_pow_neg_149 : f32 (1 / 2 ^ 149) = 1 / 713623846352979940529142984724747568191373312 := by
  rw [f32_eval_subnormal 1 (by norm_num) (by norm_num) (by norm_num) (by norm_num)
    (by norm_num [abs_lt])]
  norm_num

/-! ## binary32 thresholds -/

/-- The half-way point below the smallest positive value rounds to zero. -/
theorem f32_two_pow_neg_150 : f32 (1 / 2 ^ 150) = 0 := by
  unfold f32
  rw [f32_exponent_subnormal (by positivity) (by norm_num)]
  unfold round_to_grid
  have hr : roundEven ((1 : ℚ) / 2 ^ 150 / 2 ^ (-149 : ℤ)) = 0 :=
    roundEven_half_even (by norm_num) (by decide)
  rw [hr]
  norm_num [f32_overflow]

/-- A magnitude above `2^-150` does not round to zero. -/
theorem f32_pos_of_gt {x : ℚ} (h : 1 / 2 ^ 150 < x) : 0 < f32 x := by
  have h149 : (0 : ℚ) < 1 / 713623846352979940529142984724747568191373312 := by norm_num
  rcases lt_or_le x (2 ^ (-126 : ℤ)) with h2 | h2
  · have hx : 0 < x := lt_trans (by positivity) h
    have hr : ((0 + 1 : ℤ) : ℚ) ≤ roundEven (x / 2 ^ (-149 : ℤ)) := by
      have h3 : ((0 : ℤ) : ℚ) + 1 / 2 < x / 2 ^ (-149 : ℤ) := by
        rw [lt_div_iff₀ (two_zpow_pos _)]
        norm_num
        norm_num at h
        linarith
      exact_mod_cast roundEven_of_half_lt h3
    have h4 : f32_overflow (1 / 2 ^ 149) ≤ f32 x := by
      unfold f32
      rw [f32_exponent_subnormal hx h2]
      apply f32_overflow_mono
      unfold round_to_grid
      have := mul_le_mul_of_nonneg_right hr (two_zpow_pos (-149)).le
      norm_num at this ⊢
      linarith
    rw [f32_overflow_of_abs_lt (by norm_num [abs_lt])] at h4
    exact lt_of_lt_of_le (by norm_num) h4
  · have h5 : f32 (1 / 2 ^ 149) ≤ f32 x :=
      f32_mono (le_trans (two_zpow_pos _).le h2) (le_trans (by norm_num) h2)
    rw [f32_two_pow_neg_149] at h5
    exact lt_of_lt_of_le h149 h5

/-- A positive magnitude rounds to zero exactly when it is at most `2^-150`. -/
theorem f32_eq_zero_iff {x : ℚ} (hx : 0 < x) : f32 x = 0 ↔ x ≤ 1 / 2 ^ 150 := by
  constructor
  · intro h
    by_contra hgt
    have := f32_pos_of_gt (not_le.mp hgt)
    rw [h] at this
    exact lt_irrefl _ this
  · intro h
    have h1 := f32_mono (by positivity) h
    rw [f32_two_pow_neg_150] at h1
    exact le_antisymm h1 (f32_nonneg hx.le)

/-- The rounded product exceeds `0.32f` exactly when the exact product exceeds the point
half-way between `0.32f` and the next value above it. -/
theorem f32_gt_shunt_limit_iff (p : ℚ) : f32 p > f32 0.32 ↔ p > 21474837 / 67108864 := by
  rw [f32_0_32]
  constructor
  · intro h
    by_contra hp
    have h1 := f32_mono (by norm_num) (not_lt.mp hp)
    rw [f32_shunt_midpoint] at h1
    exact absurd h (not_lt.mpr h1)
  · intro h
    rcases lt_or_le p (1 / 2) with h2 | h2
    · have h3 := f32_ge_of_half_lt (-2) 10737418 (by norm_num)
        (by norm_num; linarith : (2 : ℚ) ^ (-2 : ℤ) ≤ p)
        (by norm_num; linarith) (by norm_num)
        (by rw [lt_div_iff₀ (two_zpow_pos _)]; norm_num; linarith) (by norm_num)
      norm_num at h3
      exact lt_of_lt_of_le (by norm_num) h3
    · have h3 := f32_mono (by linarith) h2
      rw [f32_one_half] at h3
      exact lt_of_lt_of_le (by norm_num) h3

/-- The quotient of `0.04096f` by a divisor which rounds a magnitude of at most
`21474837 / 67108864 / 32768`, the point half-way between `0.32f / 32768` and the next
value above it. -/
theorem f32_div_ge_of_le {x : ℚ} (hx : 0 < x) (h : x ≤ 21474837 / 2199023255552) :
    8589935 / 2048 ≤ f32_div (f32 0.04096) (f32 x) := by
  rw [f32_0_04096]
  have hd := f32_mono (by norm_num) h
  rw [f32_divisor_bound] at hd
  have hd0 := f32_nonneg hx.le
  unfold f32_div
  by_cases hz : f32 x = 0
  · rw [if_pos hz, if_pos (by norm_num)]
    norm_num
  · rw [if_neg hz]
    have hpos : 0 < f32 x := lt_of_le_of_ne hd0 (Ne.symm hz)
    have h1 : (2748779 / 67108864 : ℚ) / (5368709 / 549755813888) ≤
        (2748779 / 67108864) / f32 x :=
      div_le_div_of_nonneg_left (by norm_num) hpos hd
    have h2 := f32_mono (le_trans (by norm_num) h1) h1
    rw [f32_quotient_limit] at h2
    exact h2

/-- The quotient of `0.04096f` by the rounded divisor is below `65536` exactly when the
exact divisor exceeds the point half-way between `0.04096f / 65536` and the next value
above it. -/
theorem f32_div_lt_iff {x : ℚ} (hx : 0 < x) :
    f32_div (f32 0.04096) (f32 x) < 65536 ↔ 21990233 / 35184372088832 < x := by
  rw [f32_0_04096]
  have hd0 := f32_nonneg hx.le
  constructor
  · intro h
    by_contra hle
    have hd := f32_mono (by norm_num) (not_lt.mp hle)
    rw [f32_divisor_midpoint] at hd
    unfold f32_div at h
    by_cases hz : f32 x = 0
    · rw [if_pos hz, if_pos (by norm_num)] at h
      norm_num at h
    · rw [if_neg hz] at h
      have hpos : 0 < f32 x := lt_of_le_of_ne hd0 (Ne.symm hz)
      have h1 : (2748779 / 67108864 : ℚ) / (2748779 / 4398046511104) ≤
          (2748779 / 67108864) / f32 x :=
        div_le_div_of_nonneg_left (by norm_num) hpos hd
      have h2 := f32_mono (le_trans (by norm_num) h1) h1
      rw [f32_quotient_full] at h2
      linarith
  · intro h
    have hd : (10995117 / 17592186044416 : ℚ) ≤ f32 x := by
      rcases lt_or_le x (1 / 1048576) with h2 | h2
      · have h3 := f32_ge_of_half_lt (-21) 10995116 (by norm_num)
          (by norm_num; linarith : (2 : ℚ) ^ (-21 : ℤ) ≤ x)
          (by norm_num; linarith) (by norm_num)
          (by rw [lt_div_iff₀ (two_zpow_pos _)]; norm_num; linarith) (by norm_num)
        norm_num at h3
        linarith
      · have h3 := f32_mono hx.le h2
        rw [f32_two_pow_neg_20] at h3
        linarith
    have hpos : 0 < f32 x := lt_of_lt_of_le (by norm_num) hd
    unfold f32_div
    rw [if_neg hpos.ne.symm]
    have h1 : (2748779 / 67108864 : ℚ) / f32 x ≤
        (2748779 / 67108864) / (10995117 / 17592186044416) :=
      div_le_div_of_nonneg_left (by norm_num) (by norm_num) hd
    have h2 := f32_mono (by norm_num) h1
    rw [f32_quotient_next] at h2
    linarith

/-! ## binary32 values of the examples -/

theorem f32_shunt_example : f32 (1.5 * (13421773 / 134217728)) = 5033165 / 33554432 := by
  rw [f32_eval (-3) 10066330 (by norm_num) (by norm_num) (by norm_num) (by norm_num)
    (by norm_num) (by norm_num)]
  norm_num

theorem shunt_voltage_example : f32 (1.5 * f32 0.1) = 5033165 / 33554432 := by
  rw [f32_0_1]
  exact f32_shunt_example

theorem shunt_check_example : f32 (1.5 * f32 0.1) ≤ f32 0.32 := by
  rw [shunt_voltage_example, f32_0_32]
  norm_num

theorem f32_lsb_example : f32 (1.5 / 32768) = 3 / 65536 := by
  rw [f32_eval (-15) 12582912 (by norm_num) (by norm_num) (by norm_num) (by norm_num)
    (by norm_num) (by norm_num)]
  norm_num

theorem current_lsb_example : f32 (1.5 / 32768) = 3 / 65536 :=
  f32_lsb_example

theorem f32_divisor_example : f32 ((3 / 65536) * (13421773 / 134217728)) = 5033165 / 1099511627776 := by
  rw [f32_eval (-18) 10066330 (by norm_num) (by norm_num) (by norm_num) (by norm_num)
    (by norm_num) (by norm_num)]
  norm_num

theorem divisor_example : f32 (f32 (1.5 / 32768) * f32 0.1) = 5033165 / 1099511627776 := by
  rw [current_lsb_example, f32_0_1]
  exact f32_divisor_example

theorem f32_quotient_example : f32 ((2748779 / 67108864) / (5033165 / 1099511627776)) = 2290649 / 256 := by
  rw [f32_eval 13 9162596 (by norm_num) (by norm_num) (by norm_num) (by norm_num)
    (by norm_num) (by norm_num)]
  norm_num

theorem quotient_example :
    Calibrate.quotient (f32 (1.5 / 32768)) (f32 0.1) = 2290649 / 256 := by
  rw [Calibrate.quotient, divisor_example, f32_0_04096, f32_div, if_neg (by norm_num),
    f32_quotient_example]

theorem f32_shunt_low_shunt : f32 (1 * (5368709 / 536870912)) = 5368709 / 536870912 := by
  rw [f32_eval (-7) 10737418 (by norm_num) (by norm_num) (by norm_num) (by norm_num)
    (by norm_num) (by norm_num)]
  norm_num

theorem shunt_voltage_low_shunt : f32 (1 * f32 0.01) = 5368709 / 536870912 := by
  rw [f32_0_01]
  exact f32_shunt_low_shunt

theorem shunt_check_low_shunt : f32 (1 * f32 0.01) ≤ f32 0.32 := by
  rw [shunt_voltage_low_shunt, f32_0_32]
  norm_num

theorem f32_lsb_low_shunt : f32 (1 / 32768) = 1 / 32768 := by
  rw [f32_eval (-15) 8388608 (by norm_num) (by norm_num) (by norm_num) (by norm_num)
    (by norm_num) (by norm_num)]
  norm_num

theorem current_lsb_low_shunt : f32 (1 / 32768) = 1 / 32768 :=
  f32_lsb_low_shunt

theorem f32_divisor_low_shunt : f32 ((1 / 32768) * (5368709 / 536870912)) = 5368709 / 17592186044416 := by
  rw [f32_eval (-22) 10737418 (by norm_num) (by norm_num) (by norm_num) (by norm_num)
    (by norm_num) (by norm_num)]
  norm_num

theorem divisor_low_shunt : f32 (f32 (1 / 32768) * f32 0.01) = 5368709 / 17592186044416 := by
  rw [current_lsb_low_shunt, f32_0_01]
  exact f32_divisor_low_shunt

theorem f32_quotient_low_shunt : f32 ((2748779 / 67108864) / (5368709 / 17592186044416)) = 8589935 / 64 := by
  rw [f32_eval 17 8589935 (by norm_num) (by norm_num) (by norm_num) (by norm_num)
    (by norm_num) (by norm_num)]
  norm_num

theorem quotient_low_shunt :
    Calibrate.quotient (f32 (1 / 32768)) (f32 0.01) = 8589935 / 64 := by
  rw [Calibrate.quotient, divisor_low_shunt, f32_0_04096, f32_div, if_neg (by norm_num),
    f32_quotient_low_shunt]

theorem f32_shunt_rounded : f32 ((4211081 / 16777216) * (11072963 / 33554432)) = 5558627 / 67108864 := by
  rw [f32_eval (-4) 11117254 (by norm_num) (by norm_num) (by norm_num) (by norm_num)
    (by norm_num) (by norm_num)]
  norm_num

theorem shunt_voltage_rounded : f32 (f32 0.251 * f32 0.33) = 5558627 / 67108864 := by
  rw [f32_0_251, f32_0_33]
  exact f32_shunt_rounded

theorem shunt_check_rounded : f32 (f32 0.251 * f32 0.33) ≤ f32 0.32 := by
  rw [shunt_voltage_rounded, f32_0_32]
  norm_num

theorem f32_lsb_rounded : f32 ((4211081 / 16777216) / 32768) = 4211081 / 549755813888 := by
  rw [f32_eval (-17) 8422162 (by norm_num) (by norm_num) (by norm_num) (by norm_num)
    (by norm_num) (by norm_num)]
  norm_num

theorem current_lsb_rounded : f32 (f32 0.251 / 32768) = 4211081 / 549755813888 := by
  rw [f32_0_251]
  exact f32_lsb_rounded

theorem f32_divisor_rounded : f32 ((4211081 / 549755813888) * (11072963 / 33554432)) = 5558627 / 2199023255552 := by
  rw [f32_eval (-19) 11117254 (by norm_num) (by norm_num) (by norm_num) (by norm_num)
    (by norm_num) (by norm_num)]
  norm_num

theorem divisor_rounded : f32 (f32 (f32 0.251 / 32768) * f32 0.33) = 5558627 / 2199023255552 := by
  rw [current_lsb_rounded, f32_0_33]
  exact f32_divisor_rounded

theorem f32_quotient_rounded : f32 ((2748779 / 67108864) / (5558627 / 2199023255552)) = 16204 := by
  rw [f32_eval 13 16592896 (by norm_num) (by norm_num) (by norm_num) (by norm_num)
    (by norm_num) (by norm_num)]
  norm_num

theorem quotient_rounded :
    Calibrate.quotient (f32 (f32 0.251 / 32768)) (f32 0.33) = 16204 := by
  rw [Calibrate.quotient, divisor_rounded, f32_0_04096, f32_div, if_neg (by norm_num),
    f32_quotient_rounded]

theorem f32_shunt_limit : f32 ((16106127 / 16777216) * (11184811 / 33554432)) = 5368709 / 16777216 := by
  rw [f32_eval (-2) 10737418 (by norm_num) (by norm_num) (by norm_num) (by norm_num)
    (by norm_num) (by norm_num)]
  norm_num

theorem shunt_voltage_limit : f32 (f32 0.96 * f32 0.33333334) = 5368709 / 16777216 := by
  rw [f32_0_96, f32_0_33333334]
  exact f32_shunt_limit

theorem shunt_check_limit : f32 (f32 0.96 * f32 0.33333334) ≤ f32 0.32 := by
  rw [shunt_voltage_limit, f32_0_32]

theorem f32_lsb_limit : f32 ((16106127 / 16777216) / 32768) = 16106127 / 549755813888 := by
  rw [f32_eval (-16) 16106127 (by norm_num) (by norm_num) (by norm_num) (by norm_num)
    (by norm_num) (by norm_num)]
  norm_num

theorem current_lsb_limit : f32 (f32 0.96 / 32768) = 16106127 / 549755813888 := by
  rw [f32_0_96]
  exact f32_lsb_limit

theorem f32_divisor_limit : f32 ((16106127 / 549755813888) * (11184811 / 33554432)) = 5368709 / 549755813888 := by
  rw [f32_eval (-17) 10737418 (by norm_num) (by norm_num) (by norm_num) (by norm_num)
    (by norm_num) (by norm_num)]
  norm_num

theorem divisor_limit : f32 (f32 (f32 0.96 / 32768) * f32 0.33333334) = 5368709 / 549755813888 := by
  rw [current_lsb_limit, f32_0_33333334]
  exact f32_divisor_limit

theorem quotient_limit :
    Calibrate.quotient (f32 (f32 0.96 / 32768)) (f32 0.33333334) = 8589935 / 2048 := by
  rw [Calibrate.quotient, divisor_limit, f32_0_04096, f32_div, if_neg (by norm_num),
    f32_quotient_limit]

theorem f32_shunt_full_scale : f32 ((4152361 / 4194304) * (5553089 / 268435456)) = 2748779 / 134217728 := by
  rw [f32_eval (-6) 10995116 (by norm_num) (by norm_num) (by norm_num) (by norm_num)
    (by norm_num) (by norm_num)]
  norm_num

theorem shunt_voltage_full_scale : f32 (f32 0.99 * f32 0.020686869) = 2748779 / 134217728 := by
  rw [f32_0_99, f32_0_020686869]
  exact f32_shunt_full_scale

theorem shunt_check_full_scale : f32 (f32 0.99 * f32 0.020686869) ≤ f32 0.32 := by
  rw [shunt_voltage_full_scale, f32_0_32]
  norm_num

theorem f32_lsb_full_scale : f32 ((4152361 / 4194304) / 32768) = 4152361 / 137438953472 := by
  rw [f32_eval (-16) 16609444 (by norm_num) (by norm_num) (by norm_num) (by norm_num)
    (by norm_num) (by norm_num)]
  norm_num

theorem current_lsb_full_scale : f32 (f32 0.99 / 32768) = 4152361 / 137438953472 := by
  rw [f32_0_99]
  exact f32_lsb_full_scale

theorem f32_divisor_full_scale : f32 ((4152361 / 137438953472) * (5553089 / 268435456)) = 2748779 / 4398046511104 := by
  rw [f32_eval (-21) 10995116 (by norm_num) (by norm_num) (by norm_num) (by norm_num)
    (by norm_num) (by norm_num)]
  norm_num

theorem divisor_full_scale : f32 (f32 (f32 0.99 / 32768) * f32 0.020686869) = 2748779 / 4398046511104 := by
  rw [current_lsb_full_scale, f32_0_020686869]
  exact f32_divisor_full_scale

theorem quotient_full_scale :
    Calibrate.quotient (f32 (f32 0.99 / 32768)) (f32 0.020686869) = 65536 := by
  rw [Calibrate.quotient, divisor_full_scale, f32_0_04096, f32_div, if_neg (by norm_num),
    f32_quotient_full]

theorem f32_shunt_tiny : f32 ((1547425 / 154742504910672534362390528) * (309485 / 309485009821345068724781056)) = 223 / 22300745198530623141535718272648361505980416 := by
  rw [f32_eval_subnormal 7136 (by norm_num) (by norm_num) (by norm_num) (by norm_num)
    (by norm_num [abs_lt])]
  norm_num

theorem shunt_voltage_tiny : f32 (f32 1e-20 * f32 1e-21) = 223 / 22300745198530623141535718272648361505980416 := by
  rw [f32_1e_20, f32_1e_21]
  exact f32_shunt_tiny

theorem shunt_check_tiny : f32 (f32 1e-20 * f32 1e-21) ≤ f32 0.32 := by
  rw [shunt_voltage_tiny, f32_0_32]
  norm_num

theorem f32_lsb_tiny : f32 ((1547425 / 154742504910672534362390528) / 32768) = 1547425 / 5070602400912917605986812821504 := by
  rw [f32_eval (-82) 12379400 (by norm_num) (by norm_num) (by norm_num) (by norm_num)
    (by norm_num) (by norm_num)]
  norm_num

theorem current_lsb_tiny : f32 (f32 1e-20 / 32768) = 1547425 / 5070602400912917605986812821504 := by
  rw [f32_1e_20]
  exact f32_lsb_tiny

theorem divisor_tiny : f32 (f32 (f32 1e-20 / 32768) * f32 1e-21) = 0 := by
  rw [current_lsb_tiny, f32_1e_21]
  exact (f32_eq_zero_iff (by norm_num)).2 (by norm_num)

theorem f32_shunt_high_shunt : f32 (1.5 * (5033165 / 16777216)) = 15099495 / 33554432 := by
  rw [f32_eval (-2) 15099495 (by norm_num) (by norm_num) (by norm_num) (by norm_num)
    (by norm_num) (by norm_num)]
  norm_num

theorem shunt_voltage_high_shunt : f32 (1.5 * f32 0.3) = 15099495 / 33554432 := by
  rw [f32_0_3]
  exact f32_shunt_high_shunt

theorem shunt_check_high_shunt : f32 (1.5 * f32 0.3) > f32 0.32 := by
  rw [shunt_voltage_high_shunt, f32_0_32]
  norm_num

/-! ## The averaging code -/

theorem SampleToResAvg_zero : SampleToResAvg 0 = .error "n_sample must at least be 1" :=
  rfl

theorem SampleToResAvg_large {n : Nat} (h : 128 < n) :
    SampleToResAvg n = .error "n_sample must be <= 128" := by
  have h0 : ¬ n = 0 := by omega
  have h1 : ¬ n = 1 := by omega
  have h2 : ¬ n = 2 := by omega
  have h3 : ¬ n ≤ 4 := by omega
  have h4 : ¬ n ≤ 8 := by omega
  have h5 : ¬ n ≤ 16 := by omega
  have h6 : ¬ n ≤ 32 := by omega
  have h7 : ¬ n ≤ 64 := by omega
  have h8 : ¬ n ≤ 128 := by omega
  simp only [SampleToResAvg, h0, h1, h2, h3, h4, h5, h6, h7, h8, if_false]

theorem SampleToResAvg_ok {n : Nat} (h1 : 1 ≤ n) (h2 : n ≤ 128) :
    ∃ c, SampleToResAvg n = .ok c ∧ c < 16 := by
  interval_cases n <;> exact ⟨_, rfl, by decide⟩

/-- C1: `SampleToResAvg` returns exactly the averaging code of the table (1 -> 0b0011,
2 -> 0b1001, 3..4 -> 0b1010, 5..8 -> 0b1011, 9..16 -> 0b1100, 17..32 -> 0b1101,
33..64 -> 0b1110, 65..128 -> 0b1111), and it throws if and only if the sample count is 0 or
greater than 128. -/
theorem SampleToResAvg_table (n : Nat) :
    (n = 1 → SampleToResAvg n = .ok 0b0011) ∧
    (n = 2 → SampleToResAvg n = .ok 0b1001) ∧
    (3 ≤ n ∧ n ≤ 4 → SampleToResAvg n = .ok 0b1010) ∧
    (5 ≤ n ∧ n ≤ 8 → SampleToResAvg n = .ok 0b1011) ∧
    (9 ≤ n ∧ n ≤ 16 → SampleToResAvg n = .ok 0b1100) ∧
    (17 ≤ n ∧ n ≤ 32 → SampleToResAvg n = .ok 0b1101) ∧
    (33 ≤ n ∧ n ≤ 64 → SampleToResAvg n = .ok 0b1110) ∧
    (65 ≤ n ∧ n ≤ 128 → SampleToResAvg n = .ok 0b1111) ∧
    ((∃ e, SampleToResAvg n = .error e) ↔ (n = 0 ∨ n > 128)) := by
  refine ⟨?_, ?_, ?_, ?_, ?_, ?_, ?_, ?_, ?_, ?_⟩
  · rintro rfl; rfl
  · rintro rfl; rfl
  · rintro ⟨h1, h2⟩; interval_cases n <;> rfl
  · rintro ⟨h1, h2⟩; interval_cases n <;> rfl
  · rintro ⟨h1, h2⟩; interval_cases n <;> rfl
  · rintro ⟨h1, h2⟩; interval_cases n <;> rfl
  · rintro ⟨h1, h2⟩; interval_cases n <;> rfl
  · rintro ⟨h1, h2⟩; interval_cases n <;> rfl
  · rintro ⟨e, he⟩
    by_contra hn
    obtain ⟨c, hc, -⟩ := SampleToResAvg_ok (n := n) (by omega) (by omega)
    rw [hc] at he
    simp at he
  · rintro (rfl | h)
    · exact ⟨_, SampleToResAvg_zero⟩
    · exact ⟨_, SampleToResAvg_large h⟩

/-- Instance of `SampleToResAvg_table` at the sample counts 128 and 129. -/
theorem SampleToResAvg_table_witness :
    ((65 ≤ 128 ∧ 128 ≤ 128) ∧ SampleToResAvg 128 = .ok 0b1111) ∧
    ((129 = 0 ∨ 129 > 128) ∧ ∃ e, SampleToResAvg 129 = .error e) :=
  ⟨⟨by decide, (SampleToResAvg_table 128).2.2.2.2.2.2.2.1 (by decide)⟩,
    ⟨by decide, (SampleToResAvg_table 129).2.2.2.2.2.2.2.2.2 (by decide)⟩⟩

/-! ## Register access: outcome of every path -/

theorem WriteRegister_short_write {t : Transport} {log : List Txn} {a v : Nat} {verify : Bool}
    (h : t.write log (a :: htobe16 v) ≠ 3) :
    WriteRegister t log a v verify
      = (.error "failed to write to register", log ++ [Txn.write (a :: htobe16 v)]) := by
  simp [WriteRegister, h]

theorem WriteRegister_unverified {t : Transport} {log : List Txn} {a v : Nat}
    (h : t.write log (a :: htobe16 v) = 3) :
    WriteRegister t log a v false = (.ok (), log ++ [Txn.write (a :: htobe16 v)]) := by
  simp [WriteRegister, h]

theorem WriteRegister_short_read {t : Transport} {log : List Txn} {a v : Nat}
    (h : t.write log (a :: htobe16 v) = 3)
    (hr : (t.read (log ++ [Txn.write (a :: htobe16 v)]) 2).1 ≠ 2) :
    WriteRegister t log a v true
      = (.error "failed to read register after write",
          log ++ [Txn.write (a :: htobe16 v)] ++ [Txn.read 2]) := by
  simp [WriteRegister, h, hr]

theorem WriteRegister_mismatch {t : Transport} {log : List Txn} {a v : Nat}
    (h : t.write log (a :: htobe16 v) = 3)
    (hr : (t.read (log ++ [Txn.write (a :: htobe16 v)]) 2).1 = 2)
    (hd : buf16 (t.read (log ++ [Txn.write (a :: htobe16 v)]) 2).2 ≠ htobe16 v) :
    WriteRegister t log a v true
      = (.error "register write verify failed",
          log ++ [Txn.write (a :: htobe16 v)] ++ [Txn.read 2]) := by
  simp [WriteRegister, h, hr, hd]

theorem WriteRegister_verified {t : Transport} {log : List Txn} {a v : Nat}
    (h : t.write log (a :: htobe16 v) = 3)
    (hr : (t.read (log ++ [Txn.write (a :: htobe16 v)]) 2).1 = 2)
    (hd : buf16 (t.read (log ++ [Txn.write (a :: htobe16 v)]) 2).2 = htobe16 v) :
    WriteRegister t log a v true
      = (.ok (), log ++ [Txn.write (a :: htobe16 v)] ++ [Txn.read 2]) := by
  simp [WriteRegister, h, hr, hd]

theorem ReadRegister_short_write {t : Transport} {log : List Txn} {a : Nat}
    (h : t.write log [a] ≠ 1) :
    ReadRegister t log a
      = (.error "failed to set the register pointer for a register read operation",
          log ++ [Txn.write [a]]) := by
  simp [ReadRegister, h]

theorem ReadRegister_short_read {t : Transport} {log : List Txn} {a : Nat}
    (h : t.write log [a] = 1) (hr : (t.read (log ++ [Txn.write [a]]) 2).1 ≠ 2) :
    ReadRegister t log a
      = (.error "failed to read register value", log ++ [Txn.write [a]] ++ [Txn.read 2]) := by
  simp [ReadRegister, h, hr]

theorem ReadRegister_complete {t : Transport} {log : List Txn} {a : Nat}
    (h : t.write log [a] = 1) (hr : (t.read (log ++ [Txn.write [a]]) 2).1 = 2) :
    ReadRegister t log a
      = (.ok (t.read16 (log ++ [Txn.write [a]])), log ++ [Txn.write [a]] ++ [Txn.read 2]) := by
  simp [ReadRegister, h, hr, Transport.read16]

theorem htobe16_of_lt {v : Nat} (hv : v < 65536) : htobe16 v = [v / 256, v % 256] := by
  have : v / 256 % 256 = v / 256 := Nat.mod_eq_of_lt (by omega)
  simp [htobe16, this]

theorem simChip_fullLength : simChip.FullLength := by
  constructor
  · intro log bytes; rfl
  · intro log count
    simp only [simChip]
    split <;> rfl

/-- C9, as stated, fails: on a bus whose `write` is short, `WriteRegister` with
`verify = true` makes one bus transaction (the write), not two. -/
theorem WriteRegister_verify_single_transaction :
    (WriteRegister deadBus [] 0x05 0x22f2 true).2 = [Txn.write [0x05, 0x22, 0xf2]] ∧
    (WriteRegister deadBus [] 0x05 0x22f2 true).2
      ≠ [Txn.write [0x05, 0x22, 0xf2], Txn.read 2] := by
  decide

/-- C9 (amended): `WriteRegister a v verify` writes exactly one frame, the three bytes
`[a, v >> 8, v & 0xff]`; with `verify = false`, or when that write is short, this is its
only bus transaction, and with `verify = true` and a full-length write it is followed by
exactly one two-byte read. Nothing is ever repeated. -/
theorem WriteRegister_transactions (t : Transport) (log : List Txn) (a v : Nat) (verify : Bool)
    (hv : v < 65536) :
    (WriteRegister t log a v verify).2
      = log ++ Txn.write [a, v / 256, v % 256] ::
          (if verify = true ∧ t.write log [a, v / 256, v % 256] = 3 then [Txn.read 2] else []) := by
  rw [← htobe16_of_lt hv]
  by_cases hw : t.write log (a :: htobe16 v) = 3
  · cases verify
    · simp [WriteRegister_unverified hw]
    · simp only [WriteRegister, hw]
      split_ifs <;> simp_all
  · simp [WriteRegister_short_write hw, hw]

/-- Instance of `WriteRegister_transactions` on the simulated chip. -/
theorem WriteRegister_transactions_witness :
    0x22f2 < 65536 ∧
    (WriteRegister simChip [] 0x05 0x22f2 true).2
      = [] ++ Txn.write [0x05, 0x22f2 / 256, 0x22f2 % 256] ::
          (if true = true ∧ simChip.write [] [0x05, 0x22f2 / 256, 0x22f2 % 256] = 3
            then [Txn.read 2] else []) :=
  ⟨by decide, WriteRegister_transactions simChip [] 0x05 0x22f2 true (by decide)⟩

theorem buf16_pair {b0 b1 : Nat} (h0 : b0 < 256) (h1 : b1 < 256) : buf16 [b0, b1] = [b0, b1] := by
  simp [buf16, Nat.mod_eq_of_lt h0, Nat.mod_eq_of_lt h1]

theorem pair_eq_htobe16_iff {b0 b1 v : Nat} (h1 : b1 < 256) (hv : v < 65536) :
    [b0, b1] = htobe16 v ↔ b0 * 256 + b1 = v := by
  rw [htobe16_of_lt hv]
  simp only [List.cons.injEq, and_true]
  omega

/-- C10: when the three-byte write and the two-byte read of a verified `WriteRegister` are
both complete, the call throws "register write verify failed" if and only if the two bytes
read back, taken big-endian, differ from the value written (and returns normally
otherwise); a short write or a short read throws another, different text. -/
theorem WriteRegister_verify_outcome (t : Transport) (log : List Txn) (a v : Nat)
    (hv : v < 65536) :
    (∀ b0 b1, b0 < 256 → b1 < 256 → t.write log [a, v / 256, v % 256] = 3 →
      t.read (log ++ [Txn.write [a, v / 256, v % 256]]) 2 = (2, [b0, b1]) →
      ((WriteRegister t log a v true).1 = .error "register write verify failed"
          ↔ b0 * 256 + b1 ≠ v) ∧
      ((WriteRegister t log a v true).1 = .ok () ↔ b0 * 256 + b1 = v)) ∧
    (t.write log [a, v / 256, v % 256] ≠ 3 →
      (WriteRegister t log a v true).1 = .error "failed to write to register") ∧
    (t.write log [a, v / 256, v % 256] = 3 →
      (t.read (log ++ [Txn.write [a, v / 256, v % 256]]) 2).1 ≠ 2 →
      (WriteRegister t log a v true).1 = .error "failed to read register after write") ∧
    "failed to write to register" ≠ "register write verify failed" ∧
    "failed to read register after write" ≠ "register write verify failed" := by
  rw [← htobe16_of_lt hv]
  refine ⟨?_, ?_, ?_, by decide, by decide⟩
  · intro b0 b1 h0 h1 hw hr
    have hr1 : (t.read (log ++ [Txn.write (a :: htobe16 v)]) 2).1 = 2 := by rw [hr]
    have hr2 : buf16 (t.read (log ++ [Txn.write (a :: htobe16 v)]) 2).2 = [b0, b1] := by
      rw [hr]; exact buf16_pair h0 h1
    by_cases hd : b0 * 256 + b1 = v
    · have hd2 := (pair_eq_htobe16_iff h1 hv).2 hd
      rw [WriteRegister_verified hw hr1 (hr2.trans hd2)]
      simp [hd]
    · have hd2 : [b0, b1] ≠ htobe16 v := fun h => hd ((pair_eq_htobe16_iff h1 hv).1 h)
      rw [WriteRegister_mismatch hw hr1 (by rw [hr2]; exact hd2)]
      simp [hd]
  · intro hw
    rw [WriteRegister_short_write hw]
  · intro hw hr
    rw [WriteRegister_short_read hw hr]

/-- Instances of `WriteRegister_verify_outcome`: the simulated chip gives back `0x22f2`, the
bus that reads as zero does not. -/
theorem WriteRegister_verify_outcome_witness :
    ((0x22f2 < 65536 ∧ 0x22 < 256 ∧ 0xf2 < 256 ∧
        simChip.write [] [0x05, 0x22f2 / 256, 0x22f2 % 256] = 3 ∧
        simChip.read ([] ++ [Txn.write [0x05, 0x22f2 / 256, 0x22f2 % 256]]) 2
          = (2, [0x22, 0xf2])) ∧
      ((WriteRegister simChip [] 0x05 0x22f2 true).1 = .ok () ↔ 0x22 * 256 + 0xf2 = 0x22f2)) ∧
    ((0x22f2 < 65536 ∧ 0 < 256 ∧
        zeroBus.write [] [0x05, 0x22f2 / 256, 0x22f2 % 256] = 3 ∧
        zeroBus.read ([] ++ [Txn.write [0x05, 0x22f2 / 256, 0x22f2 % 256]]) 2 = (2, [0, 0])) ∧
      ((WriteRegister zeroBus [] 0x05 0x22f2 true).1 = .error "register write verify failed"
        ↔ 0 * 256 + 0 ≠ 0x22f2)) :=
  ⟨⟨by decide,
      ((WriteRegister_verify_outcome simChip [] 0x05 0x22f2 (by decide)).1 0x22 0xf2
        (by decide) (by decide) (by decide) (by decide)).2⟩,
    ⟨by decide,
      ((WriteRegister_verify_outcome zeroBus [] 0x05 0x22f2 (by decide)).1 0 0
        (by decide) (by decide) (by decide) (by decide)).1⟩⟩

/-! ## Reset -/

theorem Reset_select_failed {t : Transport} {self : TINA219} {log : List Txn}
    (hio : t.ioctl log self.address = -1) :
    Reset t self log
      = (.error "ioctl(this->fd_i2cbus, I2C_SLAVE, this->address)",
          log ++ [Txn.select self.address]) := by
  simp [Reset, hio]

theorem Reset_fullLength {t : Transport} {self : TINA219} {log : List Txn}
    (hio : t.ioctl log self.address ≠ -1) (hfull : t.FullLength) :
    Reset t self log
      = (if t.read16 (log ++ [Txn.select self.address, Txn.write [0x00, 0xff, 0xff],
              Txn.write [0x00]]) ≠ 0x399f
            ∨ t.read16 (log ++ [Txn.select self.address, Txn.write [0x00, 0xff, 0xff],
              Txn.write [0x00], Txn.read 2, Txn.write [0x05]]) ≠ 0
          then .error "chip reset failed" else .ok (),
        log ++ [Txn.select self.address, Txn.write [0x00, 0xff, 0xff], Txn.write [0x00],
          Txn.read 2, Txn.write [0x05], Txn.read 2]) := by
  obtain ⟨hw, hr⟩ := hfull
  have h1 : WriteRegister t (log ++ [Txn.select self.address]) REG_CONFIG 0xffff false
      = (.ok (), log ++ [Txn.select self.address] ++ [Txn.write [0x00, 0xff, 0xff]]) := by
    rw [WriteRegister_unverified (by rw [hw]; rfl)]; rfl
  have h2 := @ReadRegister_complete t
    (log ++ [Txn.select self.address] ++ [Txn.write [0x00, 0xff, 0xff]]) REG_CONFIG
    (by rw [hw]; rfl) (by rw [hr]; rfl)
  have h3 := @ReadRegister_complete t
    (log ++ [Txn.select self.address] ++ [Txn.write [0x00, 0xff, 0xff]]
      ++ [Txn.write [REG_CONFIG]] ++ [Txn.read 2]) REG_CALIBRATION
    (by rw [hw]; rfl) (by rw [hr]; rfl)
  simp only [Reset, hio, if_false, h1, h2, h3]
  simp only [REG_CONFIG, REG_CALIBRATION, List.append_assoc, List.cons_append, List.nil_append]
  split_ifs <;> rfl

/-- C8: on a bus where the device selection succeeds and every transaction is complete,
`Reset` issues, in this order, the unverified write `[0x00, 0xff, 0xff]`, a read of register
0x00 and a read of register 0x05; it returns normally if and only if the configuration read
back is `0x399f` and the calibration read back is 0, and throws "chip reset failed" for
every other pair. -/
theorem Reset_sequence (t : Transport) (self : TINA219) (log : List Txn)
    (hio : t.ioctl log self.address ≠ -1) (hfull : t.FullLength) :
    (Reset t self log).2
      = log ++ [Txn.select self.address, Txn.write [0x00, 0xff, 0xff], Txn.write [0x00],
          Txn.read 2, Txn.write [0x05], Txn.read 2] ∧
    ((Reset t self log).1 = .ok () ↔
      t.read16 (log ++ [Txn.select self.address, Txn.write [0x00, 0xff, 0xff],
          Txn.write [0x00]]) = 0x399f
        ∧ t.read16 (log ++ [Txn.select self.address, Txn.write [0x00, 0xff, 0xff],
          Txn.write [0x00], Txn.read 2, Txn.write [0x05]]) = 0) ∧
    ((Reset t self log).1 = .error "chip reset failed" ↔
      ¬ (t.read16 (log ++ [Txn.select self.address, Txn.write [0x00, 0xff, 0xff],
          Txn.write [0x00]]) = 0x399f
        ∧ t.read16 (log ++ [Txn.select self.address, Txn.write [0x00, 0xff, 0xff],
          Txn.write [0x00], Txn.read 2, Txn.write [0x05]]) = 0)) := by
  rw [Reset_fullLength hio hfull]
  refine ⟨rfl, ?_, ?_⟩
  · dsimp only
    split_ifs with h
    · refine ⟨fun h' => (by cases h'), fun h' => ?_⟩
      rcases h with h | h
      · exact absurd h'.1 h
      · exact absurd h'.2 h
    · push_neg at h
      exact ⟨fun _ => h, fun _ => rfl⟩
  · dsimp only
    split_ifs with h
    · refine ⟨fun _ h' => ?_, fun _ => rfl⟩
      rcases h with h | h
      · exact absurd h'.1 h
      · exact absurd h'.2 h
    · push_neg at h
      exact ⟨fun h' => (by cases h'), fun h' => absurd h h'⟩

/-- Instance of `Reset_sequence`: the simulated chip answers `0x399f` and 0. -/
theorem Reset_sequence_witness :
    (simChip.ioctl [] dev0.address ≠ -1 ∧ simChip.FullLength) ∧
    (Reset simChip dev0 []).2
      = [] ++ [Txn.select dev0.address, Txn.write [0x00, 0xff, 0xff], Txn.write [0x00],
          Txn.read 2, Txn.write [0x05], Txn.read 2] ∧
    (Reset simChip dev0 []).1 = .ok () :=
  ⟨⟨by simp [simChip], simChip_fullLength⟩,
    (Reset_sequence simChip dev0 [] (by simp [simChip]) simChip_fullLength).1,
    (Reset_sequence simChip dev0 [] (by simp [simChip]) simChip_fullLength).2.1.2 ⟨rfl, rfl⟩⟩

/-! ## Which texts each function can throw, and how the log grows -/

theorem WriteRegister_error {t : Transport} {log : List Txn} {a v : Nat} {verify : Bool}
    {e : String} (h : (WriteRegister t log a v verify).1 = .error e) :
    e ∈ ["failed to write to register", "failed to read register after write",
      "register write verify failed"] := by
  unfold WriteRegister at h
  dsimp only at h
  split_ifs at h <;> simp_all

theorem WriteRegister_log_extends (t : Transport) (log : List Txn) (a v : Nat) (verify : Bool) :
    (log ++ [Txn.write (a :: htobe16 v)]) <+: (WriteRegister t log a v verify).2 := by
  unfold WriteRegister
  dsimp only
  split_ifs <;> simp

theorem ReadRegister_error {t : Transport} {log : List Txn} {a : Nat}
    {e : String} (h : (ReadRegister t log a).1 = .error e) :
    e ∈ ["failed to set the register pointer for a register read operation",
      "failed to read register value"] := by
  unfold ReadRegister at h
  dsimp only at h
  split_ifs at h <;> simp_all

theorem ReadRegister_log_extends (t : Transport) (log : List Txn) (a : Nat) :
    (log ++ [Txn.write [a]]) <+: (ReadRegister t log a).2 := by
  unfold ReadRegister
  dsimp only
  split_ifs <;> simp

theorem Reset_error {t : Transport} {self : TINA219} {log : List Txn}
    {e : String} (h : (Reset t self log).1 = .error e) :
    e ∈ ["ioctl(this->fd_i2cbus, I2C_SLAVE, this->address)", "failed to write to register",
      "failed to read register after write", "register write verify failed",
      "failed to set the register pointer for a register read operation",
      "failed to read register value", "chip reset failed"] := by
  unfold Reset at h
  dsimp only at h
  split_ifs at h with hio
  · simp_all
  · split at h
    · rename_i e1 log1 h1
      have := WriteRegister_error (congrArg Prod.fst h1)
      simp_all
      tauto
    · split at h
      · rename_i e2 log2 h2
        have := ReadRegister_error (congrArg Prod.fst h2)
        simp_all
        tauto
      · split at h
        · rename_i e3 log3 h3
          have := ReadRegister_error (congrArg Prod.fst h3)
          simp_all
          tauto
        · split_ifs at h
          simp_all

theorem Reset_log_extends (t : Transport) (self : TINA219) (log : List Txn) :
    (log ++ [Txn.select self.address]) <+: (Reset t self log).2 := by
  unfold Reset
  dsimp only
  split_ifs with hio
  · simp
  · have p1 := WriteRegister_log_extends t (log ++ [Txn.select self.address]) REG_CONFIG 0xffff
      false
    have q1 : (log ++ [Txn.select self.address])
        <+: (WriteRegister t (log ++ [Txn.select self.address]) REG_CONFIG 0xffff false).2 :=
      (List.prefix_append _ _).trans p1
    split
    · rename_i e1 log1 h1
      rw [h1] at q1; exact q1
    · rename_i u1 log1 h1
      rw [h1] at q1
      have q2 : log1 <+: (ReadRegister t log1 REG_CONFIG).2 :=
        (List.prefix_append _ _).trans (ReadRegister_log_extends t log1 REG_CONFIG)
      split
      · rename_i e2 log2 h2
        rw [h2] at q2; exact q1.trans q2
      · rename_i c2 log2 h2
        rw [h2] at q2
        have q3 : log2 <+: (ReadRegister t log2 REG_CALIBRATION).2 :=
          (List.prefix_append _ _).trans (ReadRegister_log_extends t log2 REG_CALIBRATION)
        split
        · rename_i e3 log3 h3
          rw [h3] at q3; exact (q1.trans q2).trans q3
        · rename_i c3 log3 h3
          rw [h3] at q3
          split_ifs <;> exact (q1.trans q2).trans q3

theorem SampleToResAvg_error {n : Nat} {e : String} (h : SampleToResAvg n = .error e) :
    e ∈ ["n_sample must at least be 1", "n_sample must be <= 128"] := by
  rcases Nat.eq_zero_or_pos n with rfl | h0
  · rw [SampleToResAvg_zero] at h; simp_all
  · by_cases h1 : n ≤ 128
    · obtain ⟨c, hc, -⟩ := SampleToResAvg_ok h0 h1
      rw [hc] at h; cases h
    · rw [SampleToResAvg_large (by omega)] at h; simp_all

/-! ## Calibrate: the two parameter checks -/

theorem Calibrate_max_voltage {t : Transport} {self : TINA219} {log : List Txn}
    {max_voltage : ℚ} (max_current_amps r_shunt_ohm : ℚ) (n_sample_voltage n_sample_current : Nat)
    (h : max_voltage > 32) :
    Calibrate t self log max_voltage max_current_amps r_shunt_ohm n_sample_voltage
        n_sample_current
      = (.error "max_voltage > 32", self, log) := by
  simp [Calibrate, h]

theorem Calibrate_shunt_voltage {t : Transport} {self : TINA219} {log : List Txn}
    {max_voltage max_current_amps r_shunt_ohm : ℚ} (n_sample_voltage n_sample_current : Nat)
    (h1 : max_voltage ≤ 32) (h : f32 (max_current_amps * r_shunt_ohm) > f32 0.32) :
    Calibrate t self log max_voltage max_current_amps r_shunt_ohm n_sample_voltage
        n_sample_current
      = (.error "shunt resistor has a too high ohm value for the desired target current (shunt voltage will exeed 320mV)",
          self, log) := by
  simp [Calibrate, not_lt.2 h1, h]

/-- When both parameter checks pass, `Calibrate` is what follows them in its body. -/
theorem Calibrate_checked {t : Transport} {self : TINA219} {log : List Txn}
    {max_voltage max_current_amps r_shunt_ohm : ℚ} (n_sample_voltage n_sample_current : Nat)
    (h1 : max_voltage ≤ 32) (h2 : f32 (max_current_amps * r_shunt_ohm) ≤ f32 0.32) :
    Calibrate t self log max_voltage max_current_amps r_shunt_ohm n_sample_voltage
        n_sample_current
      = match Reset t self log with
        | (.error e, log1) => (.error e, self, log1)
        | (.ok _, log1) =>
          match SampleToResAvg n_sample_current with
          | .error e => (.error e, self, log1)
          | .ok sadc =>
            match SampleToResAvg n_sample_voltage with
            | .error e => (.error e, self, log1)
            | .ok badc =>
              match WriteRegister t log1 REG_CONFIG
                  (Calibrate.config max_voltage (f32 (max_current_amps * r_shunt_ohm)) sadc
                    badc).toUInt16 true with
              | (.error e, log2) => (.error e, self, log2)
              | (.ok _, log2) =>
                match WriteRegister t log2 REG_CALIBRATION
                    (Calibrate.cal_reg (f32 (max_current_amps / 32768)) r_shunt_ohm) true with
                | (.error e, log3) =>
                  (.error e, { self with current_lsb := f32 (max_current_amps / 32768) }, log3)
                | (.ok _, log3) =>
                  (.ok (), { self with current_lsb := f32 (max_current_amps / 32768) }, log3) := by
  simp only [Calibrate, gt_iff_lt, not_lt.2 h1, not_lt.2 h2, if_false]

theorem Calibrate_checked_error {t : Transport} {self : TINA219} {log : List Txn}
    {max_voltage max_current_amps r_shunt_ohm : ℚ} {n_sample_voltage n_sample_current : Nat}
    (h1 : max_voltage ≤ 32) (h2 : f32 (max_current_amps * r_shunt_ohm) ≤ f32 0.32) {e : String}
    (h : (Calibrate t self log max_voltage max_current_amps r_shunt_ohm n_sample_voltage
      n_sample_current).1 = .error e) :
    e ∈ ["ioctl(this->fd_i2cbus, I2C_SLAVE, this->address)", "failed to write to register",
      "failed to read register after write", "register write verify failed",
      "failed to set the register pointer for a register read operation",
      "failed to read register value", "chip reset failed",
      "n_sample must at least be 1", "n_sample must be <= 128"] := by
  rw [Calibrate_checked _ _ h1 h2] at h
  split at h
  · rename_i e1 log1 hr
    have := Reset_error (congrArg Prod.fst hr)
    simp_all
    tauto
  · split at h
    · rename_i e2 hs
      have := SampleToResAvg_error hs
      simp_all
    · split at h
      · rename_i e3 hs
        have := SampleToResAvg_error hs
        simp_all
      · split at h
        · rename_i e4 log2 hw
          have := WriteRegister_error (congrArg Prod.fst hw)
          simp_all
          tauto
        · split at h
          · rename_i e5 log3 hw
            have := WriteRegister_error (congrArg Prod.fst hw)
            simp_all
            tauto
          · cases h

theorem Calibrate_checked_log {t : Transport} {self : TINA219} {log : List Txn}
    {max_voltage max_current_amps r_shunt_ohm : ℚ} (n_sample_voltage n_sample_current : Nat)
    (h1 : max_voltage ≤ 32) (h2 : f32 (max_current_amps * r_shunt_ohm) ≤ f32 0.32) :
    (Reset t self log).2 <+: (Calibrate t self log max_voltage max_current_amps r_shunt_ohm
      n_sample_voltage n_sample_current).2.2 := by
  rw [Calibrate_checked _ _ h1 h2]
  split
  · rename_i e1 log1 hr
    rw [hr]
  · rename_i u1 log1 hr
    rw [hr]
    split
    · exact List.prefix_refl _
    · rename_i sadc hsadc
      split
      · exact List.prefix_refl _
      · rename_i badc hbadc
        have q1 := (List.prefix_append _ _).trans (WriteRegister_log_extends t log1 REG_CONFIG
          (Calibrate.config max_voltage (f32 (max_current_amps * r_shunt_ohm)) sadc badc).toUInt16
          true)
        split
        · rename_i e4 log2 hw
          rw [hw] at q1; exact q1
        · rename_i u4 log2 hw
          rw [hw] at q1
          have q2 := (List.prefix_append _ _).trans (WriteRegister_log_extends t log2
            REG_CALIBRATION (Calibrate.cal_reg (f32 (max_current_amps / 32768)) r_shunt_ohm) true)
          split
          · rename_i e5 log3 hw2
            rw [hw2] at q2; exact q1.trans q2
          · rename_i u5 log3 hw2
            rw [hw2] at q2; exact q1.trans q2

/-- C3 (amended): `Calibrate` throws one of its two parameter-check texts, with the device
object and the bus log untouched, when `max_voltage > 32` or the binary32 product
`max_current_amps * r_shunt_ohm` is above `0.32f`; when `max_voltage <= 32` and the
binary32 product is `<= 0.32f` it throws neither text and goes on to the device selection
of `Reset`. The binary32 product is above `0.32f` if and only if the exact product is above
`21474837 / 67108864` (0.3200000077), the point half-way between `0.32f` and the next
binary32 value; in particular an exact product `<= 0.32` passes the check. -/
theorem Calibrate_parameter_checks (t : Transport) (self : TINA219) (log : List Txn)
    (max_voltage max_current_amps r_shunt_ohm : ℚ) (n_sample_voltage n_sample_current : Nat) :
    (max_voltage > 32 ∨ f32 (max_current_amps * r_shunt_ohm) > f32 0.32 →
      ((Calibrate t self log max_voltage max_current_amps r_shunt_ohm n_sample_voltage
          n_sample_current).1 = .error "max_voltage > 32"
        ∨ (Calibrate t self log max_voltage max_current_amps r_shunt_ohm n_sample_voltage
          n_sample_current).1 = .error "shunt resistor has a too high ohm value for the desired target current (shunt voltage will exeed 320mV)")
      ∧ (Calibrate t self log max_voltage max_current_amps r_shunt_ohm n_sample_voltage
          n_sample_current).2 = (self, log)) ∧
    (max_voltage ≤ 32 ∧ f32 (max_current_amps * r_shunt_ohm) ≤ f32 0.32 →
      (Calibrate t self log max_voltage max_current_amps r_shunt_ohm n_sample_voltage
          n_sample_current).1 ≠ .error "max_voltage > 32"
      ∧ (Calibrate t self log max_voltage max_current_amps r_shunt_ohm n_sample_voltage
          n_sample_current).1 ≠ .error "shunt resistor has a too high ohm value for the desired target current (shunt voltage will exeed 320mV)"
      ∧ (log ++ [Txn.select self.address]) <+: (Calibrate t self log max_voltage
          max_current_amps r_shunt_ohm n_sample_voltage n_sample_current).2.2) ∧
    (f32 (max_current_amps * r_shunt_ohm) > f32 0.32
      ↔ max_current_amps * r_shunt_ohm > 21474837 / 67108864) ∧
    (max_current_amps * r_shunt_ohm ≤ 0.32 →
      f32 (max_current_amps * r_shunt_ohm) ≤ f32 0.32) := by
  refine ⟨?_, ?_, f32_gt_shunt_limit_iff _, ?_⟩
  · intro h
    by_cases h1 : max_voltage > 32
    · rw [Calibrate_max_voltage _ _ _ _ h1]
      exact ⟨Or.inl rfl, rfl⟩
    · have h2 : f32 (max_current_amps * r_shunt_ohm) > f32 0.32 := h.resolve_left h1
      rw [Calibrate_shunt_voltage _ _ (not_lt.1 h1) h2]
      exact ⟨Or.inr rfl, rfl⟩
  · rintro ⟨h1, h2⟩
    refine ⟨fun h => ?_, fun h => ?_, ?_⟩
    · have := Calibrate_checked_error h1 h2 h
      revert this
      decide
    · have := Calibrate_checked_error h1 h2 h
      revert this
      decide
    · exact (Reset_log_extends t self log).trans (Calibrate_checked_log _ _ h1 h2)
  · intro h
    exact f32_mono (by norm_num) h

theorem Reset_simChip :
    Reset simChip dev0 []
      = (.ok (), [Txn.select 0x40, Txn.write [0x00, 0xff, 0xff], Txn.write [0x00], Txn.read 2,
          Txn.write [0x05], Txn.read 2]) := by
  rw [Reset_fullLength (by simp [simChip]) simChip_fullLength]
  rfl

/-- Instance of `Calibrate_parameter_checks`: `(24, 1.5, 0.1f, 128, 128)` passes both
checks, the same call with `r_shunt_ohm = 0.3f` and a call with `max_voltage = 32.1f` do
not. -/
theorem Calibrate_parameter_checks_witness :
    (((24 : ℚ) ≤ 32 ∧ f32 (1.5 * f32 0.1) ≤ f32 0.32) ∧
      (Calibrate simChip dev0 [] 24 1.5 (f32 0.1) 128 128).1 ≠ .error "max_voltage > 32" ∧
      (Calibrate simChip dev0 [] 24 1.5 (f32 0.1) 128 128).1 ≠ .error "shunt resistor has a too high ohm value for the desired target current (shunt voltage will exeed 320mV)" ∧
      ([] ++ [Txn.select dev0.address])
        <+: (Calibrate simChip dev0 [] 24 1.5 (f32 0.1) 128 128).2.2) ∧
    (((24 : ℚ) > 32 ∨ f32 (1.5 * f32 0.3) > f32 0.32) ∧
      (Calibrate simChip dev0 [] 24 1.5 (f32 0.3) 128 128).2 = (dev0, [])) ∧
    ((f32 32.1 > 32 ∨ f32 (1.5 * f32 0.1) > f32 0.32) ∧
      (Calibrate simChip dev0 [] (f32 32.1) 1.5 (f32 0.1) 128 128).2 = (dev0, [])) :=
  ⟨⟨⟨by norm_num, shunt_check_example⟩,
      (Calibrate_parameter_checks simChip dev0 [] 24 1.5 (f32 0.1) 128 128).2.1
        ⟨by norm_num, shunt_check_example⟩⟩,
    ⟨Or.inr shunt_check_high_shunt,
      ((Calibrate_parameter_checks simChip dev0 [] 24 1.5 (f32 0.3) 128 128).1
        (Or.inr shunt_check_high_shunt)).2⟩,
    ⟨Or.inl (by rw [f32_32_1]; norm_num),
      ((Calibrate_parameter_checks simChip dev0 [] (f32 32.1) 1.5 (f32 0.1) 128 128).1
        (Or.inl (by rw [f32_32_1]; norm_num))).2⟩⟩

/-- C2: with `n_sample_voltage = 0` and otherwise good arguments, on a responsive chip,
`Calibrate` throws "n_sample must at least be 1" only after the whole reset sequence,
the write of `0xffff` to register 0x00 included, has gone over the bus. -/
theorem Calibrate_sample_count_checked_after_reset :
    Calibrate simChip dev0 [] 24 1.5 (f32 0.1) 0 128
      = (.error "n_sample must at least be 1", dev0,
          [Txn.select 0x40, Txn.write [0x00, 0xff, 0xff], Txn.write [0x00], Txn.read 2,
            Txn.write [0x05], Txn.read 2]) := by
  rw [Calibrate_checked 0 128 (by norm_num) shunt_check_example, Reset_simChip]
  rfl

/-! ## The configuration word -/

theorem config_t_toUInt16_lt (config : config_t) : config.toUInt16 < 65536 := by
  unfold config_t.toUInt16
  omega

theorem config_t_toUInt16_pg (config : config_t) :
    config.toUInt16 / 2048 % 4 = config.pg % 4 := by
  unfold config_t.toUInt16
  omega

theorem config_t_toUInt16_brng (config : config_t) :
    config.toUInt16 / 8192 % 2 = config.brng % 2 := by
  unfold config_t.toUInt16
  omega

theorem Calibrate_pg_lt (v : ℚ) : Calibrate.pg v < 4 := by
  unfold Calibrate.pg
  split_ifs <;> decide

/-- C4: for a shunt voltage in `(0, 0.32]` the gain code which `Calibrate` puts into the `pg`
field (bits 11..12 of the configuration word) is `0b00` up to 0.04, `0b01` in `(0.04, 0.08]`,
`0b10` in `(0.08, 0.16]` and `0b11` in `(0.16, 0.32]`; it never decreases when the shunt
voltage grows. -/
theorem Calibrate_pg_bands (v : ℚ) :
    (0 < v ∧ v ≤ 0.04 → Calibrate.pg v = 0b00) ∧
    (0.04 < v ∧ v ≤ 0.08 → Calibrate.pg v = 0b01) ∧
    (0.08 < v ∧ v ≤ 0.16 → Calibrate.pg v = 0b10) ∧
    (0.16 < v ∧ v ≤ 0.32 → Calibrate.pg v = 0b11) ∧
    (∀ w : ℚ, 0 < v → v ≤ w → w ≤ 0.32 → Calibrate.pg v ≤ Calibrate.pg w) ∧
    (∀ (max_voltage : ℚ) (sadc badc : Nat),
      (Calibrate.config max_voltage v sadc badc).toUInt16 / 2048 % 4 = Calibrate.pg v) := by
  refine ⟨?_, ?_, ?_, ?_, ?_, ?_⟩
  · rintro ⟨-, h⟩
    simp [Calibrate.pg, h]
  · rintro ⟨h1, h2⟩
    simp [Calibrate.pg, not_le.2 h1, h2]
  · rintro ⟨h1, h2⟩
    have h3 : ¬ v ≤ 0.04 := by linarith
    have h4 : ¬ v ≤ 0.08 := by linarith
    simp [Calibrate.pg, h3, h4, h2]
  · rintro ⟨h1, -⟩
    have h3 : ¬ v ≤ 0.04 := by linarith
    have h4 : ¬ v ≤ 0.08 := by linarith
    have h5 : ¬ v ≤ 0.16 := by linarith
    simp [Calibrate.pg, h3, h4, h5]
  · intro w _ hvw _
    unfold Calibrate.pg
    split_ifs <;> first | decide | (exfalso; linarith)
  · intro max_voltage sadc badc
    rw [config_t_toUInt16_pg]
    exact Nat.mod_eq_of_lt (Calibrate_pg_lt v)

/-- Instance of `Calibrate_pg_bands`: 0.15 V, the shunt voltage of the example program,
lies in the third band, and the code for 0.04 V is not above it. -/
theorem Calibrate_pg_bands_witness :
    (((0.08 : ℚ) < 0.15 ∧ (0.15 : ℚ) ≤ 0.16) ∧ Calibrate.pg 0.15 = 0b10) ∧
    (((0 : ℚ) < 0.04 ∧ (0.04 : ℚ) ≤ 0.15 ∧ (0.15 : ℚ) ≤ 0.32) ∧
      Calibrate.pg 0.04 ≤ Calibrate.pg 0.15) :=
  ⟨⟨⟨by norm_num, by norm_num⟩,
      (Calibrate_pg_bands 0.15).2.2.1 ⟨by norm_num, by norm_num⟩⟩,
    ⟨⟨by norm_num, by norm_num, by norm_num⟩,
      (Calibrate_pg_bands 0.04).2.2.2.2.1 0.15 (by norm_num) (by norm_num) (by norm_num)⟩⟩

/-! ## Calibrate: the two register writes -/

/-- After a successful `Reset` and with both averaging codes found, the next bus
transaction of `Calibrate` is the write of the configuration word to register 0x00. -/
theorem Calibrate_config_write {t : Transport} {self : TINA219} {log log1 : List Txn}
    {max_voltage max_current_amps r_shunt_ohm : ℚ} {n_sample_voltage n_sample_current : Nat}
    {sadc badc : Nat} (h1 : max_voltage ≤ 32) (h2 : f32 (max_current_amps * r_shunt_ohm) ≤ f32 0.32)
    (hreset : Reset t self log = (.ok (), log1))
    (hsadc : SampleToResAvg n_sample_current = .ok sadc)
    (hbadc : SampleToResAvg n_sample_voltage = .ok badc) :
    (log1 ++ [Txn.write (REG_CONFIG :: htobe16 (Calibrate.config max_voltage
        (f32 (max_current_amps * r_shunt_ohm)) sadc badc).toUInt16)])
      <+: (Calibrate t self log max_voltage max_current_amps r_shunt_ohm n_sample_voltage
        n_sample_current).2.2 := by
  rw [Calibrate_checked _ _ h1 h2]
  simp only [hreset, hsadc, hbadc]
  have q1 := WriteRegister_log_extends t log1 REG_CONFIG
    (Calibrate.config max_voltage (f32 (max_current_amps * r_shunt_ohm)) sadc badc).toUInt16 true
  split
  · rename_i e4 log2 hw
    rw [hw] at q1; exact q1
  · rename_i u4 log2 hw
    rw [hw] at q1
    have q2 := (List.prefix_append _ _).trans (WriteRegister_log_extends t log2
      REG_CALIBRATION (Calibrate.cal_reg (f32 (max_current_amps / 32768)) r_shunt_ohm) true)
    split
    · rename_i e5 log3 hw2
      rw [hw2] at q2; exact q1.trans q2
    · rename_i u5 log3 hw2
      rw [hw2] at q2; exact q1.trans q2

/-- After the verified write of the configuration word, `Calibrate` stores `current_lsb`
and its next bus transaction is the write of `cal_reg` to register 0x05. -/
theorem Calibrate_calibration_write {t : Transport} {self : TINA219} {log log1 log2 : List Txn}
    {max_voltage max_current_amps r_shunt_ohm : ℚ} {n_sample_voltage n_sample_current : Nat}
    {sadc badc : Nat} (h1 : max_voltage ≤ 32) (h2 : f32 (max_current_amps * r_shunt_ohm) ≤ f32 0.32)
    (hreset : Reset t self log = (.ok (), log1))
    (hsadc : SampleToResAvg n_sample_current = .ok sadc)
    (hbadc : SampleToResAvg n_sample_voltage = .ok badc)
    (hconfig : WriteRegister t log1 REG_CONFIG (Calibrate.config max_voltage
      (f32 (max_current_amps * r_shunt_ohm)) sadc badc).toUInt16 true = (.ok (), log2)) :
    (Calibrate t self log max_voltage max_current_amps r_shunt_ohm n_sample_voltage
        n_sample_current).2.1 = { self with current_lsb := f32 (max_current_amps / 32768) } ∧
    (log2 ++ [Txn.write (REG_CALIBRATION :: htobe16 (Calibrate.cal_reg
        (f32 (max_current_amps / 32768)) r_shunt_ohm))])
      <+: (Calibrate t self log max_voltage max_current_amps r_shunt_ohm n_sample_voltage
        n_sample_current).2.2 := by
  rw [Calibrate_checked _ _ h1 h2]
  simp only [hreset, hsadc, hbadc, hconfig]
  have q2 := WriteRegister_log_extends t log2
    REG_CALIBRATION (Calibrate.cal_reg (f32 (max_current_amps / 32768)) r_shunt_ohm) true
  split
  · rename_i e5 log3 hw2
    rw [hw2] at q2; exact ⟨rfl, q2⟩
  · rename_i u5 log3 hw2
    rw [hw2] at q2; exact ⟨rfl, q2⟩

/-- When everything before the write of the calibration register succeeds, `Calibrate`
ends as this write does, with `current_lsb` set. -/
theorem Calibrate_calibration_result {t : Transport} {self : TINA219}
    {log log1 log2 log3 : List Txn} {max_voltage max_current_amps r_shunt_ohm : ℚ}
    {n_sample_voltage n_sample_current : Nat} {sadc badc : Nat} {r : Except String Unit}
    (h1 : max_voltage ≤ 32) (h2 : f32 (max_current_amps * r_shunt_ohm) ≤ f32 0.32)
    (hreset : Reset t self log = (.ok (), log1))
    (hsadc : SampleToResAvg n_sample_current = .ok sadc)
    (hbadc : SampleToResAvg n_sample_voltage = .ok badc)
    (hconfig : WriteRegister t log1 REG_CONFIG (Calibrate.config max_voltage
      (f32 (max_current_amps * r_shunt_ohm)) sadc badc).toUInt16 true = (.ok (), log2))
    (hcal : WriteRegister t log2 REG_CALIBRATION
      (Calibrate.cal_reg (f32 (max_current_amps / 32768)) r_shunt_ohm) true = (r, log3)) :
    Calibrate t self log max_voltage max_current_amps r_shunt_ohm n_sample_voltage
        n_sample_current
      = (r, { self with current_lsb := f32 (max_current_amps / 32768) }, log3) := by
  rw [Calibrate_checked _ _ h1 h2]
  simp only [hreset, hsadc, hbadc, hconfig, hcal]
  cases r <;> rfl

theorem config_brng_iff (max_voltage max_shunt_voltage : ℚ) (sadc badc : Nat) :
    (Calibrate.config max_voltage max_shunt_voltage sadc badc).toUInt16 / 8192 % 2 = 1
      ↔ max_voltage > 16 := by
  rw [config_t_toUInt16_brng]
  simp only [Calibrate.config, Calibrate.brng]
  split_ifs with h <;> simp [h]

/-- C5: whenever `Calibrate` gets as far as writing the configuration register (both
parameter checks passed, `Reset` succeeded, both sample counts have a code), the frame it
writes is `[0x00, config >> 8, config & 0xff]`, and bit 13 (`brng`) of `config` is 1 if and
only if `max_voltage > 16`. -/
theorem Calibrate_brng_bit (t : Transport) (self : TINA219) (log log1 : List Txn)
    (max_voltage max_current_amps r_shunt_ohm : ℚ) (n_sample_voltage n_sample_current : Nat)
    (sadc badc : Nat) (h1 : max_voltage ≤ 32) (h2 : f32 (max_current_amps * r_shunt_ohm) ≤ f32 0.32)
    (hreset : Reset t self log = (.ok (), log1))
    (hsadc : SampleToResAvg n_sample_current = .ok sadc)
    (hbadc : SampleToResAvg n_sample_voltage = .ok badc) :
    ∃ config : Nat,
      config = (Calibrate.config max_voltage (f32 (max_current_amps * r_shunt_ohm)) sadc
        badc).toUInt16 ∧
      config < 65536 ∧
      (log1 ++ [Txn.write [0x00, config / 256, config % 256]])
        <+: (Calibrate t self log max_voltage max_current_amps r_shunt_ohm n_sample_voltage
          n_sample_current).2.2 ∧
      (config / 8192 % 2 = 1 ↔ max_voltage > 16) := by
  refine ⟨_, rfl, config_t_toUInt16_lt _, ?_, config_brng_iff _ _ _ _⟩
  have h := Calibrate_config_write (t := t) h1 h2 hreset hsadc hbadc
  rwa [htobe16_of_lt (config_t_toUInt16_lt _)] at h

/-! ## The calibration value -/

theorem float_to_uint16_lt (x : ℚ) : float_to_uint16 x < 65536 := by
  unfold float_to_uint16
  have h1 := Int.emod_lt_of_pos (if 0 ≤ x then ⌊x⌋ else ⌈x⌉) (by norm_num : (0 : ℤ) < 65536)
  have h2 := Int.emod_nonneg (if 0 ≤ x then ⌊x⌋ else ⌈x⌉) (by norm_num : (65536 : ℤ) ≠ 0)
  omega

theorem float_to_uint16_of_fits {x : ℚ} {q : Nat} (hq : (q : ℤ) = ⌊x⌋) (h0 : 0 ≤ x)
    (h1 : q < 65536) : float_to_uint16 x = q := by
  unfold float_to_uint16
  rw [if_pos h0, ← hq]
  omega

theorem and_fffe (x : Nat) : x &&& 0xfffe = 2 * (x / 2 % 32768) := by
  have h1 : (x &&& 0xfffe) / 2 = x / 2 % 32768 := by
    rw [Nat.and_div_two]
    exact Nat.and_pow_two_sub_one_eq_mod (x / 2) 15
  have h2 : ¬ (x &&& 0xfffe) % 2 = 1 := by
    simp
  omega

theorem Calibrate_cal_reg_eq (current_lsb r_shunt_ohm : ℚ) :
    Calibrate.cal_reg current_lsb r_shunt_ohm
      = float_to_uint16 (Calibrate.quotient current_lsb r_shunt_ohm)
        - float_to_uint16 (Calibrate.quotient current_lsb r_shunt_ohm) % 2 := by
  have h := float_to_uint16_lt (Calibrate.quotient current_lsb r_shunt_ohm)
  rw [Calibrate.cal_reg, and_fffe]
  omega

theorem Calibrate_cal_reg_lt (current_lsb r_shunt_ohm : ℚ) :
    Calibrate.cal_reg current_lsb r_shunt_ohm < 65536 := by
  have h := float_to_uint16_lt (Calibrate.quotient current_lsb r_shunt_ohm)
  rw [Calibrate_cal_reg_eq]
  omega

/-- The binary32 quotient of `Calibrate` is not negative when the divisor is not. -/
theorem Calibrate_quotient_nonneg {current_lsb r_shunt_ohm : ℚ}
    (h : 0 ≤ current_lsb * r_shunt_ohm) : 0 ≤ Calibrate.quotient current_lsb r_shunt_ohm := by
  have hd := f32_nonneg h
  rw [Calibrate.quotient, f32_0_04096, f32_div]
  by_cases hz : f32 (current_lsb * r_shunt_ohm) = 0
  · rw [if_pos hz, if_pos (by norm_num)]
    norm_num
  · rw [if_neg hz]
    exact f32_nonneg (div_nonneg (by norm_num) hd)

theorem Calibrate_cal_reg_mod_two (current_lsb r_shunt_ohm : ℚ) :
    Calibrate.cal_reg current_lsb r_shunt_ohm % 2 = 0 := by
  rw [Calibrate_cal_reg_eq]
  omega

/-- C7: whenever `Calibrate` gets as far as writing the calibration register, the frame it
writes is `[0x05, cal_reg >> 8, cal_reg & 0xff]` with `cal_reg` a 16-bit value whose bit 0
is clear, whatever the quotient was before the conversion to 16 bits. -/
theorem Calibrate_cal_reg_even (t : Transport) (self : TINA219) (log log1 log2 : List Txn)
    (max_voltage max_current_amps r_shunt_ohm : ℚ) (n_sample_voltage n_sample_current : Nat)
    (sadc badc : Nat) (h1 : max_voltage ≤ 32) (h2 : f32 (max_current_amps * r_shunt_ohm) ≤ f32 0.32)
    (hreset : Reset t self log = (.ok (), log1))
    (hsadc : SampleToResAvg n_sample_current = .ok sadc)
    (hbadc : SampleToResAvg n_sample_voltage = .ok badc)
    (hconfig : WriteRegister t log1 REG_CONFIG (Calibrate.config max_voltage
      (f32 (max_current_amps * r_shunt_ohm)) sadc badc).toUInt16 true = (.ok (), log2)) :
    ∃ cal_reg : Nat,
      cal_reg = Calibrate.cal_reg (f32 (max_current_amps / 32768)) r_shunt_ohm ∧
      cal_reg < 65536 ∧
      (log2 ++ [Txn.write [0x05, cal_reg / 256, cal_reg % 256]])
        <+: (Calibrate t self log max_voltage max_current_amps r_shunt_ohm n_sample_voltage
          n_sample_current).2.2 ∧
      cal_reg &&& 1 = 0 := by
  refine ⟨_, rfl, Calibrate_cal_reg_lt _ _, ?_, ?_⟩
  · have h := (Calibrate_calibration_write (t := t) h1 h2 hreset hsadc hbadc hconfig).2
    rwa [htobe16_of_lt (Calibrate_cal_reg_lt _ _)] at h
  · rw [Nat.and_one_is_mod]
    exact Calibrate_cal_reg_mod_two _ _

/-! ## The simulated chip, evaluated -/

theorem SampleToResAvg_128 : SampleToResAvg 128 = .ok 0b1111 :=
  rfl

theorem cal_reg_example :
    Calibrate.cal_reg (f32 (1.5 / 32768)) (f32 0.1) = 8946 := by
  have hf : ⌊(2290649 / 256 : ℚ)⌋ = 8947 := by
    rw [Int.floor_eq_iff]
    norm_num
  have h : float_to_uint16 (2290649 / 256) = 8947 := by
    unfold float_to_uint16
    rw [if_pos (by norm_num), hf]
    rfl
  rw [Calibrate_cal_reg_eq, quotient_example, h]

theorem config_example :
    (Calibrate.config 24 (f32 (1.5 * f32 0.1)) 0b1111 0b1111).toUInt16 = 0x37ff := by
  have h1 : Calibrate.pg (f32 (1.5 * f32 0.1)) = 0b10 := by
    rw [shunt_voltage_example]
    unfold Calibrate.pg
    norm_num
  have h2 : Calibrate.brng 24 = 1 := by
    unfold Calibrate.brng
    norm_num
  simp only [Calibrate.config, config_t.toUInt16, h1, h2]

theorem WriteRegister_config_example :
    WriteRegister simChip
        [Txn.select 0x40, Txn.write [0x00, 0xff, 0xff], Txn.write [0x00], Txn.read 2,
          Txn.write [0x05], Txn.read 2]
        REG_CONFIG (Calibrate.config 24 (f32 (1.5 * f32 0.1)) 0b1111 0b1111).toUInt16 true
      = (.ok (), [Txn.select 0x40, Txn.write [0x00, 0xff, 0xff], Txn.write [0x00], Txn.read 2,
          Txn.write [0x05], Txn.read 2, Txn.write [0x00, 0x37, 0xff], Txn.read 2]) := by
  rw [config_example]
  rfl

theorem WriteRegister_calibration_example :
    WriteRegister simChip
        [Txn.select 0x40, Txn.write [0x00, 0xff, 0xff], Txn.write [0x00], Txn.read 2,
          Txn.write [0x05], Txn.read 2, Txn.write [0x00, 0x37, 0xff], Txn.read 2]
        REG_CALIBRATION (Calibrate.cal_reg (f32 (1.5 / 32768)) (f32 0.1)) true
      = (.ok (), [Txn.select 0x40, Txn.write [0x00, 0xff, 0xff], Txn.write [0x00], Txn.read 2,
          Txn.write [0x05], Txn.read 2, Txn.write [0x00, 0x37, 0xff], Txn.read 2,
            Txn.write [0x05, 0x22, 0xf2], Txn.read 2]) := by
  rw [cal_reg_example]
  rfl

theorem Calibrate_simChip_example :
    Calibrate simChip dev0 [] 24 1.5 (f32 0.1) 128 128
      = (.ok (), { dev0 with current_lsb := 3 / 65536 },
          [Txn.select 0x40, Txn.write [0x00, 0xff, 0xff], Txn.write [0x00], Txn.read 2,
          Txn.write [0x05], Txn.read 2, Txn.write [0x00, 0x37, 0xff], Txn.read 2,
            Txn.write [0x05, 0x22, 0xf2], Txn.read 2]) := by
  rw [Calibrate_calibration_result (by norm_num) shunt_check_example Reset_simChip
    SampleToResAvg_128 SampleToResAvg_128 WriteRegister_config_example
    WriteRegister_calibration_example, current_lsb_example]

theorem cal_reg_low_shunt :
    Calibrate.cal_reg (f32 (1 / 32768)) (f32 0.01) = 3144 := by
  have hf : ⌊(8589935 / 64 : ℚ)⌋ = 134217 := by
    rw [Int.floor_eq_iff]
    norm_num
  have h : float_to_uint16 (8589935 / 64) = 3145 := by
    unfold float_to_uint16
    rw [if_pos (by norm_num), hf]
    rfl
  rw [Calibrate_cal_reg_eq, quotient_low_shunt, h]

theorem config_low_shunt :
    (Calibrate.config 24 (f32 (1 * f32 0.01)) 0b1111 0b1111).toUInt16 = 0x27ff := by
  have h1 : Calibrate.pg (f32 (1 * f32 0.01)) = 0b00 := by
    rw [shunt_voltage_low_shunt]
    unfold Calibrate.pg
    norm_num
  have h2 : Calibrate.brng 24 = 1 := by
    unfold Calibrate.brng
    norm_num
  simp only [Calibrate.config, config_t.toUInt16, h1, h2]

theorem WriteRegister_config_low_shunt :
    WriteRegister simChip
        [Txn.select 0x40, Txn.write [0x00, 0xff, 0xff], Txn.write [0x00], Txn.read 2,
          Txn.write [0x05], Txn.read 2]
        REG_CONFIG (Calibrate.config 24 (f32 (1 * f32 0.01)) 0b1111 0b1111).toUInt16 true
      = (.ok (), [Txn.select 0x40, Txn.write [0x00, 0xff, 0xff], Txn.write [0x00], Txn.read 2,
          Txn.write [0x05], Txn.read 2, Txn.write [0x00, 0x27, 0xff], Txn.read 2]) := by
  rw [config_low_shunt]
  rfl

theorem WriteRegister_calibration_low_shunt :
    WriteRegister simChip
        [Txn.select 0x40, Txn.write [0x00, 0xff, 0xff], Txn.write [0x00], Txn.read 2,
          Txn.write [0x05], Txn.read 2, Txn.write [0x00, 0x27, 0xff], Txn.read 2]
        REG_CALIBRATION (Calibrate.cal_reg (f32 (1 / 32768)) (f32 0.01)) true
      = (.ok (), [Txn.select 0x40, Txn.write [0x00, 0xff, 0xff], Txn.write [0x00], Txn.read 2,
          Txn.write [0x05], Txn.read 2, Txn.write [0x00, 0x27, 0xff], Txn.read 2,
            Txn.write [0x05, 0x0c, 0x48], Txn.read 2]) := by
  rw [cal_reg_low_shunt]
  rfl

theorem Calibrate_simChip_low_shunt :
    Calibrate simChip dev0 [] 24 1 (f32 0.01) 128 128
      = (.ok (), { dev0 with current_lsb := 1 / 32768 },
          [Txn.select 0x40, Txn.write [0x00, 0xff, 0xff], Txn.write [0x00], Txn.read 2,
          Txn.write [0x05], Txn.read 2, Txn.write [0x00, 0x27, 0xff], Txn.read 2,
            Txn.write [0x05, 0x0c, 0x48], Txn.read 2]) := by
  rw [Calibrate_calibration_result (by norm_num) shunt_check_low_shunt Reset_simChip
    SampleToResAvg_128 SampleToResAvg_128 WriteRegister_config_low_shunt
    WriteRegister_calibration_low_shunt, current_lsb_low_shunt]

theorem cal_reg_rounded :
    Calibrate.cal_reg (f32 (f32 0.251 / 32768)) (f32 0.33) = 16204 := by
  have hf : ⌊(16204 : ℚ)⌋ = 16204 := by
    rw [Int.floor_eq_iff]
    norm_num
  have h : float_to_uint16 (16204) = 16204 := by
    unfold float_to_uint16
    rw [if_pos (by norm_num), hf]
    rfl
  rw [Calibrate_cal_reg_eq, quotient_rounded, h]

theorem config_rounded :
    (Calibrate.config 24 (f32 (f32 0.251 * f32 0.33)) 0b1111 0b1111).toUInt16 = 0x37ff := by
  have h1 : Calibrate.pg (f32 (f32 0.251 * f32 0.33)) = 0b10 := by
    rw [shunt_voltage_rounded]
    unfold Calibrate.pg
    norm_num
  have h2 : Calibrate.brng 24 = 1 := by
    unfold Calibrate.brng
    norm_num
  simp only [Calibrate.config, config_t.toUInt16, h1, h2]

theorem WriteRegister_config_rounded :
    WriteRegister simChip
        [Txn.select 0x40, Txn.write [0x00, 0xff, 0xff], Txn.write [0x00], Txn.read 2,
          Txn.write [0x05], Txn.read 2]
        REG_CONFIG (Calibrate.config 24 (f32 (f32 0.251 * f32 0.33)) 0b1111 0b1111).toUInt16 true
      = (.ok (), [Txn.select 0x40, Txn.write [0x00, 0xff, 0xff], Txn.write [0x00], Txn.read 2,
          Txn.write [0x05], Txn.read 2, Txn.write [0x00, 0x37, 0xff], Txn.read 2]) := by
  rw [config_rounded]
  rfl

theorem WriteRegister_calibration_rounded :
    WriteRegister simChip
        [Txn.select 0x40, Txn.write [0x00, 0xff, 0xff], Txn.write [0x00], Txn.read 2,
          Txn.write [0x05], Txn.read 2, Txn.write [0x00, 0x37, 0xff], Txn.read 2]
        REG_CALIBRATION (Calibrate.cal_reg (f32 (f32 0.251 / 32768)) (f32 0.33)) true
      = (.ok (), [Txn.select 0x40, Txn.write [0x00, 0xff, 0xff], Txn.write [0x00], Txn.read 2,
          Txn.write [0x05], Txn.read 2, Txn.write [0x00, 0x37, 0xff], Txn.read 2,
            Txn.write [0x05, 0x3f, 0x4c], Txn.read 2]) := by
  rw [cal_reg_rounded]
  rfl

theorem Calibrate_simChip_rounded :
    Calibrate simChip dev0 [] 24 (f32 0.251) (f32 0.33) 128 128
      = (.ok (), { dev0 with current_lsb := 4211081 / 549755813888 },
          [Txn.select 0x40, Txn.write [0x00, 0xff, 0xff], Txn.write [0x00], Txn.read 2,
          Txn.write [0x05], Txn.read 2, Txn.write [0x00, 0x37, 0xff], Txn.read 2,
            Txn.write [0x05, 0x3f, 0x4c], Txn.read 2]) := by
  rw [Calibrate_calibration_result (by norm_num) shunt_check_rounded Reset_simChip
    SampleToResAvg_128 SampleToResAvg_128 WriteRegister_config_rounded
    WriteRegister_calibration_rounded, current_lsb_rounded]

theorem cal_reg_limit :
    Calibrate.cal_reg (f32 (f32 0.96 / 32768)) (f32 0.33333334) = 4194 := by
  have hf : ⌊(8589935 / 2048 : ℚ)⌋ = 4194 := by
    rw [Int.floor_eq_iff]
    norm_num
  have h : float_to_uint16 (8589935 / 2048) = 4194 := by
    unfold float_to_uint16
    rw [if_pos (by norm_num), hf]
    rfl
  rw [Calibrate_cal_reg_eq, quotient_limit, h]

theorem config_limit :
    (Calibrate.config 24 (f32 (f32 0.96 * f32 0.33333334)) 0b1111 0b1111).toUInt16 = 0x3fff := by
  have h1 : Calibrate.pg (f32 (f32 0.96 * f32 0.33333334)) = 0b11 := by
    rw [shunt_voltage_limit]
    unfold Calibrate.pg
    norm_num
  have h2 : Calibrate.brng 24 = 1 := by
    unfold Calibrate.brng
    norm_num
  simp only [Calibrate.config, config_t.toUInt16, h1, h2]

theorem WriteRegister_config_limit :
    WriteRegister simChip
        [Txn.select 0x40, Txn.write [0x00, 0xff, 0xff], Txn.write [0x00], Txn.read 2,
          Txn.write [0x05], Txn.read 2]
        REG_CONFIG (Calibrate.config 24 (f32 (f32 0.96 * f32 0.33333334)) 0b1111 0b1111).toUInt16 true
      = (.ok (), [Txn.select 0x40, Txn.write [0x00, 0xff, 0xff], Txn.write [0x00], Txn.read 2,
          Txn.write [0x05], Txn.read 2, Txn.write [0x00, 0x3f, 0xff], Txn.read 2]) := by
  rw [config_limit]
  rfl

theorem WriteRegister_calibration_limit :
    WriteRegister simChip
        [Txn.select 0x40, Txn.write [0x00, 0xff, 0xff], Txn.write [0x00], Txn.read 2,
          Txn.write [0x05], Txn.read 2, Txn.write [0x00, 0x3f, 0xff], Txn.read 2]
        REG_CALIBRATION (Calibrate.cal_reg (f32 (f32 0.96 / 32768)) (f32 0.33333334)) true
      = (.ok (), [Txn.select 0x40, Txn.write [0x00, 0xff, 0xff], Txn.write [0x00], Txn.read 2,
          Txn.write [0x05], Txn.read 2, Txn.write [0x00, 0x3f, 0xff], Txn.read 2,
            Txn.write [0x05, 0x10, 0x62], Txn.read 2]) := by
  rw [cal_reg_limit]
  rfl

theorem Calibrate_simChip_limit :
    Calibrate simChip dev0 [] 24 (f32 0.96) (f32 0.33333334) 128 128
      = (.ok (), { dev0 with current_lsb := 16106127 / 549755813888 },
          [Txn.select 0x40, Txn.write [0x00, 0xff, 0xff], Txn.write [0x00], Txn.read 2,
          Txn.write [0x05], Txn.read 2, Txn.write [0x00, 0x3f, 0xff], Txn.read 2,
            Txn.write [0x05, 0x10, 0x62], Txn.read 2]) := by
  rw [Calibrate_calibration_result (by norm_num) shunt_check_limit Reset_simChip
    SampleToResAvg_128 SampleToResAvg_128 WriteRegister_config_limit
    WriteRegister_calibration_limit, current_lsb_limit]

theorem cal_reg_full_scale :
    Calibrate.cal_reg (f32 (f32 0.99 / 32768)) (f32 0.020686869) = 0 := by
  have hf : ⌊(65536 : ℚ)⌋ = 65536 := by
    rw [Int.floor_eq_iff]
    norm_num
  have h : float_to_uint16 (65536) = 0 := by
    unfold float_to_uint16
    rw [if_pos (by norm_num), hf]
    rfl
  rw [Calibrate_cal_reg_eq, quotient_full_scale, h]

theorem config_full_scale :
    (Calibrate.config 24 (f32 (f32 0.99 * f32 0.020686869)) 0b1111 0b1111).toUInt16 = 0x27ff := by
  have h1 : Calibrate.pg (f32 (f32 0.99 * f32 0.020686869)) = 0b00 := by
    rw [shunt_voltage_full_scale]
    unfold Calibrate.pg
    norm_num
  have h2 : Calibrate.brng 24 = 1 := by
    unfold Calibrate.brng
    norm_num
  simp only [Calibrate.config, config_t.toUInt16, h1, h2]

theorem WriteRegister_config_full_scale :
    WriteRegister simChip
        [Txn.select 0x40, Txn.write [0x00, 0xff, 0xff], Txn.write [0x00], Txn.read 2,
          Txn.write [0x05], Txn.read 2]
        REG_CONFIG (Calibrate.config 24 (f32 (f32 0.99 * f32 0.020686869)) 0b1111 0b1111).toUInt16 true
      = (.ok (), [Txn.select 0x40, Txn.write [0x00, 0xff, 0xff], Txn.write [0x00], Txn.read 2,
          Txn.write [0x05], Txn.read 2, Txn.write [0x00, 0x27, 0xff], Txn.read 2]) := by
  rw [config_full_scale]
  rfl

theorem WriteRegister_calibration_full_scale :
    WriteRegister simChip
        [Txn.select 0x40, Txn.write [0x00, 0xff, 0xff], Txn.write [0x00], Txn.read 2,
          Txn.write [0x05], Txn.read 2, Txn.write [0x00, 0x27, 0xff], Txn.read 2]
        REG_CALIBRATION (Calibrate.cal_reg (f32 (f32 0.99 / 32768)) (f32 0.020686869)) true
      = (.ok (), [Txn.select 0x40, Txn.write [0x00, 0xff, 0xff], Txn.write [0x00], Txn.read 2,
          Txn.write [0x05], Txn.read 2, Txn.write [0x00, 0x27, 0xff], Txn.read 2,
            Txn.write [0x05, 0x00, 0x00], Txn.read 2]) := by
  rw [cal_reg_full_scale]
  rfl

theorem Calibrate_simChip_full_scale :
    Calibrate simChip dev0 [] 24 (f32 0.99) (f32 0.020686869) 128 128
      = (.ok (), { dev0 with current_lsb := 4152361 / 137438953472 },
          [Txn.select 0x40, Txn.write [0x00, 0xff, 0xff], Txn.write [0x00], Txn.read 2,
          Txn.write [0x05], Txn.read 2, Txn.write [0x00, 0x27, 0xff], Txn.read 2,
            Txn.write [0x05, 0x00, 0x00], Txn.read 2]) := by
  rw [Calibrate_calibration_result (by norm_num) shunt_check_full_scale Reset_simChip
    SampleToResAvg_128 SampleToResAvg_128 WriteRegister_config_full_scale
    WriteRegister_calibration_full_scale, current_lsb_full_scale]

/-- C3, as stated, fails: `max_current_amps = 0.96f` and `r_shunt_ohm = 0.33333334f` have
the exact product 0.3200000024 `> 0.32`, but their binary32 product is `0.32f`, which
passes the check; `Calibrate(24, 0.96f, 0.33333334f, 128, 128)` does not throw and
configures the chip. -/
theorem Calibrate_accepts_product_above_limit :
    f32 0.96 * f32 0.33333334 > 0.32 ∧
    f32 (f32 0.96 * f32 0.33333334) = f32 0.32 ∧
    Calibrate simChip dev0 [] 24 (f32 0.96) (f32 0.33333334) 128 128
      = (.ok (), { dev0 with current_lsb := 16106127 / 549755813888 },
          [Txn.select 0x40, Txn.write [0x00, 0xff, 0xff], Txn.write [0x00], Txn.read 2,
            Txn.write [0x05], Txn.read 2, Txn.write [0x00, 0x3f, 0xff], Txn.read 2,
            Txn.write [0x05, 0x10, 0x62], Txn.read 2]) := by
  refine ⟨?_, ?_, Calibrate_simChip_limit⟩
  · rw [f32_0_96, f32_0_33333334]
    norm_num
  · rw [shunt_voltage_limit, f32_0_32]

/-- Instance of `Calibrate_brng_bit` on the simulated chip with `max_voltage = 16.0001f`;
its last component says that the `brng` bit is then 1. -/
theorem Calibrate_brng_bit_witness :
    (f32 16.0001 ≤ 32 ∧ f32 (1.5 * f32 0.1) ≤ f32 0.32 ∧
      Reset simChip dev0 []
        = (.ok (), [Txn.select 0x40, Txn.write [0x00, 0xff, 0xff], Txn.write [0x00], Txn.read 2,
            Txn.write [0x05], Txn.read 2]) ∧
      SampleToResAvg 128 = .ok 0b1111) ∧
    ∃ config : Nat,
      config = (Calibrate.config (f32 16.0001) (f32 (1.5 * f32 0.1)) 0b1111 0b1111).toUInt16 ∧
      config < 65536 ∧
      ([Txn.select 0x40, Txn.write [0x00, 0xff, 0xff], Txn.write [0x00], Txn.read 2,
          Txn.write [0x05], Txn.read 2] ++ [Txn.write [0x00, config / 256, config % 256]])
        <+: (Calibrate simChip dev0 [] (f32 16.0001) 1.5 (f32 0.1) 128 128).2.2 ∧
      (config / 8192 % 2 = 1 ↔ f32 16.0001 > 16) :=
  ⟨⟨by rw [f32_16_0001]; norm_num, shunt_check_example, Reset_simChip, SampleToResAvg_128⟩,
    Calibrate_brng_bit simChip dev0 [] _ (f32 16.0001) 1.5 (f32 0.1) 128 128 0b1111 0b1111
      (by rw [f32_16_0001]; norm_num) shunt_check_example Reset_simChip SampleToResAvg_128
      SampleToResAvg_128⟩

/-- Instance of `Calibrate_cal_reg_even` on the simulated chip with a 1 A range over a
0.01f ohm shunt, where the quotient 134217.73 does not fit into 16 bits. -/
theorem Calibrate_cal_reg_even_witness :
    ((24 : ℚ) ≤ 32 ∧ f32 (1 * f32 0.01) ≤ f32 0.32 ∧
      Reset simChip dev0 []
        = (.ok (), [Txn.select 0x40, Txn.write [0x00, 0xff, 0xff], Txn.write [0x00], Txn.read 2,
            Txn.write [0x05], Txn.read 2]) ∧
      SampleToResAvg 128 = .ok 0b1111 ∧
      WriteRegister simChip
          [Txn.select 0x40, Txn.write [0x00, 0xff, 0xff], Txn.write [0x00], Txn.read 2,
            Txn.write [0x05], Txn.read 2]
          REG_CONFIG (Calibrate.config 24 (f32 (1 * f32 0.01)) 0b1111 0b1111).toUInt16 true
        = (.ok (), [Txn.select 0x40, Txn.write [0x00, 0xff, 0xff], Txn.write [0x00],
            Txn.read 2, Txn.write [0x05], Txn.read 2, Txn.write [0x00, 0x27, 0xff],
            Txn.read 2])) ∧
    ∃ cal_reg : Nat,
      cal_reg = Calibrate.cal_reg (f32 (1 / 32768)) (f32 0.01) ∧
      cal_reg < 65536 ∧
      ([Txn.select 0x40, Txn.write [0x00, 0xff, 0xff], Txn.write [0x00], Txn.read 2,
          Txn.write [0x05], Txn.read 2, Txn.write [0x00, 0x27, 0xff], Txn.read 2]
        ++ [Txn.write [0x05, cal_reg / 256, cal_reg % 256]])
        <+: (Calibrate simChip dev0 [] 24 1 (f32 0.01) 128 128).2.2 ∧
      cal_reg &&& 1 = 0 :=
  ⟨⟨by norm_num, shunt_check_low_shunt, Reset_simChip, SampleToResAvg_128,
      WriteRegister_config_low_shunt⟩,
    Calibrate_cal_reg_even simChip dev0 [] _ _ 24 1 (f32 0.01) 128 128 0b1111 0b1111
      (by norm_num) shunt_check_low_shunt Reset_simChip SampleToResAvg_128 SampleToResAvg_128
      WriteRegister_config_low_shunt⟩

/-- C6, as stated, fails. For `max_current_amps = 0.251f`, `r_shunt_ohm = 0.33f` (both
positive, product <= 0.32) the exact quotient `0.04096 / (current_lsb * r_shunt_ohm)` has
floor 16203, which is 16202 with its bit 0 cleared, but the binary32 quotient is 16204.0
and the value written to the calibration register is `0x3f4c` = 16204. For
`max_current_amps = 1`, `r_shunt_ohm = 0.01f` the quotient has floor 134217, which is no
16-bit value, and `0x0c48` = 3144 is written. -/
theorem Calibrate_quotient_off_floor :
    ((0 < f32 0.251 ∧ 0 < f32 0.33 ∧ f32 0.251 * f32 0.33 ≤ 0.32) ∧
      ⌊(0.04096 : ℚ) / (f32 0.251 / 32768 * f32 0.33)⌋ = 16203 ∧
      Calibrate.quotient (f32 (f32 0.251 / 32768)) (f32 0.33) = 16204 ∧
      Calibrate simChip dev0 [] 24 (f32 0.251) (f32 0.33) 128 128
        = (.ok (), { dev0 with current_lsb := 4211081 / 549755813888 },
            [Txn.select 0x40, Txn.write [0x00, 0xff, 0xff], Txn.write [0x00], Txn.read 2,
              Txn.write [0x05], Txn.read 2, Txn.write [0x00, 0x37, 0xff], Txn.read 2,
              Txn.write [0x05, 0x3f, 0x4c], Txn.read 2]) ∧
      0x3f * 256 + 0x4c ≠ 16203 - 16203 % 2) ∧
    ((0 < (1 : ℚ) ∧ 0 < f32 0.01 ∧ 1 * f32 0.01 ≤ 0.32) ∧
      ⌊(0.04096 : ℚ) / (1 / 32768 * f32 0.01)⌋ = 134217 ∧
      Calibrate simChip dev0 [] 24 1 (f32 0.01) 128 128
        = (.ok (), { dev0 with current_lsb := 1 / 32768 },
            [Txn.select 0x40, Txn.write [0x00, 0xff, 0xff], Txn.write [0x00], Txn.read 2,
              Txn.write [0x05], Txn.read 2, Txn.write [0x00, 0x27, 0xff], Txn.read 2,
              Txn.write [0x05, 0x0c, 0x48], Txn.read 2]) ∧
      0x0c * 256 + 0x48 ≠ 134217 - 134217 % 2) := by
  refine ⟨⟨⟨?_, ?_, ?_⟩, ?_, quotient_rounded, Calibrate_simChip_rounded, by decide⟩,
    ⟨⟨by norm_num, ?_, ?_⟩, ?_, Calibrate_simChip_low_shunt, by decide⟩⟩
  · rw [f32_0_251]
    norm_num
  · rw [f32_0_33]
    norm_num
  · rw [f32_0_251, f32_0_33]
    norm_num
  · rw [f32_0_251, f32_0_33, Int.floor_eq_iff]
    norm_num
  · rw [f32_0_01]
    norm_num
  · rw [f32_0_01]
    norm_num
  · rw [f32_0_01, Int.floor_eq_iff]
    norm_num

/-- C6 (amended): with `current_lsb` standing for `max_current_amps / 32768` rounded to
binary32, for a binary32 product `max_current_amps * r_shunt_ohm <= 0.32f` and
`current_lsb * r_shunt_ohm` above `21990233 / 2^45` (6.25e-7), a `Calibrate` that gets as
far as the calibration register stores `current_lsb` and writes to register 0x05 the value
`q` with its bit 0 cleared, where `q` is the floor of the binary32 quotient
`0.04096f / (current_lsb * r_shunt_ohm)`, product and quotient each rounded to binary32,
and `q` is below `2^16`. -/
theorem Calibrate_calibration_value (t : Transport) (self : TINA219) (log log1 log2 : List Txn)
    (max_voltage max_current_amps r_shunt_ohm : ℚ) (n_sample_voltage n_sample_current : Nat)
    (sadc badc : Nat) (h1 : max_voltage ≤ 32)
    (h2 : f32 (max_current_amps * r_shunt_ohm) ≤ f32 0.32)
    (hfit : 21990233 / 35184372088832 < f32 (max_current_amps / 32768) * r_shunt_ohm)
    (hreset : Reset t self log = (.ok (), log1))
    (hsadc : SampleToResAvg n_sample_current = .ok sadc)
    (hbadc : SampleToResAvg n_sample_voltage = .ok badc)
    (hconfig : WriteRegister t log1 REG_CONFIG (Calibrate.config max_voltage
      (f32 (max_current_amps * r_shunt_ohm)) sadc badc).toUInt16 true = (.ok (), log2)) :
    (Calibrate t self log max_voltage max_current_amps r_shunt_ohm n_sample_voltage
        n_sample_current).2.1.current_lsb = f32 (max_current_amps / 32768) ∧
    ∃ q : Nat,
      (q : ℤ) = ⌊Calibrate.quotient (f32 (max_current_amps / 32768)) r_shunt_ohm⌋ ∧
      q < 65536 ∧
      (log2 ++ [Txn.write [0x05, (q - q % 2) / 256, (q - q % 2) % 256]])
        <+: (Calibrate t self log max_voltage max_current_amps r_shunt_ohm n_sample_voltage
          n_sample_current).2.2 := by
  obtain ⟨hself, hlog⟩ := Calibrate_calibration_write (t := t) h1 h2 hreset hsadc hbadc hconfig
  refine ⟨by rw [hself], ?_⟩
  have hpos : 0 < f32 (max_current_amps / 32768) * r_shunt_ohm := lt_trans (by norm_num) hfit
  have hx0 : 0 ≤ Calibrate.quotient (f32 (max_current_amps / 32768)) r_shunt_ohm :=
    Calibrate_quotient_nonneg hpos.le
  have hx1 : Calibrate.quotient (f32 (max_current_amps / 32768)) r_shunt_ohm < 65536 :=
    (f32_div_lt_iff hpos).2 hfit
  have hf0 : 0 ≤ ⌊Calibrate.quotient (f32 (max_current_amps / 32768)) r_shunt_ohm⌋ :=
    Int.floor_nonneg.2 hx0
  have hf1 : ⌊Calibrate.quotient (f32 (max_current_amps / 32768)) r_shunt_ohm⌋ < 65536 :=
    Int.floor_lt.2 (by exact_mod_cast hx1)
  refine ⟨⌊Calibrate.quotient (f32 (max_current_amps / 32768)) r_shunt_ohm⌋.toNat,
    Int.toNat_of_nonneg hf0, by omega, ?_⟩
  have hq := float_to_uint16_of_fits (Int.toNat_of_nonneg hf0) hx0 (by omega)
  rw [htobe16_of_lt (Calibrate_cal_reg_lt _ _), Calibrate_cal_reg_eq, hq] at hlog
  exact hlog

/-- Instance of `Calibrate_calibration_value` on the simulated chip with the arguments of
the example program, `(24, 1.5, 0.1f, 128, 128)`, where the binary32 quotient is
`2290649 / 256` = 8947.85 with floor 8947. -/
theorem Calibrate_calibration_value_witness :
    ((24 : ℚ) ≤ 32 ∧ f32 (1.5 * f32 0.1) ≤ f32 0.32 ∧
      21990233 / 35184372088832 < f32 (1.5 / 32768) * f32 0.1 ∧
      Reset simChip dev0 []
        = (.ok (), [Txn.select 0x40, Txn.write [0x00, 0xff, 0xff], Txn.write [0x00], Txn.read 2,
            Txn.write [0x05], Txn.read 2]) ∧
      SampleToResAvg 128 = .ok 0b1111 ∧
      WriteRegister simChip
          [Txn.select 0x40, Txn.write [0x00, 0xff, 0xff], Txn.write [0x00], Txn.read 2,
            Txn.write [0x05], Txn.read 2]
          REG_CONFIG (Calibrate.config 24 (f32 (1.5 * f32 0.1)) 0b1111 0b1111).toUInt16 true
        = (.ok (), [Txn.select 0x40, Txn.write [0x00, 0xff, 0xff], Txn.write [0x00],
            Txn.read 2, Txn.write [0x05], Txn.read 2, Txn.write [0x00, 0x37, 0xff],
            Txn.read 2])) ∧
    Calibrate.quotient (f32 (1.5 / 32768)) (f32 0.1) = 2290649 / 256 ∧
    (Calibrate simChip dev0 [] 24 1.5 (f32 0.1) 128 128).2.1.current_lsb = f32 (1.5 / 32768) ∧
    ∃ q : Nat,
      (q : ℤ) = ⌊Calibrate.quotient (f32 (1.5 / 32768)) (f32 0.1)⌋ ∧
      q < 65536 ∧
      ([Txn.select 0x40, Txn.write [0x00, 0xff, 0xff], Txn.write [0x00], Txn.read 2,
          Txn.write [0x05], Txn.read 2, Txn.write [0x00, 0x37, 0xff], Txn.read 2]
        ++ [Txn.write [0x05, (q - q % 2) / 256, (q - q % 2) % 256]])
        <+: (Calibrate simChip dev0 [] 24 1.5 (f32 0.1) 128 128).2.2 :=
  ⟨⟨by norm_num, shunt_check_example,
      by rw [current_lsb_example, f32_0_1]; norm_num, Reset_simChip,
      SampleToResAvg_128, WriteRegister_config_example⟩,
    quotient_example,
    Calibrate_calibration_value simChip dev0 [] _ _ 24 1.5 (f32 0.1) 128 128 0b1111 0b1111
      (by norm_num) shunt_check_example
      (by rw [current_lsb_example, f32_0_1]; norm_num) Reset_simChip
      SampleToResAvg_128 SampleToResAvg_128 WriteRegister_config_example⟩

/-! ## ReadRegister -/

/-- C11: `ReadRegister a` writes the single byte `[a]` and, if that write returned 1, reads
two bytes `b0`, `b1` and returns `b0 * 256 + b1`; it throws if and only if the write returns
something other than 1 or the read something other than 2, and after a failed write no read
is made. -/
theorem ReadRegister_outcome (t : Transport) (log : List Txn) (a : Nat) :
    (ReadRegister t log a).2
      = log ++ Txn.write [a] :: (if t.write log [a] = 1 then [Txn.read 2] else []) ∧
    (∀ b0 b1, b0 < 256 → b1 < 256 → t.write log [a] = 1 →
      t.read (log ++ [Txn.write [a]]) 2 = (2, [b0, b1]) →
      (ReadRegister t log a).1 = .ok (b0 * 256 + b1)) ∧
    ((∃ e, (ReadRegister t log a).1 = .error e) ↔
      (t.write log [a] ≠ 1 ∨ (t.read (log ++ [Txn.write [a]]) 2).1 ≠ 2)) ∧
    (t.write log [a] ≠ 1 →
      ReadRegister t log a
        = (.error "failed to set the register pointer for a register read operation",
            log ++ [Txn.write [a]])) := by
  by_cases hw : t.write log [a] = 1
  · by_cases hr : (t.read (log ++ [Txn.write [a]]) 2).1 = 2
    · rw [ReadRegister_complete hw hr]
      refine ⟨by simp [hw], ?_, ?_, fun h => absurd hw h⟩
      · intro b0 b1 h0 h1 _ hd
        simp [Transport.read16, hd, buf16_pair h0 h1, be16toh]
      · constructor
        · rintro ⟨e, he⟩; cases he
        · rintro (h | h)
          · exact absurd hw h
          · exact absurd hr h
    · rw [ReadRegister_short_read hw hr]
      refine ⟨by simp [hw], ?_, ?_, fun h => absurd hw h⟩
      · intro b0 b1 _ _ _ hd
        rw [hd] at hr
        exact absurd rfl hr
      · exact ⟨fun _ => Or.inr hr, fun _ => ⟨_, rfl⟩⟩
  · rw [ReadRegister_short_write hw]
    refine ⟨by simp [hw], ?_, ?_, fun _ => rfl⟩
    · intro b0 b1 _ _ h
      exact absurd h hw
    · exact ⟨fun _ => Or.inl hw, fun _ => ⟨_, rfl⟩⟩

/-- Instance of `ReadRegister_outcome`: the simulated chip gives `0x399f` for register 0,
and on the bus that transfers nothing the pointer write is the only transaction. -/
theorem ReadRegister_outcome_witness :
    ((0x39 < 256 ∧ 0x9f < 256 ∧ simChip.write [] [0x00] = 1 ∧
        simChip.read ([] ++ [Txn.write [0x00]]) 2 = (2, [0x39, 0x9f])) ∧
      (ReadRegister simChip [] 0x00).1 = .ok (0x39 * 256 + 0x9f)) ∧
    (deadBus.write [] [0x00] ≠ 1 ∧
      ReadRegister deadBus [] 0x00
        = (.error "failed to set the register pointer for a register read operation",
            [] ++ [Txn.write [0x00]])) :=
  ⟨⟨by decide,
      (ReadRegister_outcome simChip [] 0x00).2.1 0x39 0x9f (by decide) (by decide) (by decide)
        (by decide)⟩,
    ⟨by decide, (ReadRegister_outcome deadBus [] 0x00).2.2.2 (by decide)⟩⟩

/-! ## Refresh -/

/-- Every path through `Refresh`, by what the bus returns. -/
theorem Refresh_paths (t : Transport) (self : TINA219) (log : List Txn) :
    Refresh t self log
      = if t.ioctl log self.address = -1 then
          (.error "ioctl(this->fd_i2cbus, I2C_SLAVE, this->address)", self,
            log ++ [Txn.select self.address])
        else if t.write (log ++ [Txn.select self.address]) [0x02] ≠ 1 then
          (.error "failed to set the register pointer for a register read operation", self,
            log ++ [Txn.select self.address, Txn.write [0x02]])
        else if (t.read (log ++ [Txn.select self.address, Txn.write [0x02]]) 2).1 ≠ 2 then
          (.error "failed to read register value", self,
            log ++ [Txn.select self.address, Txn.write [0x02], Txn.read 2])
        else if t.write (log ++ [Txn.select self.address, Txn.write [0x02], Txn.read 2])
            [0x04] ≠ 1 then
          (.error "failed to set the register pointer for a register read operation", self,
            log ++ [Txn.select self.address, Txn.write [0x02], Txn.read 2, Txn.write [0x04]])
        else if (t.read (log ++ [Txn.select self.address, Txn.write [0x02], Txn.read 2,
            Txn.write [0x04]]) 2).1 ≠ 2 then
          (.error "failed to read register value", self,
            log ++ [Txn.select self.address, Txn.write [0x02], Txn.read 2, Txn.write [0x04],
              Txn.read 2])
        else
          (.ok (),
            { self with
              voltage := ((t.read16 (log ++ [Txn.select self.address, Txn.write [0x02]]) / 8
                : Nat) : ℚ) * 0.004,
              current := self.current_lsb * (to_int16 (t.read16 (log ++ [Txn.select
                self.address, Txn.write [0x02], Txn.read 2, Txn.write [0x04]])) : ℤ) },
            log ++ [Txn.select self.address, Txn.write [0x02], Txn.read 2, Txn.write [0x04],
              Txn.read 2]) := by
  have e1 : log ++ [Txn.select self.address, Txn.write [0x02]]
      = log ++ [Txn.select self.address] ++ [Txn.write [0x02]] := by simp
  have e2 : log ++ [Txn.select self.address, Txn.write [0x02], Txn.read 2]
      = log ++ [Txn.select self.address] ++ [Txn.write [0x02]] ++ [Txn.read 2] := by simp
  have e3 : log ++ [Txn.select self.address, Txn.write [0x02], Txn.read 2, Txn.write [0x04]]
      = log ++ [Txn.select self.address] ++ [Txn.write [0x02]] ++ [Txn.read 2]
        ++ [Txn.write [0x04]] := by simp
  have e4 : log ++ [Txn.select self.address, Txn.write [0x02], Txn.read 2, Txn.write [0x04],
        Txn.read 2]
      = log ++ [Txn.select self.address] ++ [Txn.write [0x02]] ++ [Txn.read 2]
        ++ [Txn.write [0x04]] ++ [Txn.read 2] := by simp
  rw [e1, e2, e3, e4]
  unfold Refresh
  simp only [REG_BUSVOLTAGE, REG_CURRENT]
  by_cases hio : t.ioctl log self.address = -1
  · rw [if_pos hio, if_pos hio]
  · rw [if_neg hio, if_neg hio]
    by_cases hw1 : t.write (log ++ [Txn.select self.address]) [0x02] = 1
    · rw [if_neg (not_not.2 hw1)]
      by_cases hr1 : (t.read (log ++ [Txn.select self.address] ++ [Txn.write [0x02]]) 2).1 = 2
      · rw [if_neg (not_not.2 hr1)]
        have k1 := @ReadRegister_complete t (log ++ [Txn.select self.address]) 0x02
          hw1 hr1
        by_cases hw2 : t.write (log ++ [Txn.select self.address] ++ [Txn.write [0x02]]
            ++ [Txn.read 2]) [0x04] = 1
        · rw [if_neg (not_not.2 hw2)]
          by_cases hr2 : (t.read (log ++ [Txn.select self.address] ++ [Txn.write [0x02]]
              ++ [Txn.read 2] ++ [Txn.write [0x04]]) 2).1 = 2
          · rw [if_neg (not_not.2 hr2)]
            have k2 := @ReadRegister_complete t (log ++ [Txn.select self.address]
              ++ [Txn.write [0x02]] ++ [Txn.read 2]) 0x04 hw2 hr2
            simp only [k1, k2]
          · rw [if_pos hr2]
            have k2 := @ReadRegister_short_read t (log ++ [Txn.select self.address]
              ++ [Txn.write [0x02]] ++ [Txn.read 2]) 0x04 hw2 hr2
            simp only [k1, k2]
        · rw [if_pos hw2]
          have k2 := @ReadRegister_short_write t (log ++ [Txn.select self.address]
              ++ [Txn.write [0x02]] ++ [Txn.read 2]) 0x04 hw2
          simp only [k1, k2]
      · rw [if_pos hr1]
        have k1 := @ReadRegister_short_read t (log ++ [Txn.select self.address]) 0x02
          hw1 hr1
        simp only [k1]
    · rw [if_pos hw1]
      have k1 := @ReadRegister_short_write t (log ++ [Txn.select self.address]) 0x02
        hw1
      simp only [k1]

theorem read16_lt (t : Transport) (log : List Txn) : t.read16 log < 65536 := by
  simp only [Transport.read16, buf16, be16toh, List.getD_cons_zero, List.getD_cons_succ]
  have h0 := Nat.mod_lt ((t.read log 2).2.getD 0 0) (by decide : 256 > 0)
  have h1 := Nat.mod_lt ((t.read log 2).2.getD 1 0) (by decide : 256 > 0)
  omega

theorem Refresh_ok {t : Transport} {self : TINA219} {log : List Txn}
    (hok : (Refresh t self log).1 = .ok ()) :
    Refresh t self log
      = (.ok (),
          { self with
            voltage := ((t.read16 (log ++ [Txn.select self.address, Txn.write [0x02]]) / 8
              : Nat) : ℚ) * 0.004,
            current := self.current_lsb * (to_int16 (t.read16 (log ++ [Txn.select
              self.address, Txn.write [0x02], Txn.read 2, Txn.write [0x04]])) : ℤ) },
          log ++ [Txn.select self.address, Txn.write [0x02], Txn.read 2, Txn.write [0x04],
            Txn.read 2]) := by
  rw [Refresh_paths] at hok ⊢
  split_ifs at hok ⊢
  rfl

/-- C12: after a successful `Refresh` that read the raw value `b` from the bus-voltage
register and the raw value `c` from the current register, the stored voltage is
`(b >> 3) * 0.004 = floor(b / 8) * 0.004` and the stored current is `current_lsb * s`, with
`s` the 16-bit value `c` read as a two's-complement number. -/
theorem Refresh_arithmetic (t : Transport) (self : TINA219) (log : List Txn) (b c : Nat)
    (hok : (Refresh t self log).1 = .ok ())
    (hb : t.read16 (log ++ [Txn.select self.address, Txn.write [0x02]]) = b)
    (hc : t.read16 (log ++ [Txn.select self.address, Txn.write [0x02], Txn.read 2,
      Txn.write [0x04]]) = c) :
    (Refresh t self log).2.1.voltage = ((b >>> 3 : Nat) : ℚ) * 0.004 ∧
    b >>> 3 = b / 8 ∧
    c < 65536 ∧
    (Refresh t self log).2.1.current
      = self.current_lsb * ((if c < 32768 then (c : ℤ) else (c : ℤ) - 65536 : ℤ) : ℚ) := by
  have hc' : c < 65536 := hc ▸ read16_lt t _
  have hs : b >>> 3 = b / 8 := Nat.shiftRight_eq_div_pow b 3
  rw [Refresh_ok hok]
  refine ⟨?_, hs, hc', ?_⟩
  · simp only [hb, hs]
  · simp only [hc, to_int16, Nat.mod_eq_of_lt hc']

theorem Refresh_measuringChip :
    Refresh measuringChip dev1 []
      = (.ok (), { dev1 with voltage := ((0x1a9f / 8 : Nat) : ℚ) * 0.004,
                             current := dev1.current_lsb * (to_int16 0xff88 : ℤ) },
          [Txn.select 0x40, Txn.write [0x02], Txn.read 2, Txn.write [0x04], Txn.read 2]) := by
  rw [Refresh_paths]
  rfl

/-- Instance of `Refresh_arithmetic`: with `current_lsb = 0.0001`, the raw values `0x1a9f`
and `0xff88` (-120) give 3.404 V and -0.012 A. -/
theorem Refresh_arithmetic_witness :
    ((Refresh measuringChip dev1 []).1 = .ok () ∧
      measuringChip.read16 ([] ++ [Txn.select dev1.address, Txn.write [0x02]]) = 0x1a9f ∧
      measuringChip.read16 ([] ++ [Txn.select dev1.address, Txn.write [0x02], Txn.read 2,
        Txn.write [0x04]]) = 0xff88) ∧
    (Refresh measuringChip dev1 []).2.1.voltage = 3.404 ∧
    (Refresh measuringChip dev1 []).2.1.current = -0.012 := by
  have hok : (Refresh measuringChip dev1 []).1 = .ok () := by rw [Refresh_measuringChip]
  obtain ⟨hv, -, -, hc⟩ := Refresh_arithmetic measuringChip dev1 [] 0x1a9f 0xff88 hok rfl rfl
  refine ⟨⟨hok, rfl, rfl⟩, ?_, ?_⟩
  · rw [hv, show (0x1a9f >>> 3 : Nat) = 851 from rfl]
    norm_num
  · rw [hc]
    norm_num [dev1]

/-- C13: `Refresh` throws exactly when the device selection fails or one of its four
transfers (pointer write and read for register 0x02, then for register 0x04) is short, and
whenever it throws the device object, so the stored voltage and current and `Power()`, is
what it was before the call. -/
theorem Refresh_failure_keeps_sample (t : Transport) (self : TINA219) (log : List Txn) :
    ((∃ e, (Refresh t self log).1 = .error e) ↔
      (t.ioctl log self.address = -1
        ∨ t.write (log ++ [Txn.select self.address]) [0x02] ≠ 1
        ∨ (t.read (log ++ [Txn.select self.address, Txn.write [0x02]]) 2).1 ≠ 2
        ∨ t.write (log ++ [Txn.select self.address, Txn.write [0x02], Txn.read 2]) [0x04] ≠ 1
        ∨ (t.read (log ++ [Txn.select self.address, Txn.write [0x02], Txn.read 2,
            Txn.write [0x04]]) 2).1 ≠ 2)) ∧
    ((∃ e, (Refresh t self log).1 = .error e) →
      (Refresh t self log).2.1 = self ∧
      (Refresh t self log).2.1.voltage = self.voltage ∧
      (Refresh t self log).2.1.current = self.current ∧
      (Refresh t self log).2.1.Power = self.Power) := by
  rw [Refresh_paths]
  split_ifs with h1 h2 h3 h4 h5
  · exact ⟨⟨fun _ => Or.inl h1, fun _ => ⟨_, rfl⟩⟩, fun _ => ⟨rfl, rfl, rfl, rfl⟩⟩
  · exact ⟨⟨fun _ => Or.inr (Or.inl h2), fun _ => ⟨_, rfl⟩⟩, fun _ => ⟨rfl, rfl, rfl, rfl⟩⟩
  · exact ⟨⟨fun _ => Or.inr (Or.inr (Or.inl h3)), fun _ => ⟨_, rfl⟩⟩,
      fun _ => ⟨rfl, rfl, rfl, rfl⟩⟩
  · exact ⟨⟨fun _ => Or.inr (Or.inr (Or.inr (Or.inl h4))), fun _ => ⟨_, rfl⟩⟩,
      fun _ => ⟨rfl, rfl, rfl, rfl⟩⟩
  · exact ⟨⟨fun _ => Or.inr (Or.inr (Or.inr (Or.inr h5))), fun _ => ⟨_, rfl⟩⟩,
      fun _ => ⟨rfl, rfl, rfl, rfl⟩⟩
  · refine ⟨⟨?_, ?_⟩, ?_⟩
    · rintro ⟨e, he⟩
      cases he
    · rintro (h | h | h | h | h)
      · exact absurd h h1
      · exact absurd h h2
      · exact absurd h h3
      · exact absurd h h4
      · exact absurd h h5
    · rintro ⟨e, he⟩
      cases he

theorem Refresh_currentReadShortBus :
    Refresh currentReadShortBus dev1 []
      = (.error "failed to read register value", dev1,
          [Txn.select 0x40, Txn.write [0x02], Txn.read 2, Txn.write [0x04], Txn.read 2]) := by
  rw [Refresh_paths]
  rfl

/-- Instance of `Refresh_failure_keeps_sample`: the read of the current register is short
after the bus-voltage register was read in full. -/
theorem Refresh_failure_keeps_sample_witness :
    (∃ e, (Refresh currentReadShortBus dev1 []).1 = .error e) ∧
    (Refresh currentReadShortBus dev1 []).2.1 = dev1 ∧
    (Refresh currentReadShortBus dev1 []).2.1.voltage = dev1.voltage ∧
    (Refresh currentReadShortBus dev1 []).2.1.current = dev1.current ∧
    (Refresh currentReadShortBus dev1 []).2.1.Power = dev1.Power :=
  ⟨⟨_, congrArg Prod.fst Refresh_currentReadShortBus⟩,
    (Refresh_failure_keeps_sample currentReadShortBus dev1 []).2
      ⟨_, congrArg Prod.fst Refresh_currentReadShortBus⟩⟩

/-- The log after `Refresh` is the log before it followed by an initial part of the five
calls of a complete run. -/
theorem Refresh_log (t : Transport) (self : TINA219) (log : List Txn) :
    ∃ k, (Refresh t self log).2.2
      = log ++ [Txn.select self.address, Txn.write [0x02], Txn.read 2, Txn.write [0x04],
          Txn.read 2].take k := by
  rw [Refresh_paths]
  split_ifs
  · exact ⟨1, rfl⟩
  · exact ⟨2, rfl⟩
  · exact ⟨3, rfl⟩
  · exact ⟨4, rfl⟩
  · exact ⟨5, rfl⟩
  · exact ⟨5, rfl⟩

theorem Refresh_written_frames {t : Transport} {self : TINA219} {log : List Txn}
    {bytes : List Nat} (hmem : Txn.write bytes ∈ (Refresh t self log).2.2.drop log.length) :
    bytes = [0x02] ∨ bytes = [0x04] := by
  obtain ⟨k, hk⟩ := Refresh_log t self log
  rw [hk, List.drop_left] at hmem
  have h := List.mem_of_mem_take hmem
  simp only [List.mem_cons, Txn.write.injEq, List.mem_singleton, reduceCtorEq, false_or,
    or_false, List.not_mem_nil] at h
  exact h

/-- C14: `Refresh` leaves `fd_i2cbus`, `address` and `current_lsb` as they were; the calls
it makes are an initial part of: device selection, write `[0x02]`, read 2, write `[0x04]`,
read 2 (all five when it succeeds), so every frame it writes is the one byte `[0x02]` or
`[0x04]` and never a three-byte register write. -/
theorem Refresh_frame (t : Transport) (self : TINA219) (log : List Txn) :
    (Refresh t self log).2.1.fd_i2cbus = self.fd_i2cbus ∧
    (Refresh t self log).2.1.address = self.address ∧
    (Refresh t self log).2.1.current_lsb = self.current_lsb ∧
    (∃ k, (Refresh t self log).2.2
      = log ++ [Txn.select self.address, Txn.write [0x02], Txn.read 2, Txn.write [0x04],
          Txn.read 2].take k) ∧
    (∀ bytes, Txn.write bytes ∈ (Refresh t self log).2.2.drop log.length →
      bytes = [0x02] ∨ bytes = [0x04]) ∧
    ((Refresh t self log).1 = .ok () →
      (Refresh t self log).2.2
        = log ++ [Txn.select self.address, Txn.write [0x02], Txn.read 2, Txn.write [0x04],
            Txn.read 2]) := by
  refine ⟨?_, ?_, ?_, Refresh_log t self log, ?_, ?_⟩
  · rw [Refresh_paths]; split_ifs <;> rfl
  · rw [Refresh_paths]; split_ifs <;> rfl
  · rw [Refresh_paths]; split_ifs <;> rfl
  · intro bytes hmem
    exact Refresh_written_frames hmem
  · intro hok
    rw [Refresh_ok hok]

/-- Instance of `Refresh_frame` on the measuring chip. -/
theorem Refresh_frame_witness :
    (Refresh measuringChip dev1 []).1 = .ok () ∧
    (Refresh measuringChip dev1 []).2.2
      = [] ++ [Txn.select dev1.address, Txn.write [0x02], Txn.read 2, Txn.write [0x04],
          Txn.read 2] :=
  ⟨congrArg Prod.fst Refresh_measuringChip,
    (Refresh_frame measuringChip dev1 []).2.2.2.2.2 (congrArg Prod.fst Refresh_measuringChip)⟩

/-! ## Construction -/

theorem Calibrate_error {t : Transport} {self : TINA219} {log : List Txn}
    {max_voltage max_current_amps r_shunt_ohm : ℚ} {n_sample_voltage n_sample_current : Nat}
    {e : String}
    (h : (Calibrate t self log max_voltage max_current_amps r_shunt_ohm n_sample_voltage
      n_sample_current).1 = .error e) :
    e ∈ ["max_voltage > 32",
      "shunt resistor has a too high ohm value for the desired target current (shunt voltage will exeed 320mV)",
      "ioctl(this->fd_i2cbus, I2C_SLAVE, this->address)", "failed to write to register",
      "failed to read register after write", "register write verify failed",
      "failed to set the register pointer for a register read operation",
      "failed to read register value", "chip reset failed",
      "n_sample must at least be 1", "n_sample must be <= 128"] := by
  by_cases h1 : max_voltage > 32
  · rw [Calibrate_max_voltage _ _ _ _ h1] at h
    simp_all
  · by_cases h2 : f32 (max_current_amps * r_shunt_ohm) > f32 0.32
    · rw [Calibrate_shunt_voltage _ _ (not_lt.1 h1) h2] at h
      simp_all
    · have := Calibrate_checked_error (not_lt.1 h1) (not_lt.1 h2) h
      simp only [List.mem_cons] at this ⊢
      tauto

theorem create_checked {t : Transport} {log : List Txn} {fd_i2cbus : Int} {address : Nat}
    (hfd : 0 ≤ fd_i2cbus) (haddr : address ≤ 127) :
    TINA219.create t log fd_i2cbus address
      = match Reset t ⟨fd_i2cbus, address, 0, 0, 0⟩ log with
        | (.error e, log1) => (.error e, log1)
        | (.ok _, log1) => (.ok ⟨fd_i2cbus, address, 0, 0, 0⟩, log1) := by
  simp only [TINA219.create, not_lt.2 hfd, gt_iff_lt, not_lt.2 haddr, if_false]

theorem createCalibrated_checked {t : Transport} {log : List Txn} {fd_i2cbus : Int}
    {address : Nat} (max_voltage max_current_amps r_shunt_ohm : ℚ)
    (n_sample_voltage n_sample_current : Nat) (hfd : 0 ≤ fd_i2cbus) (haddr : address ≤ 127) :
    TINA219.createCalibrated t log fd_i2cbus address max_voltage max_current_amps r_shunt_ohm
        n_sample_voltage n_sample_current
      = match Calibrate t ⟨fd_i2cbus, address, 0, 0, 0⟩ log max_voltage max_current_amps
            r_shunt_ohm n_sample_voltage n_sample_current with
        | (.error e, _, log1) => (.error e, log1)
        | (.ok _, self1, log1) => (.ok self1, log1) := by
  simp only [TINA219.createCalibrated, not_lt.2 hfd, gt_iff_lt, not_lt.2 haddr, if_false]

/-- C15: with `address > 127` both constructors throw before any call on the bus is made,
"address > 127" for a handle `>= 0` and "fd_i2cbus < 0" otherwise; with `address <= 127`
and a handle `>= 0` neither text is thrown and the constructors go on to `Reset` and to
`Calibrate`. -/
theorem constructors_check_address (t : Transport) (log : List Txn) (fd_i2cbus : Int)
    (address : Nat) (max_voltage max_current_amps r_shunt_ohm : ℚ)
    (n_sample_voltage n_sample_current : Nat) :
    (address > 127 →
      (TINA219.create t log fd_i2cbus address).2 = log ∧
      (TINA219.createCalibrated t log fd_i2cbus address max_voltage max_current_amps
        r_shunt_ohm n_sample_voltage n_sample_current).2 = log ∧
      (0 ≤ fd_i2cbus →
        (TINA219.create t log fd_i2cbus address).1 = .error "address > 127" ∧
        (TINA219.createCalibrated t log fd_i2cbus address max_voltage max_current_amps
          r_shunt_ohm n_sample_voltage n_sample_current).1 = .error "address > 127") ∧
      (fd_i2cbus < 0 →
        (TINA219.create t log fd_i2cbus address).1 = .error "fd_i2cbus < 0" ∧
        (TINA219.createCalibrated t log fd_i2cbus address max_voltage max_current_amps
          r_shunt_ohm n_sample_voltage n_sample_current).1 = .error "fd_i2cbus < 0")) ∧
    (address ≤ 127 ∧ 0 ≤ fd_i2cbus →
      (TINA219.create t log fd_i2cbus address).1 ≠ .error "address > 127" ∧
      (TINA219.create t log fd_i2cbus address).1 ≠ .error "fd_i2cbus < 0" ∧
      (TINA219.createCalibrated t log fd_i2cbus address max_voltage max_current_amps
        r_shunt_ohm n_sample_voltage n_sample_current).1 ≠ .error "address > 127" ∧
      (TINA219.createCalibrated t log fd_i2cbus address max_voltage max_current_amps
        r_shunt_ohm n_sample_voltage n_sample_current).1 ≠ .error "fd_i2cbus < 0" ∧
      (TINA219.create t log fd_i2cbus address).2
        = (Reset t ⟨fd_i2cbus, address, 0, 0, 0⟩ log).2 ∧
      (TINA219.createCalibrated t log fd_i2cbus address max_voltage max_current_amps
        r_shunt_ohm n_sample_voltage n_sample_current).2
        = (Calibrate t ⟨fd_i2cbus, address, 0, 0, 0⟩ log max_voltage max_current_amps
            r_shunt_ohm n_sample_voltage n_sample_current).2.2) := by
  constructor
  · intro haddr
    by_cases hfd : fd_i2cbus < 0
    · simp [TINA219.create, TINA219.createCalibrated, hfd, not_le.2 hfd]
    · simp [TINA219.create, TINA219.createCalibrated, hfd, not_lt.1 hfd, haddr]
  · rintro ⟨haddr, hfd⟩
    rw [create_checked hfd haddr, createCalibrated_checked _ _ _ _ _ hfd haddr]
    have hr : ∀ e, (Reset t ⟨fd_i2cbus, address, 0, 0, 0⟩ log).1 = .error e →
        e ≠ "address > 127" ∧ e ≠ "fd_i2cbus < 0" := by
      intro e he
      have := Reset_error he
      revert this
      simp only [List.mem_cons, List.mem_singleton, List.not_mem_nil, or_false]
      rintro (rfl | rfl | rfl | rfl | rfl | rfl | rfl) <;> decide
    have hc : ∀ e, (Calibrate t ⟨fd_i2cbus, address, 0, 0, 0⟩ log max_voltage
        max_current_amps r_shunt_ohm n_sample_voltage n_sample_current).1 = .error e →
        e ≠ "address > 127" ∧ e ≠ "fd_i2cbus < 0" := by
      intro e he
      have := Calibrate_error he
      revert this
      simp only [List.mem_cons, List.mem_singleton, List.not_mem_nil, or_false]
      rintro (rfl | rfl | rfl | rfl | rfl | rfl | rfl | rfl | rfl | rfl | rfl) <;> decide
    refine ⟨?_, ?_, ?_, ?_, ?_, ?_⟩
    · split
      · rename_i e log1 h
        intro h'
        exact (hr e (congrArg Prod.fst h)).1 (by cases h'; rfl)
      · intro h'; cases h'
    · split
      · rename_i e log1 h
        intro h'
        exact (hr e (congrArg Prod.fst h)).2 (by cases h'; rfl)
      · intro h'; cases h'
    · split
      · rename_i e s1 log1 h
        intro h'
        exact (hc e (congrArg Prod.fst h)).1 (by cases h'; rfl)
      · intro h'; cases h'
    · split
      · rename_i e s1 log1 h
        intro h'
        exact (hc e (congrArg Prod.fst h)).2 (by cases h'; rfl)
      · intro h'; cases h'
    · split <;> (rename_i h; rw [h])
    · split <;> (rename_i h; rw [h])

/-- Instance of `constructors_check_address`: address 200 is refused by both constructors
with nothing on the bus, address 0x40 is not refused. -/
theorem constructors_check_address_witness :
    ((200 > 127 ∧ (0 : ℤ) ≤ 3) ∧
      (TINA219.create simChip [] 3 200).2 = [] ∧
      (TINA219.createCalibrated simChip [] 3 200 24 1.5 0.1 128 128).2 = [] ∧
      (TINA219.create simChip [] 3 200).1 = .error "address > 127" ∧
      (TINA219.createCalibrated simChip [] 3 200 24 1.5 0.1 128 128).1
        = .error "address > 127") ∧
    ((0x40 ≤ 127 ∧ (0 : ℤ) ≤ 3) ∧
      (TINA219.create simChip [] 3 0x40).1 ≠ .error "address > 127" ∧
      (TINA219.createCalibrated simChip [] 3 0x40 24 1.5 0.1 128 128).1
        ≠ .error "address > 127") :=
  ⟨⟨⟨by decide, by decide⟩,
      ((constructors_check_address simChip [] 3 200 24 1.5 0.1 128 128).1 (by decide)).1,
      ((constructors_check_address simChip [] 3 200 24 1.5 0.1 128 128).1 (by decide)).2.1,
      (((constructors_check_address simChip [] 3 200 24 1.5 0.1 128 128).1
        (by decide)).2.2.1 (by decide)).1,
      (((constructors_check_address simChip [] 3 200 24 1.5 0.1 128 128).1
        (by decide)).2.2.1 (by decide)).2⟩,
    ⟨⟨by decide, by decide⟩,
      ((constructors_check_address simChip [] 3 0x40 24 1.5 0.1 128 128).2
        ⟨by decide, by decide⟩).1,
      ((constructors_check_address simChip [] 3 0x40 24 1.5 0.1 128 128).2
        ⟨by decide, by decide⟩).2.2.1⟩⟩

/-! ## The calls of Reset and Calibrate, in order -/

theorem WriteRegister_ok {t : Transport} {log : List Txn} {a v : Nat}
    (hok : (WriteRegister t log a v true).1 = .ok ()) :
    WriteRegister t log a v true
      = (.ok (), log ++ [Txn.write (a :: htobe16 v), Txn.read 2]) := by
  by_cases hw : t.write log (a :: htobe16 v) = 3
  · by_cases hr : (t.read (log ++ [Txn.write (a :: htobe16 v)]) 2).1 = 2
    · by_cases hd : buf16 (t.read (log ++ [Txn.write (a :: htobe16 v)]) 2).2 = htobe16 v
      · rw [WriteRegister_verified hw hr hd]
        simp
      · rw [WriteRegister_mismatch hw hr hd] at hok
        cases hok
    · rw [WriteRegister_short_read hw hr] at hok
      cases hok
  · rw [WriteRegister_short_write hw] at hok
    cases hok

theorem WriteRegister_log (t : Transport) (log : List Txn) (a v : Nat) (verify : Bool) :
    ∃ k, (k = 1 ∨ k = 2) ∧ (WriteRegister t log a v verify).2
      = log ++ [Txn.write (a :: htobe16 v), Txn.read 2].take k := by
  unfold WriteRegister
  dsimp only
  split_ifs
  · exact ⟨1, Or.inl rfl, rfl⟩
  · exact ⟨2, Or.inr rfl, by simp⟩
  · exact ⟨2, Or.inr rfl, by simp⟩
  · exact ⟨2, Or.inr rfl, by simp⟩
  · exact ⟨1, Or.inl rfl, rfl⟩

/-- Every path through `Reset`, by what the bus returns. -/
theorem Reset_paths (t : Transport) (self : TINA219) (log : List Txn) :
    Reset t self log
      = if t.ioctl log self.address = -1 then
          (.error "ioctl(this->fd_i2cbus, I2C_SLAVE, this->address)",
            log ++ [Txn.select self.address])
        else if t.write (log ++ [Txn.select self.address]) [0x00, 0xff, 0xff] ≠ 3 then
          (.error "failed to write to register",
            log ++ [Txn.select self.address, Txn.write [0x00, 0xff, 0xff]])
        else if t.write (log ++ [Txn.select self.address, Txn.write [0x00, 0xff, 0xff]])
            [0x00] ≠ 1 then
          (.error "failed to set the register pointer for a register read operation",
            log ++ [Txn.select self.address, Txn.write [0x00, 0xff, 0xff], Txn.write [0x00]])
        else if (t.read (log ++ [Txn.select self.address, Txn.write [0x00, 0xff, 0xff],
            Txn.write [0x00]]) 2).1 ≠ 2 then
          (.error "failed to read register value",
            log ++ [Txn.select self.address, Txn.write [0x00, 0xff, 0xff], Txn.write [0x00],
              Txn.read 2])
        else if t.write (log ++ [Txn.select self.address, Txn.write [0x00, 0xff, 0xff],
            Txn.write [0x00], Txn.read 2]) [0x05] ≠ 1 then
          (.error "failed to set the register pointer for a register read operation",
            log ++ [Txn.select self.address, Txn.write [0x00, 0xff, 0xff], Txn.write [0x00],
              Txn.read 2, Txn.write [0x05]])
        else if (t.read (log ++ [Txn.select self.address, Txn.write [0x00, 0xff, 0xff],
            Txn.write [0x00], Txn.read 2, Txn.write [0x05]]) 2).1 ≠ 2 then
          (.error "failed to read register value",
            log ++ [Txn.select self.address, Txn.write [0x00, 0xff, 0xff], Txn.write [0x00],
              Txn.read 2, Txn.write [0x05], Txn.read 2])
        else if t.read16 (log ++ [Txn.select self.address, Txn.write [0x00, 0xff, 0xff],
              Txn.write [0x00]]) ≠ 0x399f
            ∨ t.read16 (log ++ [Txn.select self.address, Txn.write [0x00, 0xff, 0xff],
              Txn.write [0x00], Txn.read 2, Txn.write [0x05]]) ≠ 0 then
          (.error "chip reset failed",
            log ++ [Txn.select self.address, Txn.write [0x00, 0xff, 0xff], Txn.write [0x00],
              Txn.read 2, Txn.write [0x05], Txn.read 2])
        else
          (.ok (),
            log ++ [Txn.select self.address, Txn.write [0x00, 0xff, 0xff], Txn.write [0x00],
              Txn.read 2, Txn.write [0x05], Txn.read 2]) := by
  have e1 : ∀ x : Txn, log ++ [Txn.select self.address, x]
      = log ++ [Txn.select self.address] ++ [x] := by simp
  have e2 : ∀ x y : Txn, log ++ [Txn.select self.address, x, y]
      = log ++ [Txn.select self.address] ++ [x] ++ [y] := by simp
  have e3 : ∀ x y z : Txn, log ++ [Txn.select self.address, x, y, z]
      = log ++ [Txn.select self.address] ++ [x] ++ [y] ++ [z] := by simp
  have e4 : ∀ x y z u : Txn, log ++ [Txn.select self.address, x, y, z, u]
      = log ++ [Txn.select self.address] ++ [x] ++ [y] ++ [z] ++ [u] := by simp
  have e5 : ∀ x y z u v : Txn, log ++ [Txn.select self.address, x, y, z, u, v]
      = log ++ [Txn.select self.address] ++ [x] ++ [y] ++ [z] ++ [u] ++ [v] := by simp
  simp only [e1, e2, e3, e4, e5]
  have hb : htobe16 0xffff = [0xff, 0xff] := rfl
  unfold Reset
  simp only [REG_CONFIG, REG_CALIBRATION]
  by_cases hio : t.ioctl log self.address = -1
  · rw [if_pos hio, if_pos hio]
  · rw [if_neg hio, if_neg hio]
    by_cases hw0 : t.write (log ++ [Txn.select self.address]) [0x00, 0xff, 0xff] = 3
    · rw [if_neg (not_not.2 hw0)]
      have k0 := @WriteRegister_unverified t (log ++ [Txn.select self.address]) 0x00 0xffff
        (by rw [hb]; exact hw0)
      rw [hb] at k0
      by_cases hw1 : t.write (log ++ [Txn.select self.address] ++ [Txn.write [0x00, 0xff, 0xff]])
          [0x00] = 1
      · rw [if_neg (not_not.2 hw1)]
        by_cases hr1 : (t.read (log ++ [Txn.select self.address]
            ++ [Txn.write [0x00, 0xff, 0xff]] ++ [Txn.write [0x00]]) 2).1 = 2
        · rw [if_neg (not_not.2 hr1)]
          have k1 := @ReadRegister_complete t (log ++ [Txn.select self.address]
            ++ [Txn.write [0x00, 0xff, 0xff]]) 0x00 hw1 hr1
          by_cases hw2 : t.write (log ++ [Txn.select self.address]
              ++ [Txn.write [0x00, 0xff, 0xff]] ++ [Txn.write [0x00]] ++ [Txn.read 2])
              [0x05] = 1
          · rw [if_neg (not_not.2 hw2)]
            by_cases hr2 : (t.read (log ++ [Txn.select self.address]
                ++ [Txn.write [0x00, 0xff, 0xff]] ++ [Txn.write [0x00]] ++ [Txn.read 2]
                ++ [Txn.write [0x05]]) 2).1 = 2
            · rw [if_neg (not_not.2 hr2)]
              have k2 := @ReadRegister_complete t (log ++ [Txn.select self.address]
                ++ [Txn.write [0x00, 0xff, 0xff]] ++ [Txn.write [0x00]] ++ [Txn.read 2])
                0x05 hw2 hr2
              simp only [k0, k1, k2]
            · rw [if_pos hr2]
              have k2 := @ReadRegister_short_read t (log ++ [Txn.select self.address]
                ++ [Txn.write [0x00, 0xff, 0xff]] ++ [Txn.write [0x00]] ++ [Txn.read 2])
                0x05 hw2 hr2
              simp only [k0, k1, k2]
          · rw [if_pos hw2]
            have k2 := @ReadRegister_short_write t (log ++ [Txn.select self.address]
              ++ [Txn.write [0x00, 0xff, 0xff]] ++ [Txn.write [0x00]] ++ [Txn.read 2])
              0x05 hw2
            simp only [k0, k1, k2]
        · rw [if_pos hr1]
          have k1 := @ReadRegister_short_read t (log ++ [Txn.select self.address]
            ++ [Txn.write [0x00, 0xff, 0xff]]) 0x00 hw1 hr1
          simp only [k0, k1]
      · rw [if_pos hw1]
        have k1 := @ReadRegister_short_write t (log ++ [Txn.select self.address]
          ++ [Txn.write [0x00, 0xff, 0xff]]) 0x00 hw1
        simp only [k0, k1]
    · rw [if_pos hw0]
      have k0 := @WriteRegister_short_write t (log ++ [Txn.select self.address]) 0x00 0xffff
        false (by rw [hb]; exact hw0)
      rw [hb] at k0
      simp only [k0]

theorem Reset_ok {t : Transport} {self : TINA219} {log : List Txn}
    (hok : (Reset t self log).1 = .ok ()) :
    Reset t self log
      = (.ok (), log ++ [Txn.select self.address, Txn.write [0x00, 0xff, 0xff],
          Txn.write [0x00], Txn.read 2, Txn.write [0x05], Txn.read 2]) := by
  rw [Reset_paths] at hok ⊢
  split_ifs at hok ⊢
  rfl

theorem Reset_log (t : Transport) (self : TINA219) (log : List Txn) :
    ∃ k, k ≤ 6 ∧ (Reset t self log).2
      = log ++ [Txn.select self.address, Txn.write [0x00, 0xff, 0xff], Txn.write [0x00],
          Txn.read 2, Txn.write [0x05], Txn.read 2].take k := by
  rw [Reset_paths]
  split_ifs
  · exact ⟨1, by decide, rfl⟩
  · exact ⟨2, by decide, rfl⟩
  · exact ⟨3, by decide, rfl⟩
  · exact ⟨4, by decide, rfl⟩
  · exact ⟨5, by decide, rfl⟩
  · exact ⟨6, by decide, rfl⟩
  · exact ⟨6, by decide, rfl⟩
  · exact ⟨6, by decide, rfl⟩

theorem Calibrate_config_lt (max_voltage max_shunt_voltage : ℚ) (sadc badc : Nat) :
    (Calibrate.config max_voltage max_shunt_voltage sadc badc).toUInt16 < 32768 := by
  simp only [Calibrate.config, config_t.toUInt16]
  omega

/-- The log after `Calibrate` is the log before it followed by an initial part of the ten
calls of a complete run: the six of `Reset`, the verified write of a configuration word
with bit 15 clear, and the verified write of `cal_reg`. -/
theorem Calibrate_log (t : Transport) (self : TINA219) (log : List Txn)
    (max_voltage max_current_amps r_shunt_ohm : ℚ) (n_sample_voltage n_sample_current : Nat) :
    ∃ k config, config < 32768 ∧
      (Calibrate t self log max_voltage max_current_amps r_shunt_ohm n_sample_voltage
        n_sample_current).2.2
        = log ++ [Txn.select self.address, Txn.write [0x00, 0xff, 0xff], Txn.write [0x00],
            Txn.read 2, Txn.write [0x05], Txn.read 2,
            Txn.write [0x00, config / 256, config % 256], Txn.read 2,
            Txn.write (0x05 :: htobe16 (Calibrate.cal_reg (f32 (max_current_amps / 32768))
              r_shunt_ohm)), Txn.read 2].take k := by
  by_cases h1 : max_voltage > 32
  · rw [Calibrate_max_voltage _ _ _ _ h1]
    exact ⟨0, 0, by decide, by simp⟩
  by_cases h2 : f32 (max_current_amps * r_shunt_ohm) > f32 0.32
  · rw [Calibrate_shunt_voltage _ _ (not_lt.1 h1) h2]
    exact ⟨0, 0, by decide, by simp⟩
  rw [Calibrate_checked _ _ (not_lt.1 h1) (not_lt.1 h2)]
  split
  · rename_i e log1 hr
    obtain ⟨k, hk, hlog⟩ := Reset_log t self log
    rw [hr] at hlog
    refine ⟨k, 0, by decide, ?_⟩
    dsimp only at hlog ⊢
    rw [hlog]
    congr 1
    exact (@List.take_append_of_le_length _
      [Txn.select self.address, Txn.write [0x00, 0xff, 0xff], Txn.write [0x00], Txn.read 2,
        Txn.write [0x05], Txn.read 2]
      [Txn.write [0x00, 0 / 256, 0 % 256], Txn.read 2,
        Txn.write (0x05 :: htobe16 (Calibrate.cal_reg (f32 (max_current_amps / 32768))
          r_shunt_ohm)), Txn.read 2] k (by simpa using hk)).symm
  · rename_i u log1 hr
    have hlog := Reset_ok (by rw [hr] : (Reset t self log).1 = .ok ())
    rw [hr] at hlog
    have hl : log1 = log ++ [Txn.select self.address, Txn.write [0x00, 0xff, 0xff],
        Txn.write [0x00], Txn.read 2, Txn.write [0x05], Txn.read 2] := congrArg Prod.snd hlog
    split
    · exact ⟨6, 0, by decide, by rw [hl]; rfl⟩
    · rename_i sadc hsadc
      split
      · exact ⟨6, 0, by decide, by rw [hl]; rfl⟩
      · rename_i badc hbadc
        have hc := Calibrate_config_lt max_voltage (f32 (max_current_amps * r_shunt_ohm)) sadc badc
        obtain ⟨j, hj12, hj⟩ := WriteRegister_log t log1 REG_CONFIG
          (Calibrate.config max_voltage (f32 (max_current_amps * r_shunt_ohm)) sadc badc).toUInt16
          true
        rw [htobe16_of_lt (by omega)] at hj
        split
        · rename_i e log2 hw
          rw [hw] at hj
          refine ⟨6 + j, _, hc, ?_⟩
          dsimp only at hj ⊢
          rw [hj, hl]
          rcases hj12 with rfl | rfl <;> simp [REG_CONFIG]
        · rename_i u2 log2 hw
          have hw2 := WriteRegister_ok (by rw [hw] : (WriteRegister t log1 REG_CONFIG
            (Calibrate.config max_voltage (f32 (max_current_amps * r_shunt_ohm)) sadc
              badc).toUInt16 true).1 = .ok ())
          rw [hw, htobe16_of_lt (by omega)] at hw2
          have hl2 : log2 = log1 ++ [Txn.write [REG_CONFIG,
              (Calibrate.config max_voltage (f32 (max_current_amps * r_shunt_ohm)) sadc
                badc).toUInt16 / 256,
              (Calibrate.config max_voltage (f32 (max_current_amps * r_shunt_ohm)) sadc
                badc).toUInt16 % 256], Txn.read 2] := congrArg Prod.snd hw2
          obtain ⟨i, hi12, hi⟩ := WriteRegister_log t log2 REG_CALIBRATION
            (Calibrate.cal_reg (f32 (max_current_amps / 32768)) r_shunt_ohm) true
          refine ⟨8 + i, _, hc, ?_⟩
          split
          · rename_i e log3 hw3
            rw [hw3] at hi
            dsimp only at hi ⊢
            rw [hi, hl2, hl]
            rcases hi12 with rfl | rfl <;> simp [REG_CONFIG, REG_CALIBRATION]
          · rename_i u3 log3 hw3
            rw [hw3] at hi
            dsimp only at hi ⊢
            rw [hi, hl2, hl]
            rcases hi12 with rfl | rfl <;> simp [REG_CONFIG, REG_CALIBRATION]

theorem config_fixed_bits (max_voltage max_shunt_voltage : ℚ) (sadc badc : Nat) :
    (Calibrate.config max_voltage max_shunt_voltage sadc badc).toUInt16 % 8 = 0b111 ∧
    (Calibrate.config max_voltage max_shunt_voltage sadc badc).toUInt16 / 16384 % 2 = 0 ∧
    (Calibrate.config max_voltage max_shunt_voltage sadc badc).toUInt16 / 32768 % 2 = 0 := by
  simp only [Calibrate.config, config_t.toUInt16]
  omega

/-- C16: the configuration word which `Calibrate` writes (once both parameter checks have
passed, `Reset` has succeeded and both sample counts have a code) has `mode` (bits 0..2)
`0b111`, bit 14 clear and bit 15 (`rst`) clear, so it is not `0xffff`; among the calls of
one `Calibrate` and of one `Reset` the frame `[0x00, 0xff, 0xff]` can only be the second
call, which is the reset write of `Reset`, and `Refresh` never writes it. -/
theorem Calibrate_never_writes_reset_word (t : Transport) (self : TINA219) (log : List Txn)
    (max_voltage max_current_amps r_shunt_ohm : ℚ) (n_sample_voltage n_sample_current : Nat) :
    (∀ (log1 : List Txn) (sadc badc : Nat), max_voltage ≤ 32 →
      f32 (max_current_amps * r_shunt_ohm) ≤ f32 0.32 → Reset t self log = (.ok (), log1) →
      SampleToResAvg n_sample_current = .ok sadc → SampleToResAvg n_sample_voltage = .ok badc →
      ∃ config : Nat,
        config = (Calibrate.config max_voltage (f32 (max_current_amps * r_shunt_ohm)) sadc
          badc).toUInt16 ∧
        (log1 ++ [Txn.write [0x00, config / 256, config % 256]])
          <+: (Calibrate t self log max_voltage max_current_amps r_shunt_ohm n_sample_voltage
            n_sample_current).2.2 ∧
        config % 8 = 0b111 ∧ config / 16384 % 2 = 0 ∧ config / 32768 % 2 = 0 ∧
        config ≠ 0xffff) ∧
    (∀ i, ((Calibrate t self log max_voltage max_current_amps r_shunt_ohm n_sample_voltage
        n_sample_current).2.2.drop log.length)[i]? = some (Txn.write [0x00, 0xff, 0xff]) →
      i = 1) ∧
    (∀ i, ((Reset t self log).2.drop log.length)[i]? = some (Txn.write [0x00, 0xff, 0xff]) →
      i = 1) ∧
    Txn.write [0x00, 0xff, 0xff] ∉ (Refresh t self log).2.2.drop log.length := by
  refine ⟨?_, ?_, ?_, ?_⟩
  · intro log1 sadc badc h1 h2 hreset hsadc hbadc
    have hlt := config_t_toUInt16_lt
      (Calibrate.config max_voltage (f32 (max_current_amps * r_shunt_ohm)) sadc badc)
    obtain ⟨b0, b14, b15⟩ := config_fixed_bits max_voltage (f32 (max_current_amps * r_shunt_ohm))
      sadc badc
    refine ⟨_, rfl, ?_, b0, b14, b15, ?_⟩
    · have h := Calibrate_config_write (t := t) h1 h2 hreset hsadc hbadc
      rwa [htobe16_of_lt hlt] at h
    · omega
  · obtain ⟨k, config, hc, hlog⟩ := Calibrate_log t self log max_voltage max_current_amps
      r_shunt_ohm n_sample_voltage n_sample_current
    intro i hi
    rw [hlog, List.drop_left, List.getElem?_take] at hi
    split_ifs at hi
    rcases i with _ | _ | _ | _ | _ | _ | _ | _ | _ | _ | i
    · simp at hi
    · rfl
    · simp at hi
    · simp at hi
    · simp at hi
    · simp at hi
    · simp only [List.getElem?_cons_succ, List.getElem?_cons_zero, Option.some.injEq,
        Txn.write.injEq, List.cons.injEq, and_true, true_and] at hi
      omega
    · simp at hi
    · simp at hi
    · simp at hi
    · simp at hi
  · obtain ⟨k, -, hlog⟩ := Reset_log t self log
    intro i hi
    rw [hlog, List.drop_left, List.getElem?_take] at hi
    split_ifs at hi
    rcases i with _ | _ | _ | _ | _ | _ | i
    · simp at hi
    · rfl
    · simp at hi
    · simp at hi
    · simp at hi
    · simp at hi
    · simp at hi
  · intro hmem
    have h := Refresh_written_frames hmem
    simp at h

/-- Instance of `Calibrate_never_writes_reset_word` on the simulated chip with the arguments
of the example program. -/
theorem Calibrate_never_writes_reset_word_witness :
    ((24 : ℚ) ≤ 32 ∧ f32 (1.5 * f32 0.1) ≤ f32 0.32 ∧
      Reset simChip dev0 []
        = (.ok (), [Txn.select 0x40, Txn.write [0x00, 0xff, 0xff], Txn.write [0x00], Txn.read 2,
            Txn.write [0x05], Txn.read 2]) ∧
      SampleToResAvg 128 = .ok 0b1111) ∧
    ∃ config : Nat,
      config = (Calibrate.config 24 (f32 (1.5 * f32 0.1)) 0b1111 0b1111).toUInt16 ∧
      ([Txn.select 0x40, Txn.write [0x00, 0xff, 0xff], Txn.write [0x00], Txn.read 2,
          Txn.write [0x05], Txn.read 2] ++ [Txn.write [0x00, config / 256, config % 256]])
        <+: (Calibrate simChip dev0 [] 24 1.5 (f32 0.1) 128 128).2.2 ∧
      config % 8 = 0b111 ∧ config / 16384 % 2 = 0 ∧ config / 32768 % 2 = 0 ∧
      config ≠ 0xffff :=
  ⟨⟨by norm_num, shunt_check_example, Reset_simChip, SampleToResAvg_128⟩,
    (Calibrate_never_writes_reset_word simChip dev0 [] 24 1.5 (f32 0.1) 128 128).1 _ 0b1111
      0b1111 (by norm_num) shunt_check_example Reset_simChip SampleToResAvg_128
      SampleToResAvg_128⟩

/-- C19: a `Calibrate` that returns normally has made exactly these calls, in this order:
device selection, the reset write `[0x00, 0xff, 0xff]`, the read of register 0x00, the read
of register 0x05, the write of the configuration word to register 0x00 with its read-back,
and the write of `cal_reg` to register 0x05 with its read-back. -/
theorem Calibrate_success_sequence (t : Transport) (self : TINA219) (log : List Txn)
    (max_voltage max_current_amps r_shunt_ohm : ℚ) (n_sample_voltage n_sample_current : Nat)
    (hok : (Calibrate t self log max_voltage max_current_amps r_shunt_ohm n_sample_voltage
      n_sample_current).1 = .ok ()) :
    ∃ sadc badc config cal_reg : Nat,
      SampleToResAvg n_sample_current = .ok sadc ∧
      SampleToResAvg n_sample_voltage = .ok badc ∧
      config = (Calibrate.config max_voltage (f32 (max_current_amps * r_shunt_ohm)) sadc
        badc).toUInt16 ∧
      cal_reg = Calibrate.cal_reg (f32 (max_current_amps / 32768)) r_shunt_ohm ∧
      (Calibrate t self log max_voltage max_current_amps r_shunt_ohm n_sample_voltage
        n_sample_current).2.2
        = log ++ [Txn.select self.address, Txn.write [0x00, 0xff, 0xff],
            Txn.write [0x00], Txn.read 2, Txn.write [0x05], Txn.read 2,
            Txn.write [0x00, config / 256, config % 256], Txn.read 2,
            Txn.write [0x05, cal_reg / 256, cal_reg % 256], Txn.read 2] := by
  by_cases h1 : max_voltage > 32
  · rw [Calibrate_max_voltage _ _ _ _ h1] at hok
    cases hok
  by_cases h2 : f32 (max_current_amps * r_shunt_ohm) > f32 0.32
  · rw [Calibrate_shunt_voltage _ _ (not_lt.1 h1) h2] at hok
    cases hok
  rw [Calibrate_checked _ _ (not_lt.1 h1) (not_lt.1 h2)] at hok ⊢
  rcases hR : Reset t self log with ⟨e | u, log1⟩
  · rw [hR] at hok
    cases hok
  rw [hR] at hok
  have hl : log1 = log ++ [Txn.select self.address, Txn.write [0x00, 0xff, 0xff],
      Txn.write [0x00], Txn.read 2, Txn.write [0x05], Txn.read 2] := by
    have := Reset_ok (by rw [hR] : (Reset t self log).1 = .ok ())
    rw [hR] at this
    exact congrArg Prod.snd this
  rcases hS : SampleToResAvg n_sample_current with e | sadc
  · rw [hS] at hok
    cases hok
  rw [hS] at hok
  rcases hB : SampleToResAvg n_sample_voltage with e | badc
  · rw [hB] at hok
    cases hok
  rw [hB] at hok
  dsimp only at hok ⊢
  rcases hW : WriteRegister t log1 REG_CONFIG (Calibrate.config max_voltage
    (f32 (max_current_amps * r_shunt_ohm)) sadc badc).toUInt16 true with ⟨e | u2, log2⟩
  · rw [hW] at hok
    cases hok
  rw [hW] at hok
  have hl2 : log2 = log1 ++ [Txn.write [0x00,
      (Calibrate.config max_voltage (f32 (max_current_amps * r_shunt_ohm)) sadc badc).toUInt16 / 256,
      (Calibrate.config max_voltage (f32 (max_current_amps * r_shunt_ohm)) sadc badc).toUInt16 % 256],
      Txn.read 2] := by
    have := WriteRegister_ok (by rw [hW] : (WriteRegister t log1 REG_CONFIG (Calibrate.config
      max_voltage (f32 (max_current_amps * r_shunt_ohm)) sadc badc).toUInt16 true).1 = .ok ())
    rw [hW, htobe16_of_lt (config_t_toUInt16_lt _)] at this
    exact congrArg Prod.snd this
  dsimp only at hok ⊢
  rcases hC : WriteRegister t log2 REG_CALIBRATION (Calibrate.cal_reg
    (f32 (max_current_amps / 32768)) r_shunt_ohm) true with ⟨e | u3, log3⟩
  · rw [hC] at hok
    cases hok
  have hl3 : log3 = log2 ++ [Txn.write [0x05,
      Calibrate.cal_reg (f32 (max_current_amps / 32768)) r_shunt_ohm / 256,
      Calibrate.cal_reg (f32 (max_current_amps / 32768)) r_shunt_ohm % 256], Txn.read 2] := by
    have := WriteRegister_ok (by rw [hC] : (WriteRegister t log2 REG_CALIBRATION
      (Calibrate.cal_reg (f32 (max_current_amps / 32768)) r_shunt_ohm) true).1 = .ok ())
    rw [hC, htobe16_of_lt (Calibrate_cal_reg_lt _ _)] at this
    exact congrArg Prod.snd this
  refine ⟨sadc, badc, _, _, rfl, rfl, rfl, rfl, ?_⟩
  dsimp only
  rw [hl3, hl2, hl]
  simp

/-- Instance of `Calibrate_success_sequence`: `Calibrate(24, 1.5, 0.1f, 128, 128)` on the
simulated chip writes the configuration `0x37ff` as `[0x00, 0x37, 0xff]` and the
calibration 8946 as `[0x05, 0x22, 0xf2]`. -/
theorem Calibrate_success_sequence_witness :
    (Calibrate simChip dev0 [] 24 1.5 (f32 0.1) 128 128).1 = .ok () ∧
    (Calibrate.config 24 (f32 (1.5 * f32 0.1)) 0b1111 0b1111).toUInt16 = 0x37ff ∧
    Calibrate.cal_reg (f32 (1.5 / 32768)) (f32 0.1) = 8946 ∧
    (Calibrate simChip dev0 [] 24 1.5 (f32 0.1) 128 128).2.2
      = [] ++ [Txn.select dev0.address, Txn.write [0x00, 0xff, 0xff], Txn.write [0x00],
          Txn.read 2, Txn.write [0x05], Txn.read 2, Txn.write [0x00, 0x37ff / 256, 0x37ff % 256],
          Txn.read 2, Txn.write [0x05, 8946 / 256, 8946 % 256], Txn.read 2] := by
  have hok : (Calibrate simChip dev0 [] 24 1.5 (f32 0.1) 128 128).1 = .ok () :=
    congrArg Prod.fst Calibrate_simChip_example
  obtain ⟨sadc, badc, config, cal_reg, hs, hb, hc, hcal, hlog⟩ :=
    Calibrate_success_sequence simChip dev0 [] 24 1.5 (f32 0.1) 128 128 hok
  rw [SampleToResAvg_128] at hs hb
  cases hs
  cases hb
  rw [config_example] at hc
  rw [cal_reg_example] at hcal
  subst hc hcal
  exact ⟨hok, config_example, cal_reg_example, hlog⟩

/-! ## Encoding and decoding the configuration word -/

theorem shift_mask (w s n : Nat) : (w >>> s) &&& (2 ^ n - 1) = w / 2 ^ s % 2 ^ n := by
  rw [Nat.and_pow_two_sub_one_eq_mod, Nat.shiftRight_eq_div_pow]

theorem config_t_ofUInt16_fields (w : Nat) :
    config_t.ofUInt16 w
      = ⟨w % 8, w / 8 % 16, w / 128 % 16, w / 2048 % 4, w / 8192 % 2, w / 16384 % 2,
          w / 32768 % 2⟩ := by
  have h0 := shift_mask w 0 3
  have h1 := shift_mask w 3 4
  have h2 := shift_mask w 7 4
  have h3 := shift_mask w 11 2
  have h4 := shift_mask w 13 1
  have h5 := shift_mask w 14 1
  have h6 := shift_mask w 15 1
  simp only [Nat.shiftRight_zero] at h0
  norm_num at h0 h1 h2 h3 h4 h5 h6
  simp only [config_t.ofUInt16, Nat.and_one_is_mod, h0, h1, h2, h3, h4, h5, h6]

/-- C17: bit-fields within their widths, encoded into the configuration word as `config_t`
lays them out and decoded by shift and mask, come back unchanged; and the decoded fields of
any 16-bit word encode to that word. -/
theorem config_t_roundtrip :
    (∀ c : config_t, c.mode < 8 → c.sadc < 16 → c.badc < 16 → c.pg < 4 → c.brng < 2 →
      c.__unused0 < 2 → c.rst < 2 → config_t.ofUInt16 c.toUInt16 = c) ∧
    (∀ w : Nat, w < 65536 → (config_t.ofUInt16 w).toUInt16 = w) := by
  constructor
  · rintro ⟨mode, sadc, badc, pg, brng, unused0, rst⟩ h0 h1 h2 h3 h4 h5 h6
    dsimp only at h0 h1 h2 h3 h4 h5 h6
    rw [config_t_ofUInt16_fields]
    simp only [config_t.toUInt16, config_t.mk.injEq]
    refine ⟨?_, ?_, ?_, ?_, ?_, ?_, ?_⟩ <;> omega
  · intro w hw
    rw [config_t_ofUInt16_fields]
    simp only [config_t.toUInt16]
    omega

/-- Instance of `config_t_roundtrip`: the fields of the example program's configuration
and the word `0x37ff`. -/
theorem config_t_roundtrip_witness :
    ((0b111 < 8 ∧ 0b1111 < 16 ∧ 0b10 < 4 ∧ 1 < 2 ∧ 0 < 2) ∧
      config_t.ofUInt16 (config_t.toUInt16 ⟨0b111, 0b1111, 0b1111, 0b10, 1, 0, 0⟩)
        = ⟨0b111, 0b1111, 0b1111, 0b10, 1, 0, 0⟩) ∧
    (0x37ff < 65536 ∧ (config_t.ofUInt16 0x37ff).toUInt16 = 0x37ff) :=
  ⟨⟨by decide,
      config_t_roundtrip.1 ⟨0b111, 0b1111, 0b1111, 0b10, 1, 0, 0⟩ (by decide) (by decide)
        (by decide) (by decide) (by decide) (by decide) (by decide)⟩,
    ⟨by decide, config_t_roundtrip.2 0x37ff (by decide)⟩⟩

/-! ## Calibrate: a calibration write that does not verify -/

theorem Reset_calibrationStuckChip :
    Reset calibrationStuckChip dev1 []
      = (.ok (), [Txn.select 0x40, Txn.write [0x00, 0xff, 0xff], Txn.write [0x00], Txn.read 2,
          Txn.write [0x05], Txn.read 2]) := by
  rw [Reset_paths]
  rfl

theorem WriteRegister_config_calibrationStuckChip :
    WriteRegister calibrationStuckChip
        [Txn.select 0x40, Txn.write [0x00, 0xff, 0xff], Txn.write [0x00], Txn.read 2,
          Txn.write [0x05], Txn.read 2]
        REG_CONFIG (Calibrate.config 24 (f32 (1.5 * f32 0.1)) 0b1111 0b1111).toUInt16 true
      = (.ok (), [Txn.select 0x40, Txn.write [0x00, 0xff, 0xff], Txn.write [0x00], Txn.read 2,
          Txn.write [0x05], Txn.read 2, Txn.write [0x00, 0x37, 0xff], Txn.read 2]) := by
  rw [config_example]
  rfl

/-- C18, as stated, fails: on a chip whose calibration register reads back 0 after the
write of 8946, `Calibrate(24, 1.5, 0.1f, 128, 128)` on a device object with
`current_lsb = 0.0001` throws "register write verify failed" and leaves
`current_lsb = 1.5 / 32768` in the object, while `voltage` and `current` are kept. -/
theorem Calibrate_current_lsb_after_failed_verify :
    Calibrate calibrationStuckChip dev1 [] 24 1.5 (f32 0.1) 128 128
      = (.error "register write verify failed", { dev1 with current_lsb := 1.5 / 32768 },
          [Txn.select 0x40, Txn.write [0x00, 0xff, 0xff], Txn.write [0x00], Txn.read 2,
            Txn.write [0x05], Txn.read 2, Txn.write [0x00, 0x37, 0xff], Txn.read 2,
            Txn.write [0x05, 0x22, 0xf2], Txn.read 2]) ∧
    (Calibrate calibrationStuckChip dev1 [] 24 1.5 (f32 0.1) 128 128).2.1.current_lsb
      ≠ dev1.current_lsb := by
  have hlsb : f32 (1.5 / 32768) = 1.5 / 32768 := by
    rw [current_lsb_example]
    norm_num
  have hcal : WriteRegister calibrationStuckChip
        [Txn.select 0x40, Txn.write [0x00, 0xff, 0xff], Txn.write [0x00], Txn.read 2,
          Txn.write [0x05], Txn.read 2, Txn.write [0x00, 0x37, 0xff], Txn.read 2]
        REG_CALIBRATION (Calibrate.cal_reg (f32 (1.5 / 32768)) (f32 0.1)) true
      = (.error "register write verify failed",
          [Txn.select 0x40, Txn.write [0x00, 0xff, 0xff], Txn.write [0x00], Txn.read 2,
            Txn.write [0x05], Txn.read 2, Txn.write [0x00, 0x37, 0xff], Txn.read 2,
            Txn.write [0x05, 0x22, 0xf2], Txn.read 2]) := by
    rw [cal_reg_example]
    rfl
  have h0 := Calibrate_calibration_result (by norm_num) shunt_check_example
    Reset_calibrationStuckChip SampleToResAvg_128 SampleToResAvg_128
    WriteRegister_config_calibrationStuckChip hcal
  have h : Calibrate calibrationStuckChip dev1 [] 24 1.5 (f32 0.1) 128 128
      = (.error "register write verify failed", { dev1 with current_lsb := 1.5 / 32768 },
          [Txn.select 0x40, Txn.write [0x00, 0xff, 0xff], Txn.write [0x00], Txn.read 2,
            Txn.write [0x05], Txn.read 2, Txn.write [0x00, 0x37, 0xff], Txn.read 2,
            Txn.write [0x05, 0x22, 0xf2], Txn.read 2]) := by
    rw [h0, hlsb]
  refine ⟨h, ?_⟩
  rw [h]
  norm_num [dev1]

/-- C18 (amended): when `Calibrate` has got as far as the calibration register and the
verified write of `cal_reg` is complete but reads back two bytes `b0`, `b1` with
`b0 * 256 + b1` different from `cal_reg`, it throws "register write verify failed";
`voltage` and `current` (and the handle and address) keep their values, and `current_lsb`
is already `max_current_amps / 32768`, rounded to binary32. -/
theorem Calibrate_failed_verify (t : Transport) (self : TINA219) (log log1 log2 : List Txn)
    (max_voltage max_current_amps r_shunt_ohm : ℚ) (n_sample_voltage n_sample_current : Nat)
    (sadc badc b0 b1 : Nat) (h1 : max_voltage ≤ 32)
    (h2 : f32 (max_current_amps * r_shunt_ohm) ≤ f32 0.32)
    (hreset : Reset t self log = (.ok (), log1))
    (hsadc : SampleToResAvg n_sample_current = .ok sadc)
    (hbadc : SampleToResAvg n_sample_voltage = .ok badc)
    (hconfig : WriteRegister t log1 REG_CONFIG (Calibrate.config max_voltage
      (f32 (max_current_amps * r_shunt_ohm)) sadc badc).toUInt16 true = (.ok (), log2))
    (hw : t.write log2 [0x05, Calibrate.cal_reg (f32 (max_current_amps / 32768)) r_shunt_ohm / 256,
      Calibrate.cal_reg (f32 (max_current_amps / 32768)) r_shunt_ohm % 256] = 3)
    (hr : t.read (log2 ++ [Txn.write [0x05,
      Calibrate.cal_reg (f32 (max_current_amps / 32768)) r_shunt_ohm / 256,
      Calibrate.cal_reg (f32 (max_current_amps / 32768)) r_shunt_ohm % 256]]) 2 = (2, [b0, b1]))
    (hb0 : b0 < 256) (hb1 : b1 < 256)
    (hne : b0 * 256 + b1 ≠ Calibrate.cal_reg (f32 (max_current_amps / 32768)) r_shunt_ohm) :
    (Calibrate t self log max_voltage max_current_amps r_shunt_ohm n_sample_voltage
        n_sample_current).1 = .error "register write verify failed" ∧
    (Calibrate t self log max_voltage max_current_amps r_shunt_ohm n_sample_voltage
        n_sample_current).2.1.voltage = self.voltage ∧
    (Calibrate t self log max_voltage max_current_amps r_shunt_ohm n_sample_voltage
        n_sample_current).2.1.current = self.current ∧
    (Calibrate t self log max_voltage max_current_amps r_shunt_ohm n_sample_voltage
        n_sample_current).2.1.fd_i2cbus = self.fd_i2cbus ∧
    (Calibrate t self log max_voltage max_current_amps r_shunt_ohm n_sample_voltage
        n_sample_current).2.1.address = self.address ∧
    (Calibrate t self log max_voltage max_current_amps r_shunt_ohm n_sample_voltage
        n_sample_current).2.1.current_lsb = f32 (max_current_amps / 32768) := by
  have hlt := Calibrate_cal_reg_lt (f32 (max_current_amps / 32768)) r_shunt_ohm
  rw [← htobe16_of_lt hlt] at hw hr
  have hr1 : (t.read (log2 ++ [Txn.write (0x05 :: htobe16 (Calibrate.cal_reg
      (f32 (max_current_amps / 32768)) r_shunt_ohm))]) 2).1 = 2 := by rw [hr]
  have hd : buf16 (t.read (log2 ++ [Txn.write (0x05 :: htobe16 (Calibrate.cal_reg
      (f32 (max_current_amps / 32768)) r_shunt_ohm))]) 2).2
      ≠ htobe16 (Calibrate.cal_reg (f32 (max_current_amps / 32768)) r_shunt_ohm) := by
    rw [hr]
    simp only [buf16_pair hb0 hb1]
    exact fun h => hne ((pair_eq_htobe16_iff hb1 hlt).1 h)
  have hcal := @WriteRegister_mismatch t log2 0x05 _ hw hr1 hd
  rw [Calibrate_checked _ _ h1 h2]
  simp only [hreset, hsadc, hbadc, hconfig, REG_CALIBRATION, hcal, and_self]

/-- Instance of `Calibrate_failed_verify` on the chip whose calibration register reads
back 0. -/
theorem Calibrate_failed_verify_witness :
    (Calibrate calibrationStuckChip dev1 [] 24 1.5 (f32 0.1) 128 128).1
      = .error "register write verify failed" ∧
    (Calibrate calibrationStuckChip dev1 [] 24 1.5 (f32 0.1) 128 128).2.1.voltage
      = dev1.voltage ∧
    (Calibrate calibrationStuckChip dev1 [] 24 1.5 (f32 0.1) 128 128).2.1.current
      = dev1.current ∧
    (Calibrate calibrationStuckChip dev1 [] 24 1.5 (f32 0.1) 128 128).2.1.fd_i2cbus
      = dev1.fd_i2cbus ∧
    (Calibrate calibrationStuckChip dev1 [] 24 1.5 (f32 0.1) 128 128).2.1.address
      = dev1.address ∧
    (Calibrate calibrationStuckChip dev1 [] 24 1.5 (f32 0.1) 128 128).2.1.current_lsb
      = f32 (1.5 / 32768) :=
  Calibrate_failed_verify calibrationStuckChip dev1 [] _ _ 24 1.5 (f32 0.1) 128 128 0b1111
    0b1111 0 0 (by norm_num) shunt_check_example Reset_calibrationStuckChip SampleToResAvg_128
    SampleToResAvg_128 WriteRegister_config_calibrationStuckChip
    (by rw [cal_reg_example]; rfl) (by rw [cal_reg_example]; rfl) (by decide) (by decide)
    (by rw [cal_reg_example]; decide)

/-! ## Range of the calibration quotient -/

/-- C20, as stated, fails. For `max_current_amps = 0.99f`, `r_shunt_ohm = 0.020686869f`
(both positive, product within `(0.02048, 0.32]`) the exact quotient has floor 65535, but
the binary32 quotient of `Calibrate` is 65536.0, which is no 16-bit value, and the
calibration register is written with 0. For `max_current_amps = 1e-20f`,
`r_shunt_ohm = 1e-21f` the exact divisor is not zero, but the binary32 divisor
`current_lsb * r_shunt_ohm` is. -/
theorem Calibrate_quotient_at_full_scale :
    ((0 < f32 0.99 ∧ 0 < f32 0.020686869 ∧ f32 0.99 * f32 0.020686869 ≤ 0.32 ∧
        0.02048 < f32 0.99 * f32 0.020686869) ∧
      ⌊(0.04096 : ℚ) / (f32 0.99 / 32768 * f32 0.020686869)⌋ = 65535 ∧
      Calibrate.quotient (f32 (f32 0.99 / 32768)) (f32 0.020686869) = 65536 ∧
      Calibrate simChip dev0 [] 24 (f32 0.99) (f32 0.020686869) 128 128
        = (.ok (), { dev0 with current_lsb := 4152361 / 137438953472 },
            [Txn.select 0x40, Txn.write [0x00, 0xff, 0xff], Txn.write [0x00], Txn.read 2,
              Txn.write [0x05], Txn.read 2, Txn.write [0x00, 0x27, 0xff], Txn.read 2,
              Txn.write [0x05, 0x00, 0x00], Txn.read 2])) ∧
    ((0 < f32 1e-20 ∧ 0 < f32 1e-21 ∧ f32 1e-20 * f32 1e-21 ≤ 0.32) ∧
      f32 1e-20 / 32768 * f32 1e-21 ≠ 0 ∧
      f32 (f32 (f32 1e-20 / 32768) * f32 1e-21) = 0) := by
  refine ⟨⟨⟨?_, ?_, ?_, ?_⟩, ?_, quotient_full_scale, Calibrate_simChip_full_scale⟩,
    ⟨?_, ?_, ?_⟩, ?_, divisor_tiny⟩
  · rw [f32_0_99]
    norm_num
  · rw [f32_0_020686869]
    norm_num
  · rw [f32_0_99, f32_0_020686869]
    norm_num
  · rw [f32_0_99, f32_0_020686869]
    norm_num
  · rw [f32_0_99, f32_0_020686869, Int.floor_eq_iff]
    norm_num
  · rw [f32_1e_20]
    norm_num
  · rw [f32_1e_21]
    norm_num
  · rw [f32_1e_20, f32_1e_21]
    norm_num
  · rw [f32_1e_20, f32_1e_21]
    norm_num

/-- C20 (amended): for `max_current_amps > 0`, `r_shunt_ohm > 0`, a binary32 product
`max_current_amps * r_shunt_ohm <= 0.32f` (as holds when the exact product is `<= 0.32`)
and a `max_current_amps` whose division by 32768 is exact in binary32, the binary32 divisor
`current_lsb * r_shunt_ohm` of `Calibrate` is zero if and only if
`max_current_amps * r_shunt_ohm <= 2^-135`, and the floor `q` of the binary32 quotient
`0.04096f / (current_lsb * r_shunt_ohm)` is at least 4194; `q < 65536`, and with it the
conversion to 16 bits gives `q` itself, if and only if
`max_current_amps * r_shunt_ohm > 21990233 / 2^30` (0.0204800004). -/
theorem Calibrate_quotient_range (max_current_amps r_shunt_ohm : ℚ)
    (hcurrent : 0 < max_current_amps) (hshunt : 0 < r_shunt_ohm)
    (h2 : f32 (max_current_amps * r_shunt_ohm) ≤ f32 0.32)
    (hlsb : f32 (max_current_amps / 32768) = max_current_amps / 32768) :
    (f32 (f32 (max_current_amps / 32768) * r_shunt_ohm) = 0
      ↔ max_current_amps * r_shunt_ohm ≤ 1 / 2 ^ 135) ∧
    4194 ≤ ⌊Calibrate.quotient (f32 (max_current_amps / 32768)) r_shunt_ohm⌋ ∧
    (⌊Calibrate.quotient (f32 (max_current_amps / 32768)) r_shunt_ohm⌋ < 65536
      ↔ 21990233 / 1073741824 < max_current_amps * r_shunt_ohm) ∧
    ((float_to_uint16 (Calibrate.quotient (f32 (max_current_amps / 32768)) r_shunt_ohm) : ℤ)
        = ⌊Calibrate.quotient (f32 (max_current_amps / 32768)) r_shunt_ohm⌋
      ↔ 21990233 / 1073741824 < max_current_amps * r_shunt_ohm) := by
  have hx : 0 < max_current_amps / 32768 * r_shunt_ohm := by positivity
  have hp : max_current_amps * r_shunt_ohm ≤ 21474837 / 67108864 :=
    not_lt.1 (fun h => absurd ((f32_gt_shunt_limit_iff _).2 h) (not_lt.2 h2))
  rw [hlsb]
  have hzero : f32 (max_current_amps / 32768 * r_shunt_ohm) = 0
      ↔ max_current_amps * r_shunt_ohm ≤ 1 / 2 ^ 135 := by
    rw [f32_eq_zero_iff hx]
    constructor <;> intro h <;> norm_num at h ⊢ <;> linarith
  have hge : 8589935 / 2048 ≤ Calibrate.quotient (max_current_amps / 32768) r_shunt_ohm :=
    f32_div_ge_of_le hx (by linarith)
  have hlow : 4194 ≤ ⌊Calibrate.quotient (max_current_amps / 32768) r_shunt_ohm⌋ := by
    rw [Int.le_floor]
    push_cast
    linarith
  have hiff : ⌊Calibrate.quotient (max_current_amps / 32768) r_shunt_ohm⌋ < 65536
      ↔ 21990233 / 1073741824 < max_current_amps * r_shunt_ohm := by
    rw [Int.floor_lt]
    push_cast
    rw [Calibrate.quotient, f32_div_lt_iff hx]
    constructor <;> intro h <;> linarith
  refine ⟨hzero, hlow, hiff, ?_⟩
  rw [← hiff]
  have hx0 : 0 ≤ Calibrate.quotient (max_current_amps / 32768) r_shunt_ohm := by linarith
  unfold float_to_uint16
  rw [if_pos hx0]
  have hm := Int.emod_lt_of_pos ⌊Calibrate.quotient (max_current_amps / 32768) r_shunt_ohm⌋
    (by norm_num : (0 : ℤ) < 65536)
  have hn := Int.emod_nonneg ⌊Calibrate.quotient (max_current_amps / 32768) r_shunt_ohm⌋
    (by norm_num : (65536 : ℤ) ≠ 0)
  rw [Int.toNat_of_nonneg hn]
  constructor
  · intro h
    omega
  · intro h
    omega

/-- Instance of `Calibrate_quotient_range`: 1 A over a 0.01f ohm shunt; the binary32
quotient is `8589935 / 64` = 134217.73 and its floor 134217 does not fit into 16 bits. -/
theorem Calibrate_quotient_range_witness :
    ((0 : ℚ) < 1 ∧ 0 < f32 0.01 ∧ f32 (1 * f32 0.01) ≤ f32 0.32 ∧
      f32 (1 / 32768) = 1 / 32768) ∧
    Calibrate.quotient (f32 (1 / 32768)) (f32 0.01) = 8589935 / 64 ∧
    ¬ ⌊Calibrate.quotient (f32 (1 / 32768)) (f32 0.01)⌋ < 65536 :=
  ⟨⟨by norm_num, by rw [f32_0_01]; norm_num, shunt_check_low_shunt, current_lsb_low_shunt⟩,
    quotient_low_shunt,
    fun h => absurd ((Calibrate_quotient_range 1 (f32 0.01) (by norm_num)
      (by rw [f32_0_01]; norm_num) shunt_check_low_shunt current_lsb_low_shunt).2.2.1.1 h)
      (by rw [f32_0_01]; norm_num)⟩

end ina219
